import Mathlib

/-!
# Scene manager: registries, lights, transforms and the fence assembly

A shallow embedding of `Source/SceneManager.cpp`.

* `float` values are taken in exact arithmetic: every definition is generic in
  a field `K` and runs over `ℚ`; the trigonometric functions that `glm::rotate`
  calls are a parameter (`Trig K`).
* Every function returns, next to its C++ result, the list of the calls it made
  on its collaborators (the shader manager's uniform setters, OpenGL, the mesh
  renderer), in program order.
* Undefined behaviour of the C++ code (a NULL dereference, an array access past
  its end) is the result `none`.
-/

namespace SceneManager

/-! ## glm value types -/

/-- The type `glm::vec2`. -/
@[ext]
structure vec2 (K : Type) where
  x : K
  y : K
deriving DecidableEq, Repr

/-- The type `glm::vec3`. -/
@[ext]
structure vec3 (K : Type) where
  x : K
  y : K
  z : K
deriving DecidableEq, Repr

/-- The type `glm::vec4`. -/
@[ext]
structure vec4 (K : Type) where
  x : K
  y : K
  z : K
  w : K
deriving DecidableEq, Repr

/-- The type `glm::mat4`, column-major as in glm: `c0 .. c3` are the columns. -/
@[ext]
structure mat4 (K : Type) where
  c0 : vec4 K
  c1 : vec4 K
  c2 : vec4 K
  c3 : vec4 K
deriving DecidableEq, Repr

/-! ## Collaborators -/

/-- The value passed to one of the shader manager's uniform setters; the
constructor is the setter (`setIntValue`, `setBoolValue`, ...). -/
inductive UniformValue (K : Type) where
  | int (v : Int)
  | bool (v : Bool)
  | float (v : K)
  | vec2 (v : vec2 K)
  | vec3 (v : vec3 K)
  | vec4 (v : vec4 K)
  | mat4 (v : mat4 K)
  | sampler2D (v : Int)
deriving DecidableEq, Repr

/-- The meshes of `ShapeMeshes` the scene draws. -/
inductive Mesh where
  | box
  | cylinder
  | cone
  | prism
  | plane
deriving DecidableEq, Repr

/-- One call on a collaborator. `glTexImage2D` keeps the channel count of the
format it was given (3 for `GL_RGB`, 4 for `GL_RGBA`). -/
inductive Call (K : Type) where
  | setUniform (name : String) (v : UniformValue K)
  | glGenTextures (id : Nat)
  | glBindTexture (id : Nat)
  | glActiveTexture (unit : Nat)
  | glTexParameteri (pname param : String)
  | glTexImage2D (channels : Int) (width height : Int)
  | glGenerateMipmap
  | stbi_image_free
  | draw (mesh : Mesh)
deriving DecidableEq, Repr

/-! ## State -/

/-- An entry of the texture table. `ID` is the `GLuint` texture name: `CreateGLTexture`
stores a `GLuint` in it and `DestroyGLTextures` passes its address to `glGenTextures`. -/
structure TEXTURE_INFO where
  tag : String
  ID : Nat
deriving DecidableEq, Repr

/-- A material, with the fields in the order of the aggregate initialisers of
`DefineObjectMaterials`. -/
structure OBJECT_MATERIAL (K : Type) where
  ambientStrength : K
  ambientColor : vec3 K
  diffuseColor : vec3 K
  specularColor : vec3 K
  shininess : K
  tag : String
deriving DecidableEq, Repr

/-- The members of `SceneManager`.
`m_pShaderManager` is `true` when the pointer is not NULL; `m_textureIDs` is the
array `m_textureIDs[16]`, `m_loadedTextures` the `int` count of its used
entries. -/
structure State (K : Type) where
  m_pShaderManager : Bool
  m_loadedTextures : Int
  m_textureIDs : List TEXTURE_INFO
  m_objectMaterials : List (OBJECT_MATERIAL K)
  m_texBrick : Nat
  m_texRoof : Nat

/-- The size of the array `m_textureIDs`. -/
def textureCapacity : Nat := 16

/-- A `GLuint` converted to `int`: the 32-bit two's complement reading. -/
def toInt32 (n : Nat) : Int :=
  if n % 2 ^ 32 < 2 ^ 31 then ((n % 2 ^ 32 : Nat) : Int) else ((n % 2 ^ 32 : Nat) : Int) - 2 ^ 32

variable {K : Type}

/-! ## Texture registry -/

/-- What `stbi_load` wrote for a file it could decode. -/
structure Image where
  width : Int
  height : Int
  colorChannels : Int
deriving DecidableEq, Repr

/-- The method `CreateGLTexture(filename, tag)`. `image` is what `stbi_load(filename, ...)`
returned (`none` for a null pointer) and `textureID` the name `glGenTextures`
produced. The result is the returned `bool`, the state and the calls made; `none`
when the registration writes outside `m_textureIDs`. The local `register` is the code
after the channel test, reached with the format of the upload. -/
def CreateGLTexture (s : State K) (image : Option Image) (textureID : Nat) (tag : String) :
    Option (Bool × State K × List (Call K)) :=
  match image with
  | some img =>
    let setup : List (Call K) :=
      [.glGenTextures textureID, .glBindTexture textureID,
        .glTexParameteri "GL_TEXTURE_WRAP_S" "GL_REPEAT",
        .glTexParameteri "GL_TEXTURE_WRAP_T" "GL_REPEAT",
        .glTexParameteri "GL_TEXTURE_MIN_FILTER" "GL_LINEAR",
        .glTexParameteri "GL_TEXTURE_MAG_FILTER" "GL_LINEAR"]
    let register (format : Int) : Option (Bool × State K × List (Call K)) :=
      if 0 ≤ s.m_loadedTextures ∧ s.m_loadedTextures.toNat < s.m_textureIDs.length then
        some (true,
          { s with
            m_textureIDs := s.m_textureIDs.set s.m_loadedTextures.toNat ⟨tag, textureID⟩
            m_loadedTextures := s.m_loadedTextures + 1 },
          setup ++ [.glTexImage2D format img.width img.height, .glGenerateMipmap,
            .stbi_image_free, .glBindTexture 0])
      else none
    if img.colorChannels = 3 then register 3
    else if img.colorChannels = 4 then register 4
    else some (false, s, setup)
  | none => some (false, s, [])

/-- The `while` loop of `FindTextureSlot` from the loop state
`(textureSlot, index, bFound)`; `none` when it reads outside `m_textureIDs`. -/
def FindTextureSlot.loop (s : State K) (tag : String) (textureSlot : Int) (index : Nat)
    (bFound : Bool) : Option Int :=
  if h : (index : Int) < s.m_loadedTextures ∧ bFound = false then
    match s.m_textureIDs[index]? with
    | none => none
    | some e =>
      if e.tag = tag then FindTextureSlot.loop s tag index index true
      else FindTextureSlot.loop s tag textureSlot (index + 1) bFound
  else some textureSlot
termination_by (s.m_loadedTextures - index).toNat + (if bFound then 0 else 1)
decreasing_by
  all_goals simp_wf
  · simp [h.2]
  · omega

/-- The method `FindTextureSlot(tag)`; `none` when the scan reads outside `m_textureIDs`. -/
def FindTextureSlot (s : State K) (tag : String) : Option Int :=
  FindTextureSlot.loop s tag (-1) 0 false

/-- The `while` loop of `FindTextureID` from the loop state
`(textureID, index, bFound)`; `none` when it reads outside `m_textureIDs`. -/
def FindTextureID.loop (s : State K) (tag : String) (textureID : Int) (index : Nat)
    (bFound : Bool) : Option Int :=
  if h : (index : Int) < s.m_loadedTextures ∧ bFound = false then
    match s.m_textureIDs[index]? with
    | none => none
    | some e =>
      if e.tag = tag then FindTextureID.loop s tag (toInt32 e.ID) index true
      else FindTextureID.loop s tag textureID (index + 1) bFound
  else some textureID
termination_by (s.m_loadedTextures - index).toNat + (if bFound then 0 else 1)
decreasing_by
  all_goals simp_wf
  · simp [h.2]
  · omega

/-- The method `FindTextureID(tag)`; `none` when the scan reads outside `m_textureIDs`. -/
def FindTextureID (s : State K) (tag : String) : Option Int :=
  FindTextureID.loop s tag (-1) 0 false

/-- Entry `e` is registered at index `i`: it is below the count `m_loadedTextures`. -/
def Registered (s : State K) (i : Nat) (e : TEXTURE_INFO) : Prop :=
  (i : Int) < s.m_loadedTextures ∧ s.m_textureIDs[i]? = some e

/-- One call of `CreateGLTexture`: what the image loader and `glGenTextures` gave, and the tag. -/
structure Load where
  image : Option Image
  textureID : Nat
  tag : String
deriving DecidableEq, Repr

/-- A sequence of `CreateGLTexture` calls, each on the state the previous one left: the
returned values in call order and the final state. -/
def loadAll (s : State K) : List Load → Option (List Bool × State K)
  | [] => some ([], s)
  | l :: ls =>
    match CreateGLTexture s l.image l.textureID l.tag with
    | none => none
    | some (b, s1, _) =>
      match loadAll s1 ls with
      | none => none
      | some (bs, s2) => some (b :: bs, s2)

/-- A registry of capacity 16 with two registered textures; the second handle is the largest
`GLuint`. -/
def sampleRegistry : State ℚ :=
  { m_pShaderManager := true
    m_loadedTextures := 2
    m_textureIDs := [⟨"brick", 1⟩, ⟨"roof", 4294967295⟩] ++ List.replicate 14 ⟨"", 0⟩
    m_objectMaterials := []
    m_texBrick := 0
    m_texRoof := 0 }

/-- The registry before any load: sixteen unused entries. -/
def emptyRegistry : State ℚ :=
  { m_pShaderManager := true
    m_loadedTextures := 0
    m_textureIDs := List.replicate 16 ⟨"", 0⟩
    m_objectMaterials := []
    m_texBrick := 0
    m_texRoof := 0 }

/-- A load of an RGB or RGBA image that the loader could decode. -/
def Load.Supported (l : Load) : Prop :=
  ∃ img : Image, l.image = some img ∧ (img.colorChannels = 3 ∨ img.colorChannels = 4)

/-- Three loads with distinct tags: two RGB images and one RGBA image. -/
def sampleLoads : List Load :=
  [⟨some ⟨512, 512, 3⟩, 1, "brick"⟩, ⟨some ⟨256, 256, 4⟩, 2, "roof"⟩, ⟨some ⟨64, 64, 3⟩, 3, "snow"⟩]

/-! ## Uniform sink -/

/-- The name a call writes, with the value, when the call is a uniform setter. -/
def Call.written (name : String) : Call K → Option (UniformValue K)
  | .setUniform n v => if n = name then some v else none
  | _ => none

/-- Modelled from the spec: the uniform sink (`ShaderManager`, not in the sources) is a
"named-uniform upload to the active shader program"; a uniform holds the value of the last
upload under its name, and `none` before the first one. -/
def uniformValue (calls : List (Call K)) (name : String) : Option (UniformValue K) :=
  calls.reverse.findSome? (Call.written name)

/-- The names of the uniforms a list of calls writes, in order. -/
def writtenNames : List (Call K) → List String
  | [] => []
  | .setUniform n _ :: cs => n :: writtenNames cs
  | _ :: cs => writtenNames cs

/-! ## Material registry -/

/-- The `while` loop of `FindMaterial` from the loop state `(material, index, bFound)`: the
final value of the out-parameter `material`. Its field `tag` is never assigned. -/
def FindMaterial.loop (s : State K) (tag : String) (material : OBJECT_MATERIAL K) (index : Nat)
    (bFound : Bool) : OBJECT_MATERIAL K :=
  if h : index < s.m_objectMaterials.length ∧ bFound = false then
    if s.m_objectMaterials[index].tag = tag then
      FindMaterial.loop s tag
        { material with
          ambientColor := s.m_objectMaterials[index].ambientColor
          ambientStrength := s.m_objectMaterials[index].ambientStrength
          diffuseColor := s.m_objectMaterials[index].diffuseColor
          specularColor := s.m_objectMaterials[index].specularColor
          shininess := s.m_objectMaterials[index].shininess }
        index true
    else FindMaterial.loop s tag material (index + 1) bFound
  else material
termination_by (s.m_objectMaterials.length - index) + (if bFound then 0 else 1)
decreasing_by
  all_goals simp_wf
  · simp [h.2]
  · omega

/-- The method `FindMaterial(tag, material)`: the returned `bool` and the out-parameter. -/
def FindMaterial (s : State K) (tag : String) (material : OBJECT_MATERIAL K) :
    Bool × OBJECT_MATERIAL K :=
  if s.m_objectMaterials.length = 0 then (false, material)
  else (true, FindMaterial.loop s tag material 0 false)

/-- The method `SetShaderMaterial(materialTag)`: the calls made. `uninit` is the content of
the local `OBJECT_MATERIAL material;`, which the function does not initialise. `none` when the
uploads dereference a NULL `m_pShaderManager`. -/
def SetShaderMaterial (s : State K) (materialTag : String) (uninit : OBJECT_MATERIAL K) :
    Option (List (Call K)) :=
  if s.m_objectMaterials.length > 0 then
    let r := FindMaterial s materialTag uninit
    let bReturn := r.1
    let material := r.2
    if bReturn = true then
      if s.m_pShaderManager = true then
        some [.setUniform "material.ambientColor" (.vec3 material.ambientColor),
          .setUniform "material.ambientStrength" (.float material.ambientStrength),
          .setUniform "material.diffuseColor" (.vec3 material.diffuseColor),
          .setUniform "material.specularColor" (.vec3 material.specularColor),
          .setUniform "material.shininess" (.float material.shininess)]
      else none
    else some []
  else some []

/-- The lambda `ApplyMat` of `RenderScene`: the uploads for the first material tagged
`tag`, none when there is no such material. -/
def ApplyMat (s : State K) (tag : String) : Option (List (Call K)) :=
  match s.m_objectMaterials.find? (fun M => M.tag = tag) with
  | some M =>
    if s.m_pShaderManager = true then
      some [.setUniform "material.ambientStrength" (.float M.ambientStrength),
        .setUniform "material.ambientColor" (.vec3 M.ambientColor),
        .setUniform "material.diffuseColor" (.vec3 M.diffuseColor),
        .setUniform "material.specularColor" (.vec3 M.specularColor),
        .setUniform "material.shininess" (.float M.shininess)]
    else none
  | none => some []

section Arithmetic

variable [Field K]

/-- The constructor `glm::vec3(v)`: all three components are `v`. -/
def vec3.splat (v : K) : vec3 K := ⟨v, v, v⟩

/-- The method `DefineObjectMaterials()`: the list is cleared, then "snow" and "house" are
pushed. -/
def DefineObjectMaterials (s : State K) : State K :=
  { s with
    m_objectMaterials :=
      (([] : List (OBJECT_MATERIAL K)) ++
        [{ ambientStrength := 0.18
           ambientColor := ⟨0.70, 0.78, 0.92⟩
           diffuseColor := ⟨0.80, 0.88, 0.98⟩
           specularColor := vec3.splat 0.15
           shininess := 8.0
           tag := "snow" }]) ++
        [{ ambientStrength := 0.15
           ambientColor := ⟨0.62, 0.62, 0.70⟩
           diffuseColor := ⟨0.70, 0.70, 0.78⟩
           specularColor := vec3.splat 0.18
           shininess := 12.0
           tag := "house" }] }

/-- The calls of one pass of `for (int i = 0; i < n; ++i)`, pass after pass. -/
def forCalls (n : Nat) (body : Nat → List (Call K)) : List (Call K) :=
  match n with
  | 0 => []
  | n + 1 => forCalls n body ++ body n

/-- The six uniforms of light slot `base` (`"lightSources[i]."`), in the order
`SetupSceneLights` writes them. -/
def lightUniforms (base : String) (position ambientColor diffuseColor specularColor : vec3 K)
    (focalStrength specularIntensity : K) : List (Call K) :=
  [.setUniform (base ++ "position") (.vec3 position),
    .setUniform (base ++ "ambientColor") (.vec3 ambientColor),
    .setUniform (base ++ "diffuseColor") (.vec3 diffuseColor),
    .setUniform (base ++ "specularColor") (.vec3 specularColor),
    .setUniform (base ++ "focalStrength") (.float focalStrength),
    .setUniform (base ++ "specularIntensity") (.float specularIntensity)]

/-- The body of `SetupSceneLights()`: the uploads through a non-NULL `m_pShaderManager`. -/
def SetupSceneLights.body : List (Call K) :=
  [.setUniform "bUseLighting" (.bool true)] ++
    forCalls 4 (fun i =>
      lightUniforms ("lightSources[" ++ toString i ++ "].") (vec3.splat 0.0) (vec3.splat 0.0)
        (vec3.splat 0.0) (vec3.splat 0.0) 1.0 0.0) ++
    lightUniforms "lightSources[0]." ⟨6.0, 7.0, 3.0⟩ ⟨0.02, 0.03, 0.05⟩ ⟨0.65, 0.75, 1.00⟩
      ⟨0.85, 0.90, 1.00⟩ 32.0 0.60 ++
    lightUniforms "lightSources[1]." ⟨-6.0, 4.0, -4.0⟩ (vec3.splat 0.00) ⟨0.55, 0.45, 0.70⟩
      ⟨0.20, 0.16, 0.28⟩ 16.0 0.20

/-- The method `SetupSceneLights()`: the calls made; `none` when `m_pShaderManager` is NULL,
which the function dereferences unchecked. -/
def SetupSceneLights (s : State K) : Option (List (Call K)) :=
  if s.m_pShaderManager = true then some SetupSceneLights.body else none

end Arithmetic

/-! ## Reading the light slots back -/

/-- The six uniforms `lightSources[i].<field>` as the sink holds them (the spec's
`LightSlot`). -/
structure LightSlot (K : Type) where
  position : Option (UniformValue K)
  ambientColor : Option (UniformValue K)
  diffuseColor : Option (UniformValue K)
  specularColor : Option (UniformValue K)
  focalStrength : Option (UniformValue K)
  specularIntensity : Option (UniformValue K)

/-- Light slot `i` after `calls`. -/
def lightSlot (calls : List (Call K)) (i : Nat) : LightSlot K :=
  { position := uniformValue calls ("lightSources[" ++ toString i ++ "]." ++ "position")
    ambientColor := uniformValue calls ("lightSources[" ++ toString i ++ "]." ++ "ambientColor")
    diffuseColor := uniformValue calls ("lightSources[" ++ toString i ++ "]." ++ "diffuseColor")
    specularColor :=
      uniformValue calls ("lightSources[" ++ toString i ++ "]." ++ "specularColor")
    focalStrength :=
      uniformValue calls ("lightSources[" ++ toString i ++ "]." ++ "focalStrength")
    specularIntensity :=
      uniformValue calls ("lightSources[" ++ toString i ++ "]." ++ "specularIntensity") }

/-- A slot that contributes nothing: position and the three colours are the zero vector and
the specular intensity is 0. -/
def LightSlot.IsZero [Field K] (l : LightSlot K) : Prop :=
  l.position = some (.vec3 ⟨0, 0, 0⟩) ∧ l.ambientColor = some (.vec3 ⟨0, 0, 0⟩) ∧
    l.diffuseColor = some (.vec3 ⟨0, 0, 0⟩) ∧ l.specularColor = some (.vec3 ⟨0, 0, 0⟩) ∧
    l.specularIntensity = some (.float 0)

/-- A slot that lights the scene: diffuse and specular colour are not the zero vector and the
specular intensity is positive. -/
def LightSlot.IsLit [LinearOrderedField K] (l : LightSlot K) : Prop :=
  ∃ (d sp : vec3 K) (k : K), l.diffuseColor = some (.vec3 d) ∧ d ≠ ⟨0, 0, 0⟩ ∧
    l.specularColor = some (.vec3 sp) ∧ sp ≠ ⟨0, 0, 0⟩ ∧
    l.specularIntensity = some (.float k) ∧ 0 < k

/-- A material registry in which the tag "house" is defined twice, with different values. -/
def duplicateMaterials : State ℚ :=
  { m_pShaderManager := true
    m_loadedTextures := 0
    m_textureIDs := List.replicate 16 ⟨"", 0⟩
    m_objectMaterials :=
      [⟨0.18, ⟨0.70, 0.78, 0.92⟩, ⟨0.80, 0.88, 0.98⟩, ⟨0.15, 0.15, 0.15⟩, 8, "snow"⟩,
        ⟨0.15, ⟨0.62, 0.62, 0.70⟩, ⟨0.70, 0.70, 0.78⟩, ⟨0.18, 0.18, 0.18⟩, 12, "house"⟩,
        ⟨1, ⟨1, 0, 0⟩, ⟨0, 1, 0⟩, ⟨0, 0, 1⟩, 64, "house"⟩]
    m_texBrick := 0
    m_texRoof := 0 }

/-- An indeterminate material, standing for an uninitialised local. -/
def junkMaterial : OBJECT_MATERIAL ℚ :=
  ⟨-1, ⟨-2, -3, -4⟩, ⟨-5, -6, -7⟩, ⟨-8, -9, -10⟩, -11, "junk"⟩

/-- Uniform uploads left over from an earlier frame: light slot 3 is lit. -/
def staleLights : List (Call ℚ) :=
  [.setUniform "lightSources[3].diffuseColor" (.vec3 ⟨1, 1, 1⟩),
    .setUniform "lightSources[3].specularIntensity" (.float 5)]

/-! ## Transform composer (glm) -/

/-- The functions of the C math library that glm calls, and `glm::radians`, which converts
degrees to radians. -/
structure Trig (K : Type) where
  cos : K → K
  sin : K → K
  radians : K → K

section Transform

variable [Field K]

instance : Add (vec3 K) := ⟨fun a b => ⟨a.x + b.x, a.y + b.y, a.z + b.z⟩⟩

/-- The product `vec3 * float`. -/
instance : HMul (vec3 K) K (vec3 K) := ⟨fun a k => ⟨a.x * k, a.y * k, a.z * k⟩⟩

/-- The product `float * vec3`. -/
instance : HMul K (vec3 K) (vec3 K) := ⟨fun k a => ⟨k * a.x, k * a.y, k * a.z⟩⟩

instance : Add (vec4 K) := ⟨fun a b => ⟨a.x + b.x, a.y + b.y, a.z + b.z, a.w + b.w⟩⟩

/-- The product `vec4 * float`. -/
instance : HMul (vec4 K) K (vec4 K) := ⟨fun a k => ⟨a.x * k, a.y * k, a.z * k, a.w * k⟩⟩

/-- The product `mat4 * vec4` of glm: the columns weighted by the components. -/
instance : HMul (mat4 K) (vec4 K) (vec4 K) :=
  ⟨fun m v => m.c0 * v.x + m.c1 * v.y + m.c2 * v.z + m.c3 * v.w⟩

/-- The product `mat4 * mat4` of glm: column `j` of `a * b` is `a` applied to column `j` of
`b`. -/
instance : Mul (mat4 K) := ⟨fun a b => ⟨a * b.c0, a * b.c1, a * b.c2, a * b.c3⟩⟩

/-- The matrix `glm::mat4(1)`. -/
def mat4.identity : mat4 K := ⟨⟨1, 0, 0, 0⟩, ⟨0, 1, 0, 0⟩, ⟨0, 0, 1, 0⟩, ⟨0, 0, 0, 1⟩⟩

/-- The glm function `glm::scale(v)`: the first three columns of the identity scaled by `v`. -/
def scale (v : vec3 K) : mat4 K :=
  ⟨(mat4.identity : mat4 K).c0 * v.x, (mat4.identity : mat4 K).c1 * v.y,
    (mat4.identity : mat4 K).c2 * v.z, (mat4.identity : mat4 K).c3⟩

/-- The glm function `glm::translate(v)`: the identity with the last column moved by `v`. -/
def translate (v : vec3 K) : mat4 K :=
  let m : mat4 K := mat4.identity
  ⟨m.c0, m.c1, m.c2, m.c0 * v.x + m.c1 * v.y + m.c2 * v.z + m.c3⟩

/-- The glm function `glm::rotate(angle, v)` for a unit axis `v`, as glm computes it from
`cos(angle)` and `sin(angle)`. glm normalises `v` first; the three axes `SetTransformations` passes are unit
vectors, which that leaves as they are. -/
def rotate (t : Trig K) (angle : K) (v : vec3 K) : mat4 K :=
  let c := t.cos angle
  let s := t.sin angle
  let axis := v
  let temp : vec3 K := (1 - c) * axis
  let r00 := c + temp.x * axis.x
  let r01 := temp.x * axis.y + s * axis.z
  let r02 := temp.x * axis.z - s * axis.y
  let r10 := temp.y * axis.x - s * axis.z
  let r11 := c + temp.y * axis.y
  let r12 := temp.y * axis.z + s * axis.x
  let r20 := temp.z * axis.x + s * axis.y
  let r21 := temp.z * axis.y - s * axis.x
  let r22 := c + temp.z * axis.z
  let m : mat4 K := mat4.identity
  ⟨m.c0 * r00 + m.c1 * r01 + m.c2 * r02, m.c0 * r10 + m.c1 * r11 + m.c2 * r12,
    m.c0 * r20 + m.c1 * r21 + m.c2 * r22, m.c3⟩

/-- The local `modelView` of `SetTransformations`:
`translation * rotationX * rotationY * rotationZ * scale`. -/
def SetTransformations.modelView (t : Trig K) (scaleXYZ : vec3 K)
    (XrotationDegrees YrotationDegrees ZrotationDegrees : K) (positionXYZ : vec3 K) : mat4 K :=
  let scale := scale scaleXYZ
  let rotationX := rotate t (t.radians XrotationDegrees) ⟨1, 0, 0⟩
  let rotationY := rotate t (t.radians YrotationDegrees) ⟨0, 1, 0⟩
  let rotationZ := rotate t (t.radians ZrotationDegrees) ⟨0, 0, 1⟩
  let translation := translate positionXYZ
  translation * rotationX * rotationY * rotationZ * scale

/-- The method `SetTransformations(scaleXYZ, XrotationDegrees, YrotationDegrees,
ZrotationDegrees, positionXYZ)`: the upload of the `model` matrix, skipped when `m_pShaderManager` is NULL. -/
def SetTransformations (s : State K) (t : Trig K) (scaleXYZ : vec3 K)
    (XrotationDegrees YrotationDegrees ZrotationDegrees : K) (positionXYZ : vec3 K) :
    List (Call K) :=
  if s.m_pShaderManager = true then
    [.setUniform "model" (.mat4 (SetTransformations.modelView t scaleXYZ XrotationDegrees
      YrotationDegrees ZrotationDegrees positionXYZ))]
  else []

/-- The spec's reading of the composition, applied to a column vector: "scale first, then
each axis rotation X, Y, Z, then translation last". -/
def scaleThenXYZThenTranslate (t : Trig K) (scaleXYZ : vec3 K)
    (XrotationDegrees YrotationDegrees ZrotationDegrees : K) (positionXYZ : vec3 K)
    (v : vec4 K) : vec4 K :=
  let scaled := scale scaleXYZ * v
  let aboutX := rotate t (t.radians XrotationDegrees) ⟨1, 0, 0⟩ * scaled
  let aboutY := rotate t (t.radians YrotationDegrees) ⟨0, 1, 0⟩ * aboutX
  let aboutZ := rotate t (t.radians ZrotationDegrees) ⟨0, 0, 1⟩ * aboutY
  translate positionXYZ * aboutZ

/-- The translation a model matrix applies: the image of the origin. -/
def mat4.translation (m : mat4 K) : vec3 K := ⟨m.c3.x, m.c3.y, m.c3.z⟩

end Transform

/-- A state with a shader manager, no texture and no material, over any field. -/
def blankState : State K :=
  { m_pShaderManager := true
    m_loadedTextures := 0
    m_textureIDs := List.replicate 16 ⟨"", 0⟩
    m_objectMaterials := []
    m_texBrick := 0
    m_texRoof := 0 }

/-- Exact values of cosine and sine at the multiples of 90 degrees, 0 elsewhere, with the
angle kept in degrees: enough to run the transforms over `ℚ` at right angles. -/
def rightAngles : Trig ℚ :=
  { cos := fun d => if d = 0 then 1 else if d = 180 ∨ d = -180 then -1 else 0
    sin := fun d => if d = 90 ∨ d = -270 then 1 else if d = -90 ∨ d = 270 then -1 else 0
    radians := fun d => d }

/-! ## Draw helpers of `RenderScene` -/

section Scene

variable [Field K]

/-- The method `SetShaderColor(redColorValue, greenColorValue, blueColorValue, alphaValue)`:
texturing off (`setIntValue` with `false`), then the colour; nothing when `m_pShaderManager` is
NULL. -/
def SetShaderColor (s : State K) (redColorValue greenColorValue blueColorValue alphaValue : K) :
    List (Call K) :=
  let currentColor : vec4 K := ⟨redColorValue, greenColorValue, blueColorValue, alphaValue⟩
  if s.m_pShaderManager = true then
    [.setUniform "bUseTexture" (.int 0), .setUniform "objectColor" (.vec4 currentColor)]
  else []

/-- A call made through `m_pShaderManager->` with no NULL test: `none` when the pointer is
NULL. -/
def State.viaShader (s : State K) (c : Call K) : Option (List (Call K)) :=
  if s.m_pShaderManager = true then some [c] else none

/-- The body of the `for` loop of `DrawFenceLine`: post `i`. -/
def DrawFenceLine.post (s : State K) (t : Trig K) (start dir : vec3 K) (spacing : K) (i : Nat) :
    List (Call K) :=
  let p : vec3 K := start + dir * (spacing * (i : K))
  SetTransformations s t ⟨0.10, 0.60, 0.10⟩ 0 0 0 (p + ⟨0, 0.15, 0⟩) ++
    SetShaderColor s 0.50 0.48 0.52 1.0 ++ [.draw .box]

/-- The lambda `DrawFenceLine(start, dir, posts, spacing)` of `RenderScene`: the lower rail,
the upper rail, then the posts. `none` when the unchecked `setIntValue` of the lower rail
dereferences a NULL `m_pShaderManager`. -/
def DrawFenceLine (s : State K) (t : Trig K) (start dir : vec3 K) (posts : Int) (spacing : K) :
    Option (List (Call K)) :=
  let mid : vec3 K := start + dir * (spacing * (((posts - 1 : Int) : K)) * 0.5)
  match s.viaShader (.setUniform "bUseTexture" (.int 0)) with
  | none => none
  | some useTexture =>
    some (SetTransformations s t ⟨spacing * (posts : K), 0.05, 0.12⟩ 0 0 0
        (mid + ⟨0, -0.30, 0⟩) ++
      useTexture ++ SetShaderColor s 0.55 0.53 0.56 1.0 ++ [.draw .box] ++
      SetTransformations s t ⟨spacing * (posts : K), 0.05, 0.12⟩ 0 0 0
        (mid + ⟨0, 0.05, 0⟩) ++
      SetShaderColor s 0.58 0.56 0.60 1.0 ++ [.draw .box] ++
      forCalls posts.toNat (DrawFenceLine.post s t start dir spacing))

end Scene

/-- Modelled from the spec: the primitive renderer (`ShapeMeshes`, not in the sources) "draws
a unit-sized primitive using whatever model/view/projection uniforms are currently set".
The draws of a call list, each with the matrix last uploaded as `model` before it (`model`
when there was no upload yet). -/
def drawsWithModel (model : Option (mat4 K)) : List (Call K) → List (Mesh × Option (mat4 K))
  | [] => []
  | .setUniform name (.mat4 m) :: cs =>
    if name = "model" then drawsWithModel (some m) cs else drawsWithModel model cs
  | .draw mesh :: cs => (mesh, model) :: drawsWithModel model cs
  | _ :: cs => drawsWithModel model cs

/-! ## Texture selection by tag -/

/-- The method `SetShaderTexture(textureTag)`: texturing on (`setIntValue` with `true`), then
the sampler `objectTexture` set to what `FindTextureSlot` returned; nothing when
`m_pShaderManager` is NULL. `none` when the scan of `FindTextureSlot` reads outside
`m_textureIDs`. -/
def SetShaderTexture (s : State K) (textureTag : String) : Option (List (Call K)) :=
  if s.m_pShaderManager = true then
    match FindTextureSlot s textureTag with
    | none => none
    | some textureID =>
      some [.setUniform "bUseTexture" (.int 1),
        .setUniform "objectTexture" (.sampler2D textureID)]
  else some []

/-! ## Scene -/

/-- The calls of a sequence of statements, in order; `none` as soon as one of them is
undefined behaviour. -/
def seqCalls : List (Option (List (Call K))) → Option (List (Call K))
  | [] => some []
  | none :: _ => none
  | some calls :: rest =>
    match seqCalls rest with
    | none => none
    | some more => some (calls ++ more)

section RenderSceneDefs

variable [Field K]

/-- The lambda `UseTexture2D(texID)` of `RenderScene`: for a non-zero handle texturing on and
the handle bound on texture unit 0, otherwise texturing off. `m_pShaderManager` is
dereferenced unchecked. -/
def UseTexture2D (s : State K) (texID : Nat) : Option (List (Call K)) :=
  if texID ≠ 0 then
    seqCalls [s.viaShader (.setUniform "bUseTexture" (.int 1)),
      some [.glActiveTexture 0, .glBindTexture texID]]
  else s.viaShader (.setUniform "bUseTexture" (.int 0))

/-- The lambda `SetUV(u, v)` of `RenderScene`. -/
def SetUV (s : State K) (u v : K) : List (Call K) :=
  if s.m_pShaderManager = true then [.setUniform "UVscale" (.vec2 ⟨u, v⟩)] else []

/-- The lambda `DrawBox(s, rDegXYZ, p, color)` of `RenderScene`. -/
def DrawBox (s : State K) (t : Trig K) (sc rDegXYZ p : vec3 K) (color : vec4 K) :
    List (Call K) :=
  SetTransformations s t sc rDegXYZ.x rDegXYZ.y rDegXYZ.z p ++
    SetShaderColor s color.x color.y color.z color.w ++ [.draw .box]

/-- The lambda `DrawTree(basePos, trunkH, trunkR, crownH, crownR)` of `RenderScene`: trunk,
crown, snow cap. `none` when the unchecked `setIntValue` of the trunk dereferences a NULL
`m_pShaderManager`. -/
def DrawTree (s : State K) (t : Trig K) (basePos : vec3 K) (trunkH trunkR crownH crownR : K) :
    Option (List (Call K)) :=
  let crownPos : vec3 K := basePos + ⟨0.0, trunkH + crownH * 0.5, 0.0⟩
  seqCalls
    [some (SetTransformations s t ⟨trunkR, trunkH, trunkR⟩ 0 0 0
        (basePos + ⟨0.0, trunkH * 0.5, 0.0⟩)),
      s.viaShader (.setUniform "bUseTexture" (.int 0)),
      some (SetShaderColor s 0.35 0.30 0.28 1.0),
      some [.draw .cylinder],
      some (SetTransformations s t ⟨crownR, crownH, crownR⟩ 0 0 0 crownPos),
      some (SetShaderColor s 0.55 0.70 0.68 1.0),
      some [.draw .cone],
      some (SetTransformations s t ⟨crownR * 0.55, 0.08, crownR * 0.55⟩ 0 0 0
        (basePos + ⟨0.0, trunkH + crownH - 0.02, 0.0⟩)),
      some (SetShaderColor s 0.90 0.95 1.0 1.0),
      some [.draw .cylinder]]

end RenderSceneDefs

section RenderSceneBody

variable [Field K]

/-- The house anchor `H` of `RenderScene`. -/
def RenderScene.H : vec3 K := ⟨0.0, -0.55, 2.8⟩

/-- The lambda `P(x, y, z)` of `RenderScene`: a position relative to `H`. -/
def RenderScene.P (x y z : K) : vec3 K := (RenderScene.H : vec3 K) + ⟨x, y, z⟩

/-- A textured block of `RenderScene` (house body, bump-out, roof slopes): transform, white
colour, the material "house", the texture, the UV tiling, the box, texturing off. -/
def RenderScene.texturedBox (s : State K) (t : Trig K) (uninit : OBJECT_MATERIAL K)
    (sc : vec3 K) (xDeg yDeg zDeg : K) (p : vec3 K) (texID : Nat) : Option (List (Call K)) :=
  seqCalls
    [some (SetTransformations s t sc xDeg yDeg zDeg p),
      some (SetShaderColor s 1 1 1 1),
      SetShaderMaterial s "house" uninit,
      UseTexture2D s texID,
      some (SetUV s 3.0 2.0),
      some [.draw .box],
      UseTexture2D s 0]

/-- The method `RenderScene()`: the calls made. `uninit k` is the content of the
uninitialised local of the `k`-th call of `SetShaderMaterial`. `none` when a NULL
`m_pShaderManager` is dereferenced. The constants are those of the palette and of the
anchors (`STONE`, `TRIM`, `DOOR`, `GLASS`, `FRONT_Z = 1.26`, `EPS_Z = 0.04`,
`FASCIA_Y = 1.60`, `PORCH_Y = -1.35`, `STEP_Y = -1.52`, `CHIMNEY_X = 0.90`,
`CHIMNEY_Z = -0.60`, `ROOF_Y = 2.10`); `glm::normalize` leaves the fence direction
(1, 0, 0) as it is. -/
def RenderScene (s : State K) (t : Trig K) (uninit : Nat → OBJECT_MATERIAL K) :
    Option (List (Call K)) :=
  let STONE : vec4 K := ⟨0.78, 0.78, 0.84, 1.0⟩
  let TRIM : vec4 K := ⟨0.64, 0.64, 0.72, 1.0⟩
  let DOOR : vec4 K := ⟨0.12, 0.10, 0.14, 1.0⟩
  let GLASS : vec4 K := ⟨0.60, 0.85, 0.92, 1.0⟩
  let H : vec3 K := RenderScene.H
  let FRONT_Z : K := 1.26
  let EPS_Z : K := 0.04
  let FASCIA_Z : K := FRONT_Z
  let ROOF_Y : K := 2.10
  let FASCIA_Y : K := 1.60
  let PORCH_Y : K := -1.35
  let STEP_Y : K := -1.52
  let CHIMNEY_X : K := 0.90
  let CHIMNEY_Z : K := -0.60
  let CHIMNEY_BASE_Y : K := ROOF_Y + 1.45
  let CHIMNEY_CAP_Y : K := CHIMNEY_BASE_Y + 0.95
  let fenceStart : vec3 K := H + ⟨-4.5, -1.85, 2.25⟩
  let fenceDir : vec3 K := ⟨1, 0, 0⟩
  seqCalls
    [ -- background wall
      some (SetTransformations s t ⟨60.0, 1.0, 40.0⟩ 90.0 0.0 0.0 ⟨0.0, 14.0, -35.0⟩),
      s.viaShader (.setUniform "bUseTexture" (.int 0)),
      some (SetShaderColor s 0.28 0.22 0.42 1.0),
      some [.draw .plane],
      -- ground
      some (SetTransformations s t ⟨60.0, 1.0, 60.0⟩ (-90.0) 0.0 0.0 ⟨0.0, -2.0, 0.0⟩),
      SetShaderMaterial s "snow" (uninit 0),
      s.viaShader (.setUniform "bUseTexture" (.int 0)),
      some (SetShaderColor s 0.80 0.88 0.98 1.0),
      some [.draw .plane],
      -- house body and left bump-out
      RenderScene.texturedBox s t (uninit 1) ⟨3.90, 3.80, 2.70⟩ 0 (-4.0) 0
        (H + ⟨0.0, 0.0, 0.10⟩) s.m_texBrick,
      RenderScene.texturedBox s t (uninit 2) ⟨1.50, 2.40, 2.20⟩ 0 (-4.0) 0
        (H + ⟨-1.60, -0.10, 0.20⟩) s.m_texBrick,
      -- right front corner trim, door, door frame, windows
      some (DrawBox s t ⟨0.06, 3.80, 0.06⟩ ⟨0, -4.0, 0⟩ (RenderScene.P 1.82 0.0 FRONT_Z) TRIM),
      some (DrawBox s t ⟨0.86, 1.52, 0.08⟩ ⟨0, -4.0, 0⟩
        (RenderScene.P 0.00 (-0.55) (FRONT_Z + EPS_Z)) DOOR),
      some (DrawBox s t ⟨0.92, 1.58, 0.02⟩ ⟨0, -4.0, 0⟩
        (RenderScene.P 0.00 (-0.55) (FRONT_Z + EPS_Z + 0.02)) TRIM),
      some (DrawBox s t ⟨0.62, 0.62, 0.05⟩ ⟨0, -4.0, 0⟩
        (RenderScene.P (-1.60) 0.32 (FRONT_Z + EPS_Z)) GLASS),
      some (DrawBox s t ⟨0.68, 0.68, 0.01⟩ ⟨0, -4.0, 0⟩
        (RenderScene.P (-1.60) 0.32 (FRONT_Z + EPS_Z + 0.02)) TRIM),
      some (DrawBox s t ⟨0.70, 0.92, 0.05⟩ ⟨0, -4.0, 0⟩
        (RenderScene.P 1.45 0.28 (FRONT_Z + EPS_Z)) GLASS),
      some (DrawBox s t ⟨0.76, 0.98, 0.01⟩ ⟨0, -4.0, 0⟩
        (RenderScene.P 1.45 0.28 (FRONT_Z + EPS_Z + 0.02)) TRIM),
      -- roof slopes, with the brick texture when the roof texture is missing
      RenderScene.texturedBox s t (uninit 3) ⟨1.95, 0.25, 3.05⟩ 0 (-4.0) 30.0
        (H + ⟨-0.78, 3.00, 0.06⟩) (if s.m_texRoof ≠ 0 then s.m_texRoof else s.m_texBrick),
      RenderScene.texturedBox s t (uninit 4) ⟨1.95, 0.25, 3.05⟩ 0 (-4.0) (-30.0)
        (H + ⟨0.78, 3.00, 0.06⟩) (if s.m_texRoof ≠ 0 then s.m_texRoof else s.m_texBrick),
      -- chimney stack and cap
      some (DrawBox s t ⟨0.45, 1.10, 0.45⟩ ⟨0.0, -16.0, 0.0⟩
        (RenderScene.P CHIMNEY_X CHIMNEY_BASE_Y CHIMNEY_Z) TRIM),
      some (SetTransformations s t ⟨0.60, 0.12, 0.60⟩ 0 0 0
        (RenderScene.P CHIMNEY_X CHIMNEY_CAP_Y CHIMNEY_Z)),
      some (SetShaderColor s TRIM.x TRIM.y TRIM.z TRIM.w),
      SetShaderMaterial s "house" (uninit 5),
      s.viaShader (.setUniform "bUseTexture" (.int 0)),
      s.viaShader (.setUniform "objectColor" (.vec4 ⟨0.86, 0.86, 0.92, 1.0⟩)),
      some [.draw .box],
      -- front fascia, porch slab, step
      some (DrawBox s t ⟨3.80, 0.07, 0.10⟩ ⟨0, -4.0, 0⟩
        (RenderScene.P 0.0 FASCIA_Y FASCIA_Z) TRIM),
      some (DrawBox s t ⟨2.20, 0.14, 1.60⟩ ⟨0, -4.0, 0⟩
        (RenderScene.P 0.00 PORCH_Y (FRONT_Z - 0.20)) STONE),
      some (DrawBox s t ⟨1.70, 0.12, 0.75⟩ ⟨0, -4.0, 0⟩
        (RenderScene.P 0.00 STEP_Y (FRONT_Z + 0.20)) STONE),
      -- snow cap
      some (SetTransformations s t ⟨2.6, 0.12, 2.6⟩ 0 0 0 ⟨0.0, 3.15, -11.5⟩),
      some (SetShaderColor s 0.93 0.96 1.0 1.0),
      some [.draw .cylinder],
      -- trees
      DrawTree s t (H + ⟨-3.8, -1.9, 1.6⟩) 1.0 0.18 1.4 0.9,
      DrawTree s t (H + ⟨3.6, -1.95, 1.4⟩) 0.9 0.17 1.2 0.8,
      -- fence
      DrawFenceLine s t fenceStart fenceDir 10 0.95]

end RenderSceneBody

/-! ## Draw state -/

/-- Modelled from the spec: the primitive renderer draws with "whatever ... uniforms are
currently set", so the state in effect at a draw is what the calls made before it left. The
draws of `calls`, each with all the calls made before it, `before` included. -/
def drawStates (before : List (Call K)) : List (Call K) → List (Mesh × List (Call K))
  | [] => []
  | .draw mesh :: cs => (mesh, before) :: drawStates (before ++ [.draw mesh]) cs
  | c :: cs => drawStates (before ++ [c]) cs

/-- The texture a call binds (`glBindTexture(GL_TEXTURE_2D, id)`). -/
def Call.bound : Call K → Option Nat
  | .glBindTexture id => some id
  | _ => none

/-- Modelled from the spec: the texture bound after `calls`, that of the last
`glBindTexture`; `none` when there was none. -/
def boundTexture (calls : List (Call K)) : Option Nat :=
  calls.reverse.findSome? Call.bound

/-- The draws of `calls`, each with the value the uniform `name` holds at the draw; `cur` is
its value before `calls`. Computes `uniformValue` over `drawStates` in one pass. -/
def valuesAtDraws (name : String) (cur : Option (UniformValue K)) :
    List (Call K) → List (Mesh × Option (UniformValue K))
  | [] => []
  | .draw mesh :: cs => (mesh, cur) :: valuesAtDraws name cur cs
  | .setUniform n v :: cs => valuesAtDraws name (if n = name then some v else cur) cs
  | _ :: cs => valuesAtDraws name cur cs

/-- The draws of `calls`, each with the value of `bUseTexture` and the bound texture at the
draw; `use` and `bound` are those before `calls`. Computes `uniformValue` and `boundTexture`
over `drawStates` in one pass. -/
def textureAtDraws (use : Option (UniformValue K)) (bound : Option Nat) :
    List (Call K) → List (Option (UniformValue K) × Option Nat)
  | [] => []
  | .draw _ :: cs => (use, bound) :: textureAtDraws use bound cs
  | .setUniform n v :: cs => textureAtDraws (if n = "bUseTexture" then some v else use) bound cs
  | .glBindTexture id :: cs => textureAtDraws use (some id) cs
  | _ :: cs => textureAtDraws use bound cs

/-- Whether every draw of `calls` comes after an upload of the uniform `name` made since the
draw before it; `fresh` tells whether such an upload was made just before `calls`. -/
def setBeforeEachDraw (name : String) (fresh : Bool) : List (Call K) → Bool
  | [] => true
  | .draw _ :: cs => fresh && setBeforeEachDraw name false cs
  | .setUniform n _ :: cs => setBeforeEachDraw name (fresh || decide (n = name)) cs
  | _ :: cs => setBeforeEachDraw name fresh cs

/-- Whether `calls` uploads the uniform `name` before its draw number `k` (counting from
0). -/
def setBeforeDraw (name : String) (k : Nat) : List (Call K) → Bool
  | [] => false
  | .draw _ :: cs =>
    match k with
    | 0 => false
    | k + 1 => setBeforeDraw name k cs
  | .setUniform n _ :: cs => decide (n = name) || setBeforeDraw name k cs
  | _ :: cs => setBeforeDraw name k cs

/-- Modelled from the spec: the texture a draw samples, which is the bound texture when
`bUseTexture` is set to a non-zero value ("if enabled, which texture unit is bound") and none
when texturing is disabled or was never set. -/
def textureSeen (use : Option (UniformValue K)) (bound : Option Nat) : Option Nat :=
  match use with
  | some (.int n) => if n ≠ 0 then bound else none
  | _ => none

/-- The state `PrepareScene` leaves for `RenderScene` when both textures loaded: the two
materials of `DefineObjectMaterials`, brick handle 1 and roof handle 2. -/
def sceneState : State ℚ :=
  DefineObjectMaterials { (blankState : State ℚ) with m_texBrick := 1, m_texRoof := 2 }

/-- The state `PrepareScene` leaves when `Roof.jpg` failed to load (`LoadTexture2D` returned
0) and `Brick.jpg` got handle 7. -/
def roofMissingState : State ℚ :=
  DefineObjectMaterials { (blankState : State ℚ) with m_texBrick := 7 }

/-- Whether `CreateGLTexture` reaches the registration for this load: `stbi_load` returned an
image and it has 3 or 4 colour channels. -/
def Load.registers (l : Load) : Bool :=
  match l.image with
  | some img => decide (img.colorChannels = 3 ∨ img.colorChannels = 4)
  | none => false

/-- Seventeen loads of a decoded RGB image, with handles 1 to 17 and tags "tex0" to
"tex16". -/
def seventeenLoads : List Load :=
  (List.range 17).map (fun i => ⟨some ⟨64, 64, 3⟩, i + 1, "tex" ++ toString i⟩)

/-- Calls made before a first traversal: `material.shininess` 99, `UVscale` (1, 1), and
texture 0 bound, as `LoadTexture2D` leaves it (`glBindTexture(GL_TEXTURE_2D, 0)`). -/
def leftoverCalls : List (Call ℚ) :=
  [.setUniform "material.shininess" (.float 99.0), .setUniform "UVscale" (.vec2 ⟨1, 1⟩),
    .glBindTexture 0]

/-! ## Theorems: texture registry -/

theorem findTextureSlot_loop_found (s : State K) (tag : String) (slot : Int) (index : Nat) :
    FindTextureSlot.loop s tag slot index true = some slot := by
  rw [FindTextureSlot.loop]; simp

theorem findTextureID_loop_found (s : State K) (tag : String) (id : Int) (index : Nat) :
    FindTextureID.loop s tag id index true = some id := by
  rw [FindTextureID.loop]; simp

/-- Both scans from `index`, not yet found: they stop at the first entry at or after `index`
that carries the tag, or run to the end of the registered entries. -/
theorem findTexture_scan (s : State K) (tag : String)
    (hcap : s.m_loadedTextures ≤ s.m_textureIDs.length) :
    ∀ (d index : Nat), (s.m_loadedTextures - index).toNat = d →
      (∃ (j : Nat) (e : TEXTURE_INFO), index ≤ j ∧ (j : Int) < s.m_loadedTextures ∧
          s.m_textureIDs[j]? = some e ∧ e.tag = tag ∧
          (∀ (k : Nat) (e' : TEXTURE_INFO), index ≤ k → k < j → s.m_textureIDs[k]? = some e' →
            e'.tag ≠ tag) ∧
          FindTextureSlot.loop s tag (-1) index false = some (j : Int) ∧
          FindTextureID.loop s tag (-1) index false = some (toInt32 e.ID)) ∨
      ((∀ (k : Nat) (e : TEXTURE_INFO), index ≤ k → (k : Int) < s.m_loadedTextures →
          s.m_textureIDs[k]? = some e → e.tag ≠ tag) ∧
        FindTextureSlot.loop s tag (-1) index false = some (-1) ∧
        FindTextureID.loop s tag (-1) index false = some (-1)) := by
  intro d
  induction d with
  | zero =>
    intro index hd
    right
    have hge : ¬ ((index : Int) < s.m_loadedTextures) := by omega
    refine ⟨fun k e hk hlt _ => absurd hlt (by omega), ?_, ?_⟩
    · rw [FindTextureSlot.loop]; simp [hge]
    · rw [FindTextureID.loop]; simp [hge]
  | succ d ih =>
    intro index hd
    have hlt : (index : Int) < s.m_loadedTextures := by omega
    have hlen : index < s.m_textureIDs.length := by omega
    obtain ⟨e, he⟩ : ∃ e, s.m_textureIDs[index]? = some e :=
      ⟨s.m_textureIDs[index], List.getElem?_eq_getElem hlen⟩
    by_cases htag : e.tag = tag
    · left
      refine ⟨index, e, le_refl _, hlt, he, htag, fun k _ h1 h2 => absurd h2 (by omega), ?_, ?_⟩
      · rw [FindTextureSlot.loop]; simp [hlt, he, htag, findTextureSlot_loop_found]
      · rw [FindTextureID.loop]; simp [hlt, he, htag, findTextureID_loop_found]
    · have hs : FindTextureSlot.loop s tag (-1) index false
          = FindTextureSlot.loop s tag (-1) (index + 1) false := by
        rw [FindTextureSlot.loop]; simp [hlt, he, htag]
      have hi : FindTextureID.loop s tag (-1) index false
          = FindTextureID.loop s tag (-1) (index + 1) false := by
        rw [FindTextureID.loop]; simp [hlt, he, htag]
      rw [hs, hi]
      rcases ih (index + 1) (by push_cast; omega) with
        ⟨j, e2, hj, hjlt, hje, hjtag, hfirst, h1, h2⟩ | ⟨hnone, h1, h2⟩
      · left
        refine ⟨j, e2, by omega, hjlt, hje, hjtag, ?_, h1, h2⟩
        intro k e' hk hkj hke
        rcases Nat.eq_or_lt_of_le hk with heq | hgt
        · subst heq
          rw [he] at hke
          cases hke
          exact htag
        · exact hfirst k e' hgt hkj hke
      · right
        refine ⟨?_, h1, h2⟩
        intro k e' hk hklt hke
        rcases Nat.eq_or_lt_of_le hk with heq | hgt
        · subst heq
          rw [he] at hke
          cases hke
          exact htag
        · exact hnone k e' hgt hklt hke

/-- C1, the claim as stated fails: in `sampleRegistry` the tag "roof" is registered at index 1
with the handle 4294967295, `FindTextureSlot` finds slot 1, yet `FindTextureID` returns the
not-found value -1 (the `GLuint` handle read as an `int`) and not the handle. -/
theorem findTextureID_sentinel_collision :
    Registered sampleRegistry 1 ⟨"roof", 4294967295⟩ ∧
      FindTextureSlot sampleRegistry "roof" = some 1 ∧
      FindTextureID sampleRegistry "roof" = some (-1) ∧
      FindTextureID sampleRegistry "roof" ≠ some 4294967295 := by
  refine ⟨⟨by decide, by simp [sampleRegistry]⟩, ?_, ?_, ?_⟩ <;>
    simp [FindTextureSlot, FindTextureSlot.loop, FindTextureID, FindTextureID.loop,
      sampleRegistry, toInt32]

theorem toInt32_of_lt (n : Nat) (h : n < 2 ^ 31) : toInt32 n = (n : Int) := by
  unfold toInt32
  have h1 : n % 2 ^ 32 = n := Nat.mod_eq_of_lt (by omega)
  rw [h1, if_pos h]

theorem toInt32_eq_neg_one (n : Nat) (h : toInt32 n = -1) : n % 2 ^ 32 = 2 ^ 32 - 1 := by
  unfold toInt32 at h
  split at h <;> omega

/-- C1, amended: for every registry whose count does not exceed the array and every tag,
either some registered entry carries the tag, and then `FindTextureSlot` returns the index
of the first such entry and `FindTextureID` that entry's handle converted to `int` (the
handle itself when it is below 2^31, and -1 only for a handle that is 0xFFFFFFFF), or no
registered entry carries the tag and both return -1; `FindTextureSlot` returns -1 exactly
when no registered entry carries the tag. -/
theorem findTexture_first_match (s : State K) (tag : String)
    (hcap : s.m_loadedTextures ≤ s.m_textureIDs.length) :
    ((∃ (i : Nat) (e : TEXTURE_INFO), Registered s i e ∧ e.tag = tag ∧
          (∀ (k : Nat) (e' : TEXTURE_INFO), k < i → Registered s k e' → e'.tag ≠ tag) ∧
          FindTextureSlot s tag = some (i : Int) ∧
          FindTextureID s tag = some (toInt32 e.ID) ∧
          (e.ID < 2 ^ 31 → FindTextureID s tag = some (e.ID : Int)) ∧
          (FindTextureID s tag = some (-1) → e.ID % 2 ^ 32 = 2 ^ 32 - 1)) ∨
      ((∀ (k : Nat) (e : TEXTURE_INFO), Registered s k e → e.tag ≠ tag) ∧
          FindTextureSlot s tag = some (-1) ∧ FindTextureID s tag = some (-1))) ∧
    (FindTextureSlot s tag = some (-1) ↔
      ∀ (k : Nat) (e : TEXTURE_INFO), Registered s k e → e.tag ≠ tag) := by
  have key := findTexture_scan s tag hcap _ 0 rfl
  rcases key with ⟨j, e, _, hjlt, hje, hjtag, hfirst, h1, h2⟩ | ⟨hnone, h1, h2⟩
  · constructor
    · left
      refine ⟨j, e, ⟨hjlt, hje⟩, hjtag, fun k e' hk hr => hfirst k e' (Nat.zero_le _) hk hr.2,
        h1, h2, ?_, ?_⟩
      · intro hlt
        rw [← toInt32_of_lt _ hlt]
        exact h2
      · intro hneg
        have h3 : FindTextureID s tag = some (toInt32 e.ID) := h2
        rw [h3] at hneg
        exact toInt32_eq_neg_one _ (Option.some.inj hneg)
    · constructor
      · intro hneg
        have h3 : FindTextureSlot s tag = some (j : Int) := h1
        rw [h3] at hneg
        have := Option.some.inj hneg
        omega
      · intro hall
        exact absurd hjtag (hall j e ⟨hjlt, hje⟩)
  · constructor
    · right
      exact ⟨fun k e hr => hnone k e (Nat.zero_le _) hr.1 hr.2, h1, h2⟩
    · constructor
      · intro _ k e hr
        exact hnone k e (Nat.zero_le _) hr.1 hr.2
      · intro _
        exact h1

/-- The hypothesis of `findTexture_first_match` holds in `sampleRegistry`; no entry there
is tagged "snow". -/
theorem findTexture_first_match_witness :
    sampleRegistry.m_loadedTextures ≤ sampleRegistry.m_textureIDs.length ∧
      (FindTextureSlot sampleRegistry "snow" = some (-1) ↔
        ∀ (k : Nat) (e : TEXTURE_INFO), Registered sampleRegistry k e → e.tag ≠ "snow") :=
  ⟨by decide, (findTexture_first_match sampleRegistry "snow" (by decide)).2⟩

/-- C3: for every registry state and every decoded image whose channel count is neither 3
nor 4, `CreateGLTexture` returns `false` and leaves the state, so the count
`m_loadedTextures` and the table `m_textureIDs`, as it was. -/
theorem createGLTexture_unsupported_channels (s : State K) (img : Image) (textureID : Nat)
    (tag : String) (h3 : img.colorChannels ≠ 3) (h4 : img.colorChannels ≠ 4) :
    ∃ (s1 : State K) (calls : List (Call K)),
      CreateGLTexture s (some img) textureID tag = some (false, s1, calls) ∧
      s1.m_loadedTextures = s.m_loadedTextures ∧ s1.m_textureIDs = s.m_textureIDs ∧ s1 = s := by
  unfold CreateGLTexture
  simp only [h3, h4, if_false]
  exact ⟨s, _, rfl, rfl, rfl, rfl⟩

/-- A two-channel image on `sampleRegistry`. -/
theorem createGLTexture_unsupported_channels_witness :
    (⟨64, 64, 2⟩ : Image).colorChannels ≠ 3 ∧ (⟨64, 64, 2⟩ : Image).colorChannels ≠ 4 ∧
    ∃ (s1 : State ℚ) (calls : List (Call ℚ)),
      CreateGLTexture sampleRegistry (some ⟨64, 64, 2⟩) 9 "grey" = some (false, s1, calls) ∧
      s1.m_loadedTextures = sampleRegistry.m_loadedTextures ∧
      s1.m_textureIDs = sampleRegistry.m_textureIDs ∧ s1 = sampleRegistry :=
  ⟨by decide, by decide,
    createGLTexture_unsupported_channels sampleRegistry ⟨64, 64, 2⟩ 9 "grey" (by decide) (by decide)⟩

/-- A supported load with a free entry left registers `(tag, textureID)` at index
`m_loadedTextures` and returns `true`. -/
theorem createGLTexture_registers (s : State K) (l : Load) (n : Nat) (hl : l.Supported)
    (hn : s.m_loadedTextures = (n : Int)) (hfree : n < s.m_textureIDs.length) :
    ∃ (s1 : State K) (calls : List (Call K)),
      CreateGLTexture s l.image l.textureID l.tag = some (true, s1, calls) ∧
      s1.m_loadedTextures = (n : Int) + 1 ∧
      s1.m_textureIDs = s.m_textureIDs.set n ⟨l.tag, l.textureID⟩ := by
  obtain ⟨img, himg, hch⟩ := hl
  have hcond : (0 : Int) ≤ s.m_loadedTextures ∧
      s.m_loadedTextures.toNat < s.m_textureIDs.length := by
    rw [hn]; exact ⟨by omega, by simpa using hfree⟩
  unfold CreateGLTexture
  rw [himg]
  dsimp only
  rcases hch with h3 | h4
  · rw [if_pos h3, if_pos hcond]
    refine ⟨_, _, rfl, ?_, ?_⟩
    · simp only [hn]
    · simp [hn]
  · by_cases h3 : img.colorChannels = 3
    · rw [if_pos h3, if_pos hcond]
      refine ⟨_, _, rfl, ?_, ?_⟩
      · simp only [hn]
      · simp [hn]
    · rw [if_neg h3, if_pos h4, if_pos hcond]
      refine ⟨_, _, rfl, ?_, ?_⟩
      · simp only [hn]
      · simp [hn]

/-- Loading a list of supported images into free entries: every call returns `true`, the
count grows by the number of loads, earlier entries stay and the `k`-th load sits at index
`n + k`. -/
theorem loadAll_registers (loads : List Load) :
    ∀ (s : State K) (n : Nat), s.m_loadedTextures = (n : Int) →
      n + loads.length ≤ s.m_textureIDs.length → (∀ l ∈ loads, l.Supported) →
      ∃ s1 : State K, loadAll s loads = some (List.replicate loads.length true, s1) ∧
        s1.m_loadedTextures = ((n + loads.length : Nat) : Int) ∧
        s1.m_textureIDs.length = s.m_textureIDs.length ∧
        (∀ i : Nat, i < n → s1.m_textureIDs[i]? = s.m_textureIDs[i]?) ∧
        (∀ (k : Nat) (l : Load), loads[k]? = some l →
          s1.m_textureIDs[n + k]? = some ⟨l.tag, l.textureID⟩) := by
  induction loads with
  | nil =>
    intro s n hn _ _
    exact ⟨s, rfl, by simpa using hn, rfl, fun _ _ => rfl, fun k l h => by simp at h⟩
  | cons l ls ih =>
    intro s n hn hcap hsup
    have hlen : n + (ls.length + 1) ≤ s.m_textureIDs.length := by simpa using hcap
    obtain ⟨s1, calls, hcreate, hcount, harr⟩ :=
      createGLTexture_registers s l n (hsup l (List.mem_cons_self _ _)) hn (by omega)
    have hlen1 : s1.m_textureIDs.length = s.m_textureIDs.length := by
      rw [harr, List.length_set]
    obtain ⟨s2, hall, hcount2, hlen2, hkeep, hnew⟩ :=
      ih s1 (n + 1) (by rw [hcount]; push_cast; rfl) (by rw [hlen1]; omega)
        (fun x hx => hsup x (List.mem_cons_of_mem _ hx))
    refine ⟨s2, ?_, ?_, ?_, ?_, ?_⟩
    · simp only [loadAll, hcreate, hall, List.length_cons, List.replicate_succ]
    · rw [hcount2]; simp only [List.length_cons]; congr 1; omega
    · rw [hlen2, hlen1]
    · intro i hi
      rw [hkeep i (by omega), harr, List.getElem?_set_ne (by omega)]
    · intro k x hk
      cases k with
      | zero =>
        simp only [List.getElem?_cons_zero, Option.some.injEq] at hk
        subst hk
        rw [Nat.add_zero, hkeep n (by omega), harr,
          List.getElem?_set_self (show n < s.m_textureIDs.length by omega)]
      | succ k =>
        simp only [List.getElem?_cons_succ] at hk
        have := hnew k x hk
        rw [show n + (k + 1) = n + 1 + k by omega]
        exact this

/-- C2: from a registry with count 0 and sixteen entries, any list of at most sixteen loads
of decoded RGB/RGBA images with pairwise distinct tags succeeds call by call, leaves the
count at the number of loads, and `FindTextureSlot` of the tag loaded `k`-th (counting from
0) returns `k`. -/
theorem loads_resolve_in_load_order (s : State K) (loads : List Load)
    (hempty : s.m_loadedTextures = 0) (hsize : s.m_textureIDs.length = textureCapacity)
    (hcap : loads.length ≤ textureCapacity) (hsup : ∀ l ∈ loads, l.Supported)
    (hdistinct : (loads.map Load.tag).Nodup) :
    ∃ s1 : State K, loadAll s loads = some (List.replicate loads.length true, s1) ∧
      s1.m_loadedTextures = (loads.length : Int) ∧
      ∀ (k : Nat) (l : Load), loads[k]? = some l →
        FindTextureSlot s1 l.tag = some (k : Int) := by
  obtain ⟨s1, hall, hcount, hlen, _, hnew⟩ :=
    loadAll_registers loads s 0 (by simpa using hempty) (by rw [hsize]; simpa using hcap) hsup
  have hcount1 : s1.m_loadedTextures = (loads.length : Int) := by simpa using hcount
  refine ⟨s1, hall, hcount1, ?_⟩
  intro k l hk
  have hklt : k < loads.length := by
    rcases Nat.lt_or_ge k loads.length with h | h
    · exact h
    · rw [List.getElem?_eq_none h] at hk; cases hk
  have hentry : s1.m_textureIDs[k]? = some ⟨l.tag, l.textureID⟩ := by
    simpa using hnew k l hk
  have hc : s1.m_loadedTextures ≤ s1.m_textureIDs.length := by
    rw [hcount1, hlen, hsize]; exact_mod_cast hcap
  rcases findTexture_scan s1 l.tag hc _ 0 rfl with
    ⟨j, e, _, hjlt, hje, hjtag, hfirst, h1, _⟩ | ⟨hnone, _, _⟩
  · have hjlen : j < loads.length := by rw [hcount1] at hjlt; exact_mod_cast hjlt
    have hjentry := hnew j loads[j] (List.getElem?_eq_getElem hjlen)
    rw [Nat.zero_add, hje] at hjentry
    have hetag : e.tag = (loads[j]).tag := by
      have := Option.some.inj hjentry
      rw [this]
    have hjk : j = k := by
      have h2 : (loads.map Load.tag)[j]? = (loads.map Load.tag)[k]? := by
        simp only [List.getElem?_map, hk, List.getElem?_eq_getElem hjlen, Option.map_some']
        rw [← hetag, hjtag]
      have hjl : j < (loads.map Load.tag).length := by simpa using hjlen
      have hkl : k < (loads.map Load.tag).length := by simpa using hklt
      rw [List.getElem?_eq_getElem hjl, List.getElem?_eq_getElem hkl] at h2
      exact (List.Nodup.getElem_inj_iff hdistinct).1 (Option.some.inj h2)
    rw [← hjk]
    exact h1
  · exact absurd rfl (hnone k _ (Nat.zero_le _) (by rw [hcount1]; exact_mod_cast hklt) hentry)

/-- Three loads into `emptyRegistry`. -/
theorem loads_resolve_in_load_order_witness :
    emptyRegistry.m_loadedTextures = 0 ∧ emptyRegistry.m_textureIDs.length = textureCapacity ∧
      sampleLoads.length ≤ textureCapacity ∧ (sampleLoads.map Load.tag).Nodup ∧
      ∃ s1 : State ℚ,
        loadAll emptyRegistry sampleLoads = some (List.replicate sampleLoads.length true, s1) ∧
        s1.m_loadedTextures = (sampleLoads.length : Int) ∧
        ∀ (k : Nat) (l : Load), sampleLoads[k]? = some l →
          FindTextureSlot s1 l.tag = some (k : Int) :=
  ⟨rfl, rfl, by decide, by decide,
    loads_resolve_in_load_order emptyRegistry sampleLoads rfl rfl (by decide)
      (by
        intro l hl
        simp only [sampleLoads, List.mem_cons, List.mem_singleton, List.not_mem_nil,
          or_false] at hl
        rcases hl with h | h | h <;> subst h <;> exact ⟨_, rfl, by decide⟩)
      (by decide)⟩

/-! ## Theorems: material registry -/

theorem findMaterial_loop_found (s : State K) (tag : String) (material : OBJECT_MATERIAL K)
    (index : Nat) : FindMaterial.loop s tag material index true = material := by
  rw [FindMaterial.loop]; simp

/-- The scan passes every entry that does not carry the tag. -/
theorem findMaterial_loop_skip (s : State K) (tag : String) (material : OBJECT_MATERIAL K)
    (index : Nat) (h : index < s.m_objectMaterials.length)
    (hne : s.m_objectMaterials[index].tag ≠ tag) :
    FindMaterial.loop s tag material index false =
      FindMaterial.loop s tag material (index + 1) false := by
  rw [FindMaterial.loop]; simp [h, hne]

/-- The scan stops at an entry that carries the tag and copies its five value fields. -/
theorem findMaterial_loop_hit (s : State K) (tag : String) (material : OBJECT_MATERIAL K)
    (index : Nat) (h : index < s.m_objectMaterials.length)
    (heq : s.m_objectMaterials[index].tag = tag) :
    FindMaterial.loop s tag material index false =
      { material with
        ambientColor := s.m_objectMaterials[index].ambientColor
        ambientStrength := s.m_objectMaterials[index].ambientStrength
        diffuseColor := s.m_objectMaterials[index].diffuseColor
        specularColor := s.m_objectMaterials[index].specularColor
        shininess := s.m_objectMaterials[index].shininess } := by
  rw [FindMaterial.loop]; simp [h, heq, findMaterial_loop_found]

/-- With no entry carrying the tag from `index` on, the scan leaves `material` as it was. -/
theorem findMaterial_loop_miss (s : State K) (tag : String) (material : OBJECT_MATERIAL K) :
    ∀ (d index : Nat), s.m_objectMaterials.length - index = d →
      (∀ (j : Nat) (hj : j < s.m_objectMaterials.length), index ≤ j →
        s.m_objectMaterials[j].tag ≠ tag) →
      FindMaterial.loop s tag material index false = material := by
  intro d
  induction d with
  | zero =>
    intro index hd _
    rw [FindMaterial.loop]
    have : ¬ index < s.m_objectMaterials.length := by omega
    simp [this]
  | succ d ih =>
    intro index hd hall
    have hlt : index < s.m_objectMaterials.length := by omega
    rw [findMaterial_loop_skip s tag material index hlt (hall index hlt (le_refl _))]
    exact ih (index + 1) (by omega) (fun j hj hij => hall j hj (by omega))

/-- The scan from `index` reaches the first entry carrying the tag. -/
theorem findMaterial_loop_first (s : State K) (tag : String) (material : OBJECT_MATERIAL K)
    (i : Nat) (hi : i < s.m_objectMaterials.length) (heq : s.m_objectMaterials[i].tag = tag) :
    ∀ (d index : Nat), i - index = d → index ≤ i →
      (∀ (j : Nat) (hj : j < s.m_objectMaterials.length), index ≤ j → j < i →
        s.m_objectMaterials[j].tag ≠ tag) →
      FindMaterial.loop s tag material index false =
        { material with
          ambientColor := s.m_objectMaterials[i].ambientColor
          ambientStrength := s.m_objectMaterials[i].ambientStrength
          diffuseColor := s.m_objectMaterials[i].diffuseColor
          specularColor := s.m_objectMaterials[i].specularColor
          shininess := s.m_objectMaterials[i].shininess } := by
  intro d
  induction d with
  | zero =>
    intro index hd hle _
    have : index = i := by omega
    subst this
    exact findMaterial_loop_hit s tag material index hi heq
  | succ d ih =>
    intro index hd hle hall
    have hlt : index < s.m_objectMaterials.length := by omega
    rw [findMaterial_loop_skip s tag material index hlt (hall index hlt (le_refl _) (by omega))]
    exact ih (index + 1) (by omega) (by omega) (fun j hj hij hji => hall j hj (by omega) hji)

/-- On a non-empty registry `FindMaterial` returns `true` also for a tag that no material
carries, and leaves the out-parameter as it was. -/
theorem findMaterial_miss (s : State K) (tag : String) (material : OBJECT_MATERIAL K)
    (hne : s.m_objectMaterials ≠ [])
    (hmiss : ∀ m ∈ s.m_objectMaterials, m.tag ≠ tag) :
    FindMaterial s tag material = (true, material) := by
  have hlen : s.m_objectMaterials.length ≠ 0 := by
    simpa [List.length_eq_zero] using hne
  unfold FindMaterial
  rw [if_neg hlen, findMaterial_loop_miss s tag material _ 0 rfl
    (fun j hj _ => hmiss _ (List.getElem_mem hj))]

/-- After `DefineObjectMaterials` no material is tagged "brick". -/
theorem defineObjectMaterials_no_brick :
    ∀ m ∈ (DefineObjectMaterials sampleRegistry).m_objectMaterials, m.tag ≠ "brick" := by
  intro m hm
  simp only [DefineObjectMaterials, List.nil_append, List.singleton_append, List.mem_cons,
    List.mem_singleton, List.not_mem_nil, or_false] at hm
  rcases hm with h | h <;> subst h <;> decide

/-- C4, the code at the failing input: after `DefineObjectMaterials` no material is tagged
"brick", and `FindMaterial` still returns `true`, with the out-parameter untouched. -/
theorem findMaterial_undefined_tag_returns_true (material : OBJECT_MATERIAL ℚ) :
    (∀ m ∈ (DefineObjectMaterials sampleRegistry).m_objectMaterials, m.tag ≠ "brick") ∧
      FindMaterial (DefineObjectMaterials sampleRegistry) "brick" material = (true, material) :=
  ⟨defineObjectMaterials_no_brick,
    findMaterial_miss _ _ _ (by simp [DefineObjectMaterials]) defineObjectMaterials_no_brick⟩

/-- C5, the code at the failing input: after `DefineObjectMaterials`, `SetShaderMaterial`
with the undefined tag "brick" writes all five material uniforms, with the contents of its
uninitialised local; the lambda `ApplyMat` writes nothing there. -/
theorem setShaderMaterial_undefined_tag_writes (uninit : OBJECT_MATERIAL ℚ) :
    SetShaderMaterial (DefineObjectMaterials sampleRegistry) "brick" uninit =
        some [.setUniform "material.ambientColor" (.vec3 uninit.ambientColor),
          .setUniform "material.ambientStrength" (.float uninit.ambientStrength),
          .setUniform "material.diffuseColor" (.vec3 uninit.diffuseColor),
          .setUniform "material.specularColor" (.vec3 uninit.specularColor),
          .setUniform "material.shininess" (.float uninit.shininess)] ∧
      ApplyMat (DefineObjectMaterials sampleRegistry) "brick" = some [] := by
  have h := findMaterial_miss (DefineObjectMaterials sampleRegistry) "brick" uninit
    (by simp [DefineObjectMaterials]) defineObjectMaterials_no_brick
  constructor
  · unfold SetShaderMaterial
    rw [if_pos (by simp [DefineObjectMaterials])]
    simp only [h]
    rfl
  · simp [ApplyMat, DefineObjectMaterials]

/-- On an empty registry `SetShaderMaterial` makes no call. -/
theorem setShaderMaterial_empty (s : State K) (tag : String) (uninit : OBJECT_MATERIAL K)
    (h : s.m_objectMaterials = []) : SetShaderMaterial s tag uninit = some [] := by
  simp [SetShaderMaterial, h]

/-- C6: for every registry with a shader manager and every tag that some defined material
carries, `SetShaderMaterial` makes exactly five calls: it uploads `material.ambientColor`,
`material.ambientStrength`, `material.diffuseColor`, `material.specularColor` and
`material.shininess` with the fields of the first material carrying the tag, whatever
materials follow it and whatever its uninitialised local held. -/
theorem setShaderMaterial_uploads_first_match (s : State K) (tag : String)
    (uninit : OBJECT_MATERIAL K) (hsh : s.m_pShaderManager = true)
    (hcarried : ∃ m ∈ s.m_objectMaterials, m.tag = tag) :
    ∃ (i : Nat) (m : OBJECT_MATERIAL K), s.m_objectMaterials[i]? = some m ∧ m.tag = tag ∧
      (∀ (j : Nat) (m' : OBJECT_MATERIAL K), j < i → s.m_objectMaterials[j]? = some m' →
        m'.tag ≠ tag) ∧
      SetShaderMaterial s tag uninit =
        some [.setUniform "material.ambientColor" (.vec3 m.ambientColor),
          .setUniform "material.ambientStrength" (.float m.ambientStrength),
          .setUniform "material.diffuseColor" (.vec3 m.diffuseColor),
          .setUniform "material.specularColor" (.vec3 m.specularColor),
          .setUniform "material.shininess" (.float m.shininess)] ∧
      writtenNames ((SetShaderMaterial s tag uninit).getD []) =
        ["material.ambientColor", "material.ambientStrength", "material.diffuseColor",
          "material.specularColor", "material.shininess"] := by
  classical
  have hex : ∃ i : Nat, ∃ h : i < s.m_objectMaterials.length,
      s.m_objectMaterials[i].tag = tag := by
    obtain ⟨m, hm, hmt⟩ := hcarried
    obtain ⟨i, hi, hget⟩ := List.getElem_of_mem hm
    exact ⟨i, hi, by rw [hget]; exact hmt⟩
  obtain ⟨hi, heq⟩ := Nat.find_spec hex
  have hmin : ∀ (j : Nat) (hj : j < s.m_objectMaterials.length), j < Nat.find hex →
      s.m_objectMaterials[j].tag ≠ tag := fun j hj hlt htag =>
    Nat.find_min hex hlt ⟨hj, htag⟩
  have hloop := findMaterial_loop_first s tag uninit (Nat.find hex) hi heq _ 0 rfl
    (Nat.zero_le _) (fun j hj _ hlt => hmin j hj hlt)
  have hlen : s.m_objectMaterials.length > 0 := by omega
  have hcall : SetShaderMaterial s tag uninit =
      some [.setUniform "material.ambientColor" (.vec3 (s.m_objectMaterials[Nat.find hex]).ambientColor),
        .setUniform "material.ambientStrength" (.float (s.m_objectMaterials[Nat.find hex]).ambientStrength),
        .setUniform "material.diffuseColor" (.vec3 (s.m_objectMaterials[Nat.find hex]).diffuseColor),
        .setUniform "material.specularColor" (.vec3 (s.m_objectMaterials[Nat.find hex]).specularColor),
        .setUniform "material.shininess" (.float (s.m_objectMaterials[Nat.find hex]).shininess)] := by
    have hne : ¬ s.m_objectMaterials.length = 0 := by omega
    unfold SetShaderMaterial FindMaterial
    rw [if_pos hlen, if_neg hne]
    simp only [hloop, hsh, if_true]
  refine ⟨Nat.find hex, s.m_objectMaterials[Nat.find hex], List.getElem?_eq_getElem hi, heq,
    ?_, hcall, ?_⟩
  · intro j m' hj hget
    have hjlen : j < s.m_objectMaterials.length := by omega
    rw [List.getElem?_eq_getElem hjlen] at hget
    rw [← Option.some.inj hget]
    exact hmin j hjlen hj
  · rw [hcall]; rfl

/-- In `duplicateMaterials` the tag "house" is carried twice; the first definition is the one
uploaded. -/
theorem setShaderMaterial_uploads_first_match_witness :
    duplicateMaterials.m_pShaderManager = true ∧
      (∃ m ∈ duplicateMaterials.m_objectMaterials, m.tag = "house") ∧
      ∃ (i : Nat) (m : OBJECT_MATERIAL ℚ),
        duplicateMaterials.m_objectMaterials[i]? = some m ∧ m.tag = "house" ∧
        (∀ (j : Nat) (m' : OBJECT_MATERIAL ℚ), j < i →
          duplicateMaterials.m_objectMaterials[j]? = some m' → m'.tag ≠ "house") ∧
        SetShaderMaterial duplicateMaterials "house" junkMaterial =
          some [.setUniform "material.ambientColor" (.vec3 m.ambientColor),
            .setUniform "material.ambientStrength" (.float m.ambientStrength),
            .setUniform "material.diffuseColor" (.vec3 m.diffuseColor),
            .setUniform "material.specularColor" (.vec3 m.specularColor),
            .setUniform "material.shininess" (.float m.shininess)] ∧
        writtenNames ((SetShaderMaterial duplicateMaterials "house" junkMaterial).getD []) =
          ["material.ambientColor", "material.ambientStrength", "material.diffuseColor",
            "material.specularColor", "material.shininess"] :=
  ⟨rfl, ⟨_, List.mem_cons_of_mem _ (List.mem_cons_self _ _), rfl⟩,
    setShaderMaterial_uploads_first_match duplicateMaterials "house" junkMaterial rfl
      ⟨_, List.mem_cons_of_mem _ (List.mem_cons_self _ _), rfl⟩⟩

/-! ## Theorems: lighting stage -/

theorem uniformValue_append (pre calls : List (Call K)) (name : String) :
    uniformValue (pre ++ calls) name =
      match uniformValue calls name with
      | some v => some v
      | none => uniformValue pre name := by
  unfold uniformValue
  rw [List.reverse_append, List.findSome?_append]
  cases List.findSome? (Call.written name) calls.reverse <;> rfl

theorem uniformValue_append_of_some (pre calls : List (Call K)) (name : String)
    (v : UniformValue K) (h : uniformValue calls name = some v) :
    uniformValue (pre ++ calls) name = some v := by
  rw [uniformValue_append, h]

/-- A slot whose six uniforms are all written by `calls` reads the same after any earlier
calls. -/
theorem lightSlot_append (pre calls : List (Call K)) (i : Nat) (p a d sp f k : UniformValue K)
    (h : lightSlot calls i = ⟨some p, some a, some d, some sp, some f, some k⟩) :
    lightSlot (pre ++ calls) i = ⟨some p, some a, some d, some sp, some f, some k⟩ := by
  simp only [lightSlot, LightSlot.mk.injEq] at h ⊢
  obtain ⟨h1, h2, h3, h4, h5, h6⟩ := h
  exact ⟨uniformValue_append_of_some _ _ _ _ h1, uniformValue_append_of_some _ _ _ _ h2,
    uniformValue_append_of_some _ _ _ _ h3, uniformValue_append_of_some _ _ _ _ h4,
    uniformValue_append_of_some _ _ _ _ h5, uniformValue_append_of_some _ _ _ _ h6⟩

/-- C7: whatever calls came before, `SetupSceneLights` (with a shader manager) leaves light
slots 0 and 1 lit, with the values of the moonlight and of the fill light, and slots 2 and
3 zero: position, ambient, diffuse and specular colour are the zero vector, the specular
intensity is 0 and the focal strength is 1. So exactly slots 0 and 1 of the four are
non-zero. -/
theorem setupSceneLights_slots [LinearOrderedField K] (s : State K) (pre : List (Call K))
    (hsh : s.m_pShaderManager = true) :
    ∃ calls : List (Call K), SetupSceneLights s = some calls ∧
      lightSlot (pre ++ calls) 0 =
        ⟨some (.vec3 ⟨6.0, 7.0, 3.0⟩), some (.vec3 ⟨0.02, 0.03, 0.05⟩),
          some (.vec3 ⟨0.65, 0.75, 1.00⟩), some (.vec3 ⟨0.85, 0.90, 1.00⟩),
          some (.float 32.0), some (.float 0.60)⟩ ∧
      lightSlot (pre ++ calls) 1 =
        ⟨some (.vec3 ⟨-6.0, 4.0, -4.0⟩), some (.vec3 ⟨0, 0, 0⟩),
          some (.vec3 ⟨0.55, 0.45, 0.70⟩), some (.vec3 ⟨0.20, 0.16, 0.28⟩),
          some (.float 16.0), some (.float 0.20)⟩ ∧
      lightSlot (pre ++ calls) 2 =
        ⟨some (.vec3 ⟨0, 0, 0⟩), some (.vec3 ⟨0, 0, 0⟩), some (.vec3 ⟨0, 0, 0⟩),
          some (.vec3 ⟨0, 0, 0⟩), some (.float 1), some (.float 0)⟩ ∧
      lightSlot (pre ++ calls) 3 =
        ⟨some (.vec3 ⟨0, 0, 0⟩), some (.vec3 ⟨0, 0, 0⟩), some (.vec3 ⟨0, 0, 0⟩),
          some (.vec3 ⟨0, 0, 0⟩), some (.float 1), some (.float 0)⟩ ∧
      (lightSlot (pre ++ calls) 0).IsLit ∧ (lightSlot (pre ++ calls) 1).IsLit ∧
      ¬ (lightSlot (pre ++ calls) 0).IsZero ∧ ¬ (lightSlot (pre ++ calls) 1).IsZero ∧
      (lightSlot (pre ++ calls) 2).IsZero ∧ (lightSlot (pre ++ calls) 3).IsZero := by
  have h00 : (0.0 : K) = 0 := by norm_num
  have h000 : (0.00 : K) = 0 := by norm_num
  have h10 : (1.0 : K) = 1 := by norm_num
  have e0 := lightSlot_append pre (SetupSceneLights.body : List (Call K)) 0
    (.vec3 ⟨6.0, 7.0, 3.0⟩) (.vec3 ⟨0.02, 0.03, 0.05⟩) (.vec3 ⟨0.65, 0.75, 1.00⟩)
    (.vec3 ⟨0.85, 0.90, 1.00⟩) (.float 32.0) (.float 0.60) rfl
  have e1 := lightSlot_append pre (SetupSceneLights.body : List (Call K)) 1
    (.vec3 ⟨-6.0, 4.0, -4.0⟩) (.vec3 (vec3.splat 0.00)) (.vec3 ⟨0.55, 0.45, 0.70⟩)
    (.vec3 ⟨0.20, 0.16, 0.28⟩) (.float 16.0) (.float 0.20) rfl
  have e2 := lightSlot_append pre (SetupSceneLights.body : List (Call K)) 2
    (.vec3 (vec3.splat 0.0)) (.vec3 (vec3.splat 0.0)) (.vec3 (vec3.splat 0.0))
    (.vec3 (vec3.splat 0.0)) (.float 1.0) (.float 0.0) rfl
  have e3 := lightSlot_append pre (SetupSceneLights.body : List (Call K)) 3
    (.vec3 (vec3.splat 0.0)) (.vec3 (vec3.splat 0.0)) (.vec3 (vec3.splat 0.0))
    (.vec3 (vec3.splat 0.0)) (.float 1.0) (.float 0.0) rfl
  simp only [vec3.splat, h00, h000, h10] at e1 e2 e3
  refine ⟨SetupSceneLights.body, by simp only [SetupSceneLights, hsh, if_true], e0, e1, e2, e3,
    ?_, ?_, ?_, ?_, ?_, ?_⟩
  · rw [e0]
    refine ⟨_, _, _, rfl, ?_, rfl, ?_, rfl, by norm_num⟩
    · intro h
      have := congrArg vec3.x h
      norm_num at this
    · intro h
      have := congrArg vec3.x h
      norm_num at this
  · rw [e1]
    refine ⟨_, _, _, rfl, ?_, rfl, ?_, rfl, by norm_num⟩
    · intro h
      have := congrArg vec3.x h
      norm_num at this
    · intro h
      have := congrArg vec3.x h
      norm_num at this
  · rw [e0]
    intro h
    have h5 := h.2.2.2.2
    simp only [Option.some.injEq, UniformValue.float.injEq] at h5
    norm_num at h5
  · rw [e1]
    intro h
    have h5 := h.2.2.2.2
    simp only [Option.some.injEq, UniformValue.float.injEq] at h5
    norm_num at h5
  · rw [e2]
    exact ⟨rfl, rfl, rfl, rfl, rfl⟩
  · rw [e3]
    exact ⟨rfl, rfl, rfl, rfl, rfl⟩

/-- After `staleLights`, which lit slot 3, `SetupSceneLights` leaves slot 3 zero and slot 0
lit. -/
theorem setupSceneLights_slots_witness :
    sampleRegistry.m_pShaderManager = true ∧
      ∃ calls : List (Call ℚ), SetupSceneLights sampleRegistry = some calls ∧
        (lightSlot (staleLights ++ calls) 0).IsLit ∧
        (lightSlot (staleLights ++ calls) 3).IsZero := by
  obtain ⟨calls, h, _, _, _, _, h0, _, _, _, _, h3⟩ :=
    setupSceneLights_slots sampleRegistry staleLights rfl
  exact ⟨rfl, calls, h, h0, h3⟩

/-! ## Theorems: transform composer -/

section TransformTheorems

variable [Field K]

@[simp] theorem vec3_add_def (a b : vec3 K) : a + b = ⟨a.x + b.x, a.y + b.y, a.z + b.z⟩ := rfl

@[simp] theorem vec3_mul_scalar (a : vec3 K) (k : K) : a * k = ⟨a.x * k, a.y * k, a.z * k⟩ := rfl

@[simp] theorem vec3_scalar_mul (k : K) (a : vec3 K) : k * a = ⟨k * a.x, k * a.y, k * a.z⟩ := rfl

@[simp] theorem vec4_add_def (a b : vec4 K) :
    a + b = ⟨a.x + b.x, a.y + b.y, a.z + b.z, a.w + b.w⟩ := rfl

@[simp] theorem vec4_mul_scalar (a : vec4 K) (k : K) :
    a * k = ⟨a.x * k, a.y * k, a.z * k, a.w * k⟩ := rfl

@[simp] theorem mat4_mulVec_def (m : mat4 K) (v : vec4 K) :
    m * v = m.c0 * v.x + m.c1 * v.y + m.c2 * v.z + m.c3 * v.w := rfl

@[simp] theorem mat4_mul_def (a b : mat4 K) :
    a * b = ⟨a * b.c0, a * b.c1, a * b.c2, a * b.c3⟩ := rfl

/-- Applying a product is applying the right factor, then the left one. -/
theorem mat4_mul_mulVec (a b : mat4 K) (v : vec4 K) : (a * b) * v = a * (b * v) := by
  ext <;> simp <;> ring

/-- The last column of the model matrix is the position, whatever the scale and the angles. -/
theorem modelView_translation (t : Trig K) (scaleXYZ : vec3 K) (xDeg yDeg zDeg : K)
    (positionXYZ : vec3 K) :
    (SetTransformations.modelView t scaleXYZ xDeg yDeg zDeg positionXYZ).translation =
      positionXYZ := by
  ext <;> simp [SetTransformations.modelView, mat4.translation, translate, rotate, scale,
    mat4.identity]

/-- With exact values at 0 and 90 degrees: the model matrix for scale (2,1,1) and a quarter
turn about Y sends the direction +X to (0,0,-2). -/
theorem modelView_quarter_turn_Y (t : Trig K) (hc0 : t.cos (t.radians 0) = 1)
    (hs0 : t.sin (t.radians 0) = 0) (hc90 : t.cos (t.radians 90) = 0)
    (hs90 : t.sin (t.radians 90) = 1) :
    SetTransformations.modelView t ⟨2, 1, 1⟩ 0 90 0 ⟨0, 0, 0⟩ * (⟨1, 0, 0, 0⟩ : vec4 K) =
      ⟨0, 0, -2, 0⟩ := by
  ext <;> simp [SetTransformations.modelView, translate, rotate, scale, mat4.identity, hc0,
    hs0, hc90, hs90]

end TransformTheorems

theorem real_radians_zero : (0 : ℝ) * (Real.pi / 180) = 0 := by ring

theorem real_radians_ninety : (90 : ℝ) * (Real.pi / 180) = Real.pi / 2 := by ring

/-- C8: with a shader manager and a cosine and sine that are exact at 0 and 90 degrees,
`SetTransformations` for scale (2,1,1), rotation degrees (0,90,0) and translation (0,0,0)
uploads one `model` matrix, and that matrix sends the local +X direction (1,0,0) to
(0,0,-2), along -Z. -/
theorem setTransformations_quarter_turn_Y [Field K] (s : State K) (t : Trig K)
    (hsh : s.m_pShaderManager = true) (hc0 : t.cos (t.radians 0) = 1)
    (hs0 : t.sin (t.radians 0) = 0) (hc90 : t.cos (t.radians 90) = 0)
    (hs90 : t.sin (t.radians 90) = 1) :
    ∃ M : mat4 K,
      SetTransformations s t ⟨2, 1, 1⟩ 0 90 0 ⟨0, 0, 0⟩ = [.setUniform "model" (.mat4 M)] ∧
      M * (⟨1, 0, 0, 0⟩ : vec4 K) = ⟨0, 0, -2, 0⟩ :=
  ⟨_, by simp only [SetTransformations, hsh, if_true],
    modelView_quarter_turn_Y t hc0 hs0 hc90 hs90⟩

/-- The quarter turn about Y over the reals, with the real cosine and sine and
`radians d = d * (π / 180)`. -/
theorem setTransformations_quarter_turn_Y_witness :
    ∃ M : mat4 ℝ,
      SetTransformations (blankState : State ℝ)
          ⟨Real.cos, Real.sin, fun d => d * (Real.pi / 180)⟩ ⟨2, 1, 1⟩ 0 90 0 ⟨0, 0, 0⟩ =
        [.setUniform "model" (.mat4 M)] ∧
      M * (⟨1, 0, 0, 0⟩ : vec4 ℝ) = ⟨0, 0, -2, 0⟩ :=
  setTransformations_quarter_turn_Y (blankState : State ℝ)
    ⟨Real.cos, Real.sin, fun d => d * (Real.pi / 180)⟩ rfl
    (by simp only [real_radians_zero, Real.cos_zero])
    (by simp only [real_radians_zero, Real.sin_zero])
    (by simp only [real_radians_ninety, Real.cos_pi_div_two])
    (by simp only [real_radians_ninety, Real.sin_pi_div_two])

/-- C9, the claim as stated fails: over the reals, for scale (1,1,1), rotation degrees
(90,90,0) and no translation, the model matrix sends the point (1,0,0) to (0,1,0), while
scaling, then rotating about X, then about Y, then about Z, then translating, sends it to
(0,0,-1). -/
theorem modelView_ne_scale_X_Y_Z_translate :
    SetTransformations.modelView (⟨Real.cos, Real.sin, fun d => d * (Real.pi / 180)⟩ : Trig ℝ)
        ⟨1, 1, 1⟩ 90 90 0 ⟨0, 0, 0⟩ * (⟨1, 0, 0, 1⟩ : vec4 ℝ) = ⟨0, 1, 0, 1⟩ ∧
      scaleThenXYZThenTranslate (⟨Real.cos, Real.sin, fun d => d * (Real.pi / 180)⟩ : Trig ℝ)
        ⟨1, 1, 1⟩ 90 90 0 ⟨0, 0, 0⟩ (⟨1, 0, 0, 1⟩ : vec4 ℝ) = ⟨0, 0, -1, 1⟩ ∧
      SetTransformations.modelView (⟨Real.cos, Real.sin, fun d => d * (Real.pi / 180)⟩ : Trig ℝ)
        ⟨1, 1, 1⟩ 90 90 0 ⟨0, 0, 0⟩ * (⟨1, 0, 0, 1⟩ : vec4 ℝ) ≠
      scaleThenXYZThenTranslate (⟨Real.cos, Real.sin, fun d => d * (Real.pi / 180)⟩ : Trig ℝ)
        ⟨1, 1, 1⟩ 90 90 0 ⟨0, 0, 0⟩ (⟨1, 0, 0, 1⟩ : vec4 ℝ) := by
  have h1 : SetTransformations.modelView
        (⟨Real.cos, Real.sin, fun d => d * (Real.pi / 180)⟩ : Trig ℝ)
        ⟨1, 1, 1⟩ 90 90 0 ⟨0, 0, 0⟩ * (⟨1, 0, 0, 1⟩ : vec4 ℝ) = ⟨0, 1, 0, 1⟩ := by
    ext <;> simp [SetTransformations.modelView, translate, rotate, scale, mat4.identity,
      real_radians_ninety]
  have h2 : scaleThenXYZThenTranslate
        (⟨Real.cos, Real.sin, fun d => d * (Real.pi / 180)⟩ : Trig ℝ)
        ⟨1, 1, 1⟩ 90 90 0 ⟨0, 0, 0⟩ (⟨1, 0, 0, 1⟩ : vec4 ℝ) = ⟨0, 0, -1, 1⟩ := by
    ext <;> simp [scaleThenXYZThenTranslate, translate, rotate, scale, mat4.identity,
      real_radians_ninety]
  refine ⟨h1, h2, ?_⟩
  rw [h1, h2]
  intro hEq
  have := congrArg vec4.y hEq
  norm_num at this

/-- C9, amended: for every scale, every triple of rotation angles and every translation,
the matrix `SetTransformations` uploads as `model` is
`translation * rotationX * rotationY * rotationZ * scale`, and applying it to a column
vector is scaling the vector first, then rotating it about Z, then about Y, then about X,
and translating it last. -/
theorem modelView_is_scale_Z_Y_X_translate [Field K] (s : State K) (t : Trig K)
    (scaleXYZ : vec3 K) (xDeg yDeg zDeg : K) (positionXYZ : vec3 K) (v : vec4 K) :
    SetTransformations s t scaleXYZ xDeg yDeg zDeg positionXYZ =
        (if s.m_pShaderManager = true then
          [.setUniform "model"
            (.mat4 (SetTransformations.modelView t scaleXYZ xDeg yDeg zDeg positionXYZ))]
        else []) ∧
      SetTransformations.modelView t scaleXYZ xDeg yDeg zDeg positionXYZ * v =
        translate positionXYZ * (rotate t (t.radians xDeg) ⟨1, 0, 0⟩ *
          (rotate t (t.radians yDeg) ⟨0, 1, 0⟩ * (rotate t (t.radians zDeg) ⟨0, 0, 1⟩ *
            (scale scaleXYZ * v)))) := by
  refine ⟨rfl, ?_⟩
  unfold SetTransformations.modelView
  simp only [mat4_mul_mulVec]

/-! ## Theorems: fence posts -/

/-- A block that uploads `model`, sets texturing and colour and draws adds one draw with that
matrix, whatever came before. -/
theorem drawsWithModel_append_block (M : mat4 K) (c : vec4 K) (mesh : Mesh) :
    ∀ (xs : List (Call K)) (model : Option (mat4 K)),
      drawsWithModel model (xs ++ [.setUniform "model" (.mat4 M),
          .setUniform "bUseTexture" (.int 0), .setUniform "objectColor" (.vec4 c),
          .draw mesh]) =
        drawsWithModel model xs ++ [(mesh, some M)] := by
  intro xs
  induction xs with
  | nil => intro model; simp [drawsWithModel]
  | cons x xs ih =>
    intro model
    cases x with
    | setUniform name v =>
      cases v <;> simp only [List.cons_append, drawsWithModel, List.append_eq, ih]
      split <;> rfl
    | draw mesh => simp only [List.cons_append, drawsWithModel, List.append_eq, ih]
    | _ => simp only [List.cons_append, drawsWithModel, List.append_eq, ih]

section FenceTheorems

variable [Field K]

/-- The calls of one post, with a shader manager. -/
theorem drawFenceLine_post_eq (s : State K) (t : Trig K) (start dir : vec3 K) (spacing : K)
    (i : Nat) (hsh : s.m_pShaderManager = true) :
    DrawFenceLine.post s t start dir spacing i =
      [.setUniform "model" (.mat4 (SetTransformations.modelView t ⟨0.10, 0.60, 0.10⟩ 0 0 0
          (start + dir * (spacing * (i : K)) + ⟨0, 0.15, 0⟩))),
        .setUniform "bUseTexture" (.int 0), .setUniform "objectColor" (.vec4 ⟨0.50, 0.48, 0.52, 1.0⟩),
        .draw .box] := by
  simp only [DrawFenceLine.post, SetTransformations, SetShaderColor, hsh, if_true,
    List.cons_append, List.nil_append]

/-- The post loop draws one box per pass, pass `i` with the model matrix of post `i`. -/
theorem drawsWithModel_posts (s : State K) (t : Trig K) (start dir : vec3 K) (spacing : K)
    (hsh : s.m_pShaderManager = true) (model : Option (mat4 K)) (n : Nat) :
    drawsWithModel model (forCalls n (DrawFenceLine.post s t start dir spacing)) =
      (List.range n).map (fun (i : Nat) => (Mesh.box,
        some (SetTransformations.modelView t ⟨0.10, 0.60, 0.10⟩ 0 0 0
          (start + dir * (spacing * (i : K)) + ⟨0, 0.15, 0⟩)))) := by
  induction n with
  | zero => rfl
  | succ n ih =>
    rw [forCalls, drawFenceLine_post_eq s t start dir spacing n hsh,
      drawsWithModel_append_block, ih, List.range_succ, List.map_append]
    rfl

/-- The calls of `DrawFenceLine`, with a shader manager: the nine calls of the two rails,
then the post loop. -/
theorem drawFenceLine_calls (s : State K) (t : Trig K) (start dir : vec3 K) (posts : Int)
    (spacing : K) (hsh : s.m_pShaderManager = true) :
    DrawFenceLine s t start dir posts spacing =
      some ([.setUniform "model" (.mat4 (SetTransformations.modelView t
            ⟨spacing * (posts : K), 0.05, 0.12⟩ 0 0 0
            (start + dir * (spacing * (((posts - 1 : Int) : K)) * 0.5) + ⟨0, -0.30, 0⟩))),
          .setUniform "bUseTexture" (.int 0), .setUniform "bUseTexture" (.int 0),
          .setUniform "objectColor" (.vec4 ⟨0.55, 0.53, 0.56, 1.0⟩), .draw .box,
          .setUniform "model" (.mat4 (SetTransformations.modelView t
            ⟨spacing * (posts : K), 0.05, 0.12⟩ 0 0 0
            (start + dir * (spacing * (((posts - 1 : Int) : K)) * 0.5) + ⟨0, 0.05, 0⟩))),
          .setUniform "bUseTexture" (.int 0),
          .setUniform "objectColor" (.vec4 ⟨0.58, 0.56, 0.60, 1.0⟩), .draw .box] ++
        forCalls posts.toNat (DrawFenceLine.post s t start dir spacing)) := by
  simp only [DrawFenceLine, State.viaShader, SetTransformations, SetShaderColor, hsh, if_true,
    List.cons_append, List.nil_append, List.append_assoc]

/-- The draws of `DrawFenceLine`, with a shader manager: two rail boxes, then one box per
post with the model matrix of that post. -/
theorem drawFenceLine_draws (s : State K) (t : Trig K) (start dir : vec3 K) (n : Nat)
    (spacing : K) (model : Option (mat4 K)) (hsh : s.m_pShaderManager = true) :
    ∃ calls : List (Call K),
      DrawFenceLine s t start dir (n : Int) spacing = some calls ∧
      drawsWithModel model calls =
        [(Mesh.box, some (SetTransformations.modelView t
            ⟨spacing * ((n : Int) : K), 0.05, 0.12⟩ 0 0 0
            (start + dir * (spacing * ((((n : Int) - 1 : Int)) : K) * 0.5) + ⟨0, -0.30, 0⟩))),
          (Mesh.box, some (SetTransformations.modelView t
            ⟨spacing * ((n : Int) : K), 0.05, 0.12⟩ 0 0 0
            (start + dir * (spacing * ((((n : Int) - 1 : Int)) : K) * 0.5) + ⟨0, 0.05, 0⟩)))] ++
          (List.range n).map (fun (i : Nat) => (Mesh.box,
            some (SetTransformations.modelView t ⟨0.10, 0.60, 0.10⟩ 0 0 0
              (start + dir * (spacing * (i : K)) + ⟨0, 0.15, 0⟩)))) := by
  refine ⟨_, drawFenceLine_calls s t start dir (n : Int) spacing hsh, ?_⟩
  simp only [List.cons_append, List.nil_append, drawsWithModel, if_true, Int.toNat_ofNat,
    List.append_eq, drawsWithModel_posts s t start dir spacing hsh]

end FenceTheorems

/-- C10: for every start, direction, spacing and post count `n`, `DrawFenceLine` (with a
shader manager) draws the two rail boxes and then exactly `n` post boxes, the `i`-th
(`i = 0 .. n-1`) with the model matrix of scale (0.10, 0.60, 0.10), no rotation and position
`start + dir * (spacing * i) + (0, 0.15, 0)`, which is also the translation of that matrix.
For start (0,0,0), direction (1,0,0), 10 posts and spacing 0.95 the posts sit at
x = 0, 0.95, 1.9, ..., 8.55. -/
theorem drawFenceLine_posts [Field K] [CharZero K] (s : State K) (t : Trig K)
    (start dir : vec3 K) (n : Nat) (spacing : K) (model : Option (mat4 K))
    (hsh : s.m_pShaderManager = true) :
    (∃ calls : List (Call K),
      DrawFenceLine s t start dir (n : Int) spacing = some calls ∧
      (drawsWithModel model calls).length = n + 2 ∧
      (drawsWithModel model calls).drop 2 =
        (List.range n).map (fun (i : Nat) => (Mesh.box,
          some (SetTransformations.modelView t ⟨0.10, 0.60, 0.10⟩ 0 0 0
            (start + dir * (spacing * (i : K)) + ⟨0, 0.15, 0⟩)))) ∧
      ((drawsWithModel model calls).drop 2).map (fun d => d.2.map mat4.translation) =
        (List.range n).map (fun (i : Nat) =>
          some (start + dir * (spacing * (i : K)) + ⟨0, 0.15, 0⟩))) ∧
    (∃ calls : List (Call K),
      DrawFenceLine s t ⟨0, 0, 0⟩ ⟨1, 0, 0⟩ 10 0.95 = some calls ∧
      ((drawsWithModel model calls).drop 2).map (fun d => d.2.map mat4.translation) =
        [some ⟨0, 0.15, 0⟩, some ⟨0.95, 0.15, 0⟩, some ⟨1.9, 0.15, 0⟩, some ⟨2.85, 0.15, 0⟩,
          some ⟨3.8, 0.15, 0⟩, some ⟨4.75, 0.15, 0⟩, some ⟨5.7, 0.15, 0⟩,
          some ⟨6.65, 0.15, 0⟩, some ⟨7.6, 0.15, 0⟩, some ⟨8.55, 0.15, 0⟩]) := by
  have general : ∀ (start dir : vec3 K) (n : Nat) (spacing : K),
      ∃ calls : List (Call K),
        DrawFenceLine s t start dir (n : Int) spacing = some calls ∧
        (drawsWithModel model calls).length = n + 2 ∧
        (drawsWithModel model calls).drop 2 =
          (List.range n).map (fun (i : Nat) => (Mesh.box,
            some (SetTransformations.modelView t ⟨0.10, 0.60, 0.10⟩ 0 0 0
              (start + dir * (spacing * (i : K)) + ⟨0, 0.15, 0⟩)))) ∧
        ((drawsWithModel model calls).drop 2).map (fun d => d.2.map mat4.translation) =
          (List.range n).map (fun (i : Nat) =>
            some (start + dir * (spacing * (i : K)) + ⟨0, 0.15, 0⟩)) := by
    intro start dir n spacing
    obtain ⟨calls, hcalls, hdraws⟩ := drawFenceLine_draws s t start dir n spacing model hsh
    refine ⟨calls, hcalls, ?_, ?_, ?_⟩
    · rw [hdraws]; simp
    · rw [hdraws]; rfl
    · rw [hdraws]
      simp only [List.cons_append, List.nil_append, List.drop_succ_cons, List.drop_zero,
        List.map_map]
      apply List.map_congr_left
      intro i _
      simp only [Function.comp_apply, Option.map_some', modelView_translation]
  refine ⟨general start dir n spacing, ?_⟩
  obtain ⟨calls, hcalls, _, _, htr⟩ := general ⟨0, 0, 0⟩ ⟨1, 0, 0⟩ 10 0.95
  refine ⟨calls, by exact_mod_cast hcalls, ?_⟩
  rw [htr]
  simp only [List.range_succ, List.range_zero, List.nil_append, List.cons_append,
    List.map_cons, List.map_nil, vec3_add_def, vec3_mul_scalar]
  norm_num

/-- The spec's fence over `ℚ`: ten posts from the origin along +X, 0.95 apart. -/
theorem drawFenceLine_posts_witness :
    (blankState : State ℚ).m_pShaderManager = true ∧
      ∃ calls : List (Call ℚ),
        DrawFenceLine (blankState : State ℚ) rightAngles ⟨0, 0, 0⟩ ⟨1, 0, 0⟩ 10 0.95 =
          some calls ∧
        ((drawsWithModel none calls).drop 2).map (fun d => d.2.map mat4.translation) =
          [some ⟨0, 0.15, 0⟩, some ⟨0.95, 0.15, 0⟩, some ⟨1.9, 0.15, 0⟩,
            some ⟨2.85, 0.15, 0⟩, some ⟨3.8, 0.15, 0⟩, some ⟨4.75, 0.15, 0⟩,
            some ⟨5.7, 0.15, 0⟩, some ⟨6.65, 0.15, 0⟩, some ⟨7.6, 0.15, 0⟩,
            some ⟨8.55, 0.15, 0⟩] :=
  ⟨rfl, (drawFenceLine_posts (blankState : State ℚ) rightAngles ⟨0, 0, 0⟩ ⟨1, 0, 0⟩ 10 0.95
    none rfl).2⟩

/-! ## Theorems: material definitions -/

/-- C17: whatever the material registry held, after `DefineObjectMaterials` it holds exactly
the two materials tagged "snow" and "house", in that order, so the tags are unique; a second
call leaves the state equal to the result of the first. -/
theorem defineObjectMaterials_idempotent [Field K] (s : State K) :
    (DefineObjectMaterials s).m_objectMaterials =
        [{ ambientStrength := 0.18
           ambientColor := ⟨0.70, 0.78, 0.92⟩
           diffuseColor := ⟨0.80, 0.88, 0.98⟩
           specularColor := ⟨0.15, 0.15, 0.15⟩
           shininess := 8.0
           tag := "snow" },
         { ambientStrength := 0.15
           ambientColor := ⟨0.62, 0.62, 0.70⟩
           diffuseColor := ⟨0.70, 0.70, 0.78⟩
           specularColor := ⟨0.18, 0.18, 0.18⟩
           shininess := 12.0
           tag := "house" }] ∧
      (DefineObjectMaterials s).m_objectMaterials.map OBJECT_MATERIAL.tag = ["snow", "house"] ∧
      ((DefineObjectMaterials s).m_objectMaterials.map OBJECT_MATERIAL.tag).Nodup ∧
      DefineObjectMaterials (DefineObjectMaterials s) = DefineObjectMaterials s :=
  ⟨rfl, rfl, by
    show (["snow", "house"] : List String).Nodup
    decide, rfl⟩

/-! ## Theorems: transforms without rotation -/

/-- With a cosine and sine that are exact at 0 degrees, the model matrix for zero rotation is
the scale on the diagonal and the position in the last column. -/
theorem modelView_zero_rotation [Field K] (t : Trig K) (hc0 : t.cos (t.radians 0) = 1)
    (hs0 : t.sin (t.radians 0) = 0) (scaleXYZ positionXYZ : vec3 K) :
    SetTransformations.modelView t scaleXYZ 0 0 0 positionXYZ =
      ⟨⟨scaleXYZ.x, 0, 0, 0⟩, ⟨0, scaleXYZ.y, 0, 0⟩, ⟨0, 0, scaleXYZ.z, 0⟩,
        ⟨positionXYZ.x, positionXYZ.y, positionXYZ.z, 1⟩⟩ := by
  ext <;> simp [SetTransformations.modelView, translate, rotate, scale, mat4.identity, hc0, hs0]

/-- C19: with a shader manager and a cosine and sine that are exact at 0 degrees, for every
scale `sc` and translation `tr`, `SetTransformations` with the three angles 0 uploads one
`model` matrix, which maps every point (x, y, z) to
(sc.x*x + tr.x, sc.y*y + tr.y, sc.z*z + tr.z); it maps the origin to `tr`, whatever the
scale. -/
theorem setTransformations_zero_rotation [Field K] (s : State K) (t : Trig K)
    (hsh : s.m_pShaderManager = true) (hc0 : t.cos (t.radians 0) = 1)
    (hs0 : t.sin (t.radians 0) = 0) (sc tr : vec3 K) :
    ∃ M : mat4 K,
      SetTransformations s t sc 0 0 0 tr = [.setUniform "model" (.mat4 M)] ∧
      (∀ x y z : K,
        M * (⟨x, y, z, 1⟩ : vec4 K) = ⟨sc.x * x + tr.x, sc.y * y + tr.y, sc.z * z + tr.z, 1⟩) ∧
      M * (⟨0, 0, 0, 1⟩ : vec4 K) = ⟨tr.x, tr.y, tr.z, 1⟩ := by
  refine ⟨SetTransformations.modelView t sc 0 0 0 tr,
    by simp only [SetTransformations, hsh, if_true], ?_, ?_⟩
  · intro x y z
    rw [modelView_zero_rotation t hc0 hs0]
    ext <;> simp
  · rw [modelView_zero_rotation t hc0 hs0]
    ext <;> simp

/-- The zero rotation over the reals, with the real cosine and sine and
`radians d = d * (π / 180)`, for the scale (2, 3, 4) and the translation (5, 6, 7). -/
theorem setTransformations_zero_rotation_witness :
    ∃ M : mat4 ℝ,
      SetTransformations (blankState : State ℝ)
          ⟨Real.cos, Real.sin, fun d => d * (Real.pi / 180)⟩ ⟨2, 3, 4⟩ 0 0 0 ⟨5, 6, 7⟩ =
        [.setUniform "model" (.mat4 M)] ∧
      (∀ x y z : ℝ,
        M * (⟨x, y, z, 1⟩ : vec4 ℝ) =
          ⟨(⟨2, 3, 4⟩ : vec3 ℝ).x * x + (⟨5, 6, 7⟩ : vec3 ℝ).x,
            (⟨2, 3, 4⟩ : vec3 ℝ).y * y + (⟨5, 6, 7⟩ : vec3 ℝ).y,
            (⟨2, 3, 4⟩ : vec3 ℝ).z * z + (⟨5, 6, 7⟩ : vec3 ℝ).z, 1⟩) ∧
      M * (⟨0, 0, 0, 1⟩ : vec4 ℝ) =
        ⟨(⟨5, 6, 7⟩ : vec3 ℝ).x, (⟨5, 6, 7⟩ : vec3 ℝ).y, (⟨5, 6, 7⟩ : vec3 ℝ).z, 1⟩ :=
  setTransformations_zero_rotation (blankState : State ℝ)
    ⟨Real.cos, Real.sin, fun d => d * (Real.pi / 180)⟩ rfl
    (by simp only [real_radians_zero, Real.cos_zero])
    (by simp only [real_radians_zero, Real.sin_zero]) ⟨2, 3, 4⟩ ⟨5, 6, 7⟩

/-! ## Theorems: draw states -/


/-! ## Theorems: the state at a draw -/

theorem uniformValue_snoc (before : List (Call K)) (c : Call K) (name : String) :
    uniformValue (before ++ [c]) name =
      match Call.written name c with
      | some v => some v
      | none => uniformValue before name := by
  rw [uniformValue_append]
  cases h : Call.written name c <;> simp [uniformValue, h]

/-- The one-pass reader `valuesAtDraws` gives the uniform's value in the state at each
draw. -/
theorem drawStates_uniformValue (name : String) (calls : List (Call K)) :
    ∀ before : List (Call K),
      (drawStates before calls).map (fun d => (d.1, uniformValue d.2 name)) =
        valuesAtDraws name (uniformValue before name) calls := by
  induction calls with
  | nil => intro before; rfl
  | cons c cs ih =>
    intro before
    cases c with
    | setUniform n v =>
      simp only [drawStates, valuesAtDraws, ih, uniformValue_snoc, Call.written]
      by_cases h : n = name <;> simp [h]
    | draw mesh =>
      simp only [drawStates, valuesAtDraws, List.map_cons, ih, uniformValue_snoc, Call.written]
    | _ => simp only [drawStates, valuesAtDraws, ih, uniformValue_snoc, Call.written]


/-- With a shader manager and a non-empty registry `SetShaderMaterial` uploads the five
fields of what `FindMaterial` left in its local, whether or not the tag was found. -/
theorem setShaderMaterial_nonempty (s : State K) (tag : String) (uninit : OBJECT_MATERIAL K)
    (hsh : s.m_pShaderManager = true) (hne : s.m_objectMaterials ≠ []) :
    SetShaderMaterial s tag uninit =
      some [.setUniform "material.ambientColor"
          (.vec3 (FindMaterial.loop s tag uninit 0 false).ambientColor),
        .setUniform "material.ambientStrength"
          (.float (FindMaterial.loop s tag uninit 0 false).ambientStrength),
        .setUniform "material.diffuseColor"
          (.vec3 (FindMaterial.loop s tag uninit 0 false).diffuseColor),
        .setUniform "material.specularColor"
          (.vec3 (FindMaterial.loop s tag uninit 0 false).specularColor),
        .setUniform "material.shininess"
          (.float (FindMaterial.loop s tag uninit 0 false).shininess)] := by
  have hlen : s.m_objectMaterials.length > 0 := List.length_pos.2 hne
  have hne0 : ¬ s.m_objectMaterials.length = 0 := by omega
  simp only [SetShaderMaterial, FindMaterial, hlen, hne0, hsh, if_true, if_false]

theorem boundTexture_snoc (before : List (Call K)) (c : Call K) :
    boundTexture (before ++ [c]) =
      match Call.bound c with
      | some id => some id
      | none => boundTexture before := by
  unfold boundTexture
  rw [List.reverse_append]
  cases h : Call.bound c <;> simp [h]

/-- The one-pass reader `textureAtDraws` gives `bUseTexture` and the bound texture in the
state at each draw. -/
theorem drawStates_texture (calls : List (Call K)) :
    ∀ before : List (Call K),
      (drawStates before calls).map
          (fun d => (uniformValue d.2 "bUseTexture", boundTexture d.2)) =
        textureAtDraws (uniformValue before "bUseTexture") (boundTexture before) calls := by
  induction calls with
  | nil => intro before; rfl
  | cons c cs ih =>
    intro before
    cases c with
    | setUniform n v =>
      simp only [drawStates, textureAtDraws, ih, uniformValue_snoc, boundTexture_snoc,
        Call.written, Call.bound]
      by_cases h : n = "bUseTexture" <;> simp [h]
    | draw mesh =>
      simp only [drawStates, textureAtDraws, List.map_cons, ih, uniformValue_snoc,
        boundTexture_snoc, Call.written, Call.bound]
    | _ =>
      simp only [drawStates, textureAtDraws, ih, uniformValue_snoc, boundTexture_snoc,
        Call.written, Call.bound]

/-- From the first draw that follows an upload of `name` on, the values of `name` at the
draws do not depend on the value before the calls. -/
theorem valuesAtDraws_drop (name : String) (calls : List (Call K)) :
    ∀ (k : Nat) (c1 c2 : Option (UniformValue K)), setBeforeDraw name k calls = true →
      (valuesAtDraws name c1 calls).drop k = (valuesAtDraws name c2 calls).drop k := by
  induction calls with
  | nil => intro k c1 c2 h; simp [setBeforeDraw] at h
  | cons c cs ih =>
    intro k c1 c2 h
    cases c with
    | setUniform n v =>
      simp only [setBeforeDraw, Bool.or_eq_true, decide_eq_true_eq] at h
      simp only [valuesAtDraws]
      by_cases hn : n = name
      · simp only [hn, if_true]
      · simp only [hn, if_false]
        exact ih k c1 c2 (h.resolve_left hn)
    | draw mesh =>
      cases k with
      | zero => simp [setBeforeDraw] at h
      | succ k =>
        simp only [setBeforeDraw] at h
        simp only [valuesAtDraws, List.drop_succ_cons]
        exact ih k c1 c2 h
    | _ =>
      simp only [setBeforeDraw] at h
      simp only [valuesAtDraws]
      exact ih k c1 c2 h

/-- What `setBeforeEachDraw` decides: before each draw, and after the draw before it, there
is an upload of `name` (or `fresh` holds and the draw is the first). -/
theorem setBeforeEachDraw_spec (name : String) (calls : List (Call K)) :
    ∀ fresh : Bool, setBeforeEachDraw name fresh calls = true →
      ∀ (a b : List (Call K)) (mesh : Mesh), calls = a ++ .draw mesh :: b →
        (fresh = true ∧ ∀ c ∈ a, ∀ m : Mesh, c ≠ .draw m) ∨
        ∃ (a1 a2 : List (Call K)) (v : UniformValue K),
          a = a1 ++ .setUniform name v :: a2 ∧ ∀ c ∈ a2, ∀ m : Mesh, c ≠ .draw m := by
  induction calls with
  | nil =>
    intro fresh _ a b mesh h
    simp at h
  | cons c cs ih =>
    intro fresh hchk a b mesh h
    cases a with
    | nil =>
      simp only [List.nil_append, List.cons.injEq] at h
      obtain ⟨hc, _⟩ := h
      subst hc
      simp only [setBeforeEachDraw, Bool.and_eq_true] at hchk
      exact Or.inl ⟨hchk.1, fun c hc => by simp at hc⟩
    | cons x a' =>
      simp only [List.cons_append, List.cons.injEq] at h
      obtain ⟨hx, hcs⟩ := h
      subst hx
      cases c with
      | draw m0 =>
        simp only [setBeforeEachDraw, Bool.and_eq_true] at hchk
        rcases ih false hchk.2 a' b mesh hcs with ⟨hf, _⟩ | ⟨a1, a2, v, ha, hno⟩
        · cases hf
        · exact Or.inr ⟨.draw m0 :: a1, a2, v, by rw [ha]; rfl, hno⟩
      | setUniform n v0 =>
        simp only [setBeforeEachDraw] at hchk
        rcases ih _ hchk a' b mesh hcs with ⟨hf, hno⟩ | ⟨a1, a2, v, ha, hno⟩
        · by_cases hn : n = name
          · subst hn
            exact Or.inr ⟨[], a', v0, rfl, hno⟩
          · simp only [hn, decide_False, Bool.or_false] at hf
            refine Or.inl ⟨hf, ?_⟩
            intro c hc m
            rcases List.mem_cons.1 hc with h1 | h1
            · subst h1; exact fun h => by cases h
            · exact hno c h1 m
        · exact Or.inr ⟨.setUniform n v0 :: a1, a2, v, by rw [ha]; rfl, hno⟩
      | _ =>
        simp only [setBeforeEachDraw] at hchk
        rcases ih _ hchk a' b mesh hcs with ⟨hf, hno⟩ | ⟨a1, a2, v, ha, hno⟩
        · refine Or.inl ⟨hf, ?_⟩
          intro c hc m
          rcases List.mem_cons.1 hc with h1 | h1
          · subst h1; exact fun h => by cases h
          · exact hno c h1 m
        · exact Or.inr ⟨_ :: a1, a2, v, by rw [ha]; rfl, hno⟩

/-- What one traversal of `RenderScene` issues, read off the call list: it returns with a
non-NULL shader manager; `bUseTexture` is uploaded before each draw; the values of
`bUseTexture` and the bound texture at the 37 draws; the house body, the bump-out and the two
roof slopes are draws 2, 3, 11 and 12; and from which draw on each uniform has been uploaded
by the traversal itself. -/
theorem renderScene_draws [Field K] (s : State K) (t : Trig K) (u : Nat → OBJECT_MATERIAL K)
    (hsh : s.m_pShaderManager = true) :
    ∃ R : List (Call K), RenderScene s t u = some R ∧
      setBeforeEachDraw "bUseTexture" false R = true ∧
      (∀ (use : Option (UniformValue K)) (bound : Option Nat),
        textureAtDraws use bound R =
          List.replicate 2 (some (.int 0), bound) ++
          List.replicate 2 (if s.m_texBrick ≠ 0 then (some (.int 1), some s.m_texBrick)
            else (some (.int 0), bound)) ++
          List.replicate 7 (some (.int 0), if s.m_texBrick ≠ 0 then some s.m_texBrick else bound) ++
          List.replicate 2
            (if (if s.m_texRoof ≠ 0 then s.m_texRoof else s.m_texBrick) ≠ 0 then
              (some (.int 1), some (if s.m_texRoof ≠ 0 then s.m_texRoof else s.m_texBrick))
            else (some (.int 0), bound)) ++
          List.replicate 24 (some (.int 0),
            if (if s.m_texRoof ≠ 0 then s.m_texRoof else s.m_texBrick) ≠ 0 then
              some (if s.m_texRoof ≠ 0 then s.m_texRoof else s.m_texBrick)
            else bound)) ∧
      (∀ cur : Option (UniformValue K),
        (valuesAtDraws "model" cur R)[2]? = some (.box, some (.mat4
          (SetTransformations.modelView t ⟨3.90, 3.80, 2.70⟩ 0 (-4.0) 0
            (RenderScene.H + ⟨0.0, 0.0, 0.10⟩)))) ∧
        (valuesAtDraws "model" cur R)[3]? = some (.box, some (.mat4
          (SetTransformations.modelView t ⟨1.50, 2.40, 2.20⟩ 0 (-4.0) 0
            (RenderScene.H + ⟨-1.60, -0.10, 0.20⟩)))) ∧
        (valuesAtDraws "model" cur R)[11]? = some (.box, some (.mat4
          (SetTransformations.modelView t ⟨1.95, 0.25, 3.05⟩ 0 (-4.0) 30.0
            (RenderScene.H + ⟨-0.78, 3.00, 0.06⟩)))) ∧
        (valuesAtDraws "model" cur R)[12]? = some (.box, some (.mat4
          (SetTransformations.modelView t ⟨1.95, 0.25, 3.05⟩ 0 (-4.0) (-30.0)
            (RenderScene.H + ⟨0.78, 3.00, 0.06⟩)))) ∧
        (valuesAtDraws "objectColor" cur R)[2]? = some (.box, some (.vec4 ⟨1, 1, 1, 1⟩)) ∧
        (valuesAtDraws "objectColor" cur R)[3]? = some (.box, some (.vec4 ⟨1, 1, 1, 1⟩))) ∧
      setBeforeDraw "model" 0 R = true ∧
      setBeforeDraw "objectColor" 0 R = true ∧
      setBeforeDraw "bUseTexture" 0 R = true ∧
      setBeforeDraw "UVscale" 2 R = true ∧
      (s.m_objectMaterials ≠ [] →
        setBeforeDraw "material.ambientStrength" 1 R = true ∧
        setBeforeDraw "material.ambientColor" 1 R = true ∧
        setBeforeDraw "material.diffuseColor" 1 R = true ∧
        setBeforeDraw "material.specularColor" 1 R = true ∧
        setBeforeDraw "material.shininess" 1 R = true) ∧
      uniformValue R "bUseTexture" = some (.int 0) := by
  obtain ⟨sh, n, ids, mats, brick, roof⟩ := s
  simp only at hsh
  subst hsh
  cases mats with
  | nil =>
    have hmat : ∀ (b r : Nat) (tag : String) (un : OBJECT_MATERIAL K),
        SetShaderMaterial (⟨true, n, ids, [], b, r⟩ : State K) tag un = some [] :=
      fun _ _ _ _ => setShaderMaterial_empty _ _ _ rfl
    cases brick <;> cases roof <;>
      simp only [RenderScene, RenderScene.texturedBox, hmat] <;>
      simp only [seqCalls, SetTransformations, SetShaderColor, State.viaShader, UseTexture2D,
        SetUV, DrawBox, DrawTree, DrawFenceLine, DrawFenceLine.post, forCalls, if_true,
        List.cons_append, List.nil_append, List.append_assoc, Int.toNat_ofNat, ne_eq,
        Nat.add_one_ne_zero, not_false_eq_true, not_true_eq_false, if_false,
        Option.some.injEq, exists_eq_left'] <;>
      exact ⟨rfl, fun _ _ => rfl, fun _ => ⟨rfl, rfl, rfl, rfl, rfl, rfl⟩, rfl, rfl, rfl, rfl,
        fun h => h.elim, rfl⟩
  | cons m mats =>
    have hmat := fun (b r : Nat) (tag : String) (un : OBJECT_MATERIAL K) =>
      setShaderMaterial_nonempty (⟨true, n, ids, m :: mats, b, r⟩ : State K) tag un rfl
        (List.cons_ne_nil m mats)
    cases brick <;> cases roof <;>
      simp only [RenderScene, RenderScene.texturedBox, hmat] <;>
      simp only [seqCalls, SetTransformations, SetShaderColor, State.viaShader, UseTexture2D,
        SetUV, DrawBox, DrawTree, DrawFenceLine, DrawFenceLine.post, forCalls, if_true,
        List.cons_append, List.nil_append, List.append_assoc, Int.toNat_ofNat, ne_eq,
        Nat.add_one_ne_zero, not_false_eq_true, not_true_eq_false, if_false,
        Option.some.injEq, exists_eq_left'] <;>
      exact ⟨rfl, fun _ _ => rfl, fun _ => ⟨rfl, rfl, rfl, rfl, rfl, rfl⟩, rfl, rfl, rfl, rfl,
        fun _ => ⟨rfl, rfl, rfl, rfl, rfl⟩, rfl⟩

/-- The values of one uniform at the draws, read in one pass. -/
theorem drawStates_values (name : String) (calls before : List (Call K)) :
    (drawStates before calls).map (fun d => uniformValue d.2 name) =
      (valuesAtDraws name (uniformValue before name) calls).map Prod.snd := by
  rw [← drawStates_uniformValue, List.map_map]
  rfl

/-- The primitive kinds of the draws, read in one pass. -/
theorem drawStates_meshes (name : String) (calls before : List (Call K)) :
    (drawStates before calls).map Prod.fst =
      (valuesAtDraws name (uniformValue before name) calls).map Prod.fst := by
  rw [← drawStates_uniformValue, List.map_map]
  rfl

/-- A uniform uploaded before draw `k` has, from draw `k` on, the same values whatever calls
came before. -/
theorem drawStates_values_drop (name : String) (k : Nat) (calls pre1 pre2 : List (Call K))
    (h : setBeforeDraw name k calls = true) :
    ((drawStates pre1 calls).drop k).map (fun d => uniformValue d.2 name) =
      ((drawStates pre2 calls).drop k).map (fun d => uniformValue d.2 name) := by
  rw [List.map_drop, List.map_drop, drawStates_values, drawStates_values, ← List.map_drop,
    ← List.map_drop, valuesAtDraws_drop name calls k _ (uniformValue pre2 name) h]

/-- The scan of `SetShaderMaterial` does not read the uninitialised local when a material
carries the tag. -/
theorem setShaderMaterial_uninit_irrelevant (s : State K) (tag : String)
    (u1 u2 : OBJECT_MATERIAL K) (hcarried : ∃ m ∈ s.m_objectMaterials, m.tag = tag) :
    SetShaderMaterial s tag u1 = SetShaderMaterial s tag u2 := by
  classical
  have hex : ∃ i : Nat, ∃ h : i < s.m_objectMaterials.length,
      s.m_objectMaterials[i].tag = tag := by
    obtain ⟨m, hm, hmt⟩ := hcarried
    obtain ⟨i, hi, hget⟩ := List.getElem_of_mem hm
    exact ⟨i, hi, by rw [hget]; exact hmt⟩
  obtain ⟨hi, heq⟩ := Nat.find_spec hex
  have hmin : ∀ (j : Nat) (hj : j < s.m_objectMaterials.length), j < Nat.find hex →
      s.m_objectMaterials[j].tag ≠ tag := fun j hj hlt htag =>
    Nat.find_min hex hlt ⟨hj, htag⟩
  have hloop := fun (u : OBJECT_MATERIAL K) =>
    findMaterial_loop_first s tag u (Nat.find hex) hi heq _ 0 rfl
      (Nat.zero_le _) (fun j hj _ hlt => hmin j hj hlt)
  have hlen : s.m_objectMaterials.length > 0 := by omega
  have hne : ¬ s.m_objectMaterials.length = 0 := by omega
  simp only [SetShaderMaterial, FindMaterial, if_pos hlen, if_neg hne, hloop]

/-- With "snow" and "house" defined, the calls of `RenderScene` do not depend on what its
uninitialised locals held. -/
theorem renderScene_uninit_irrelevant [Field K] (s : State K) (t : Trig K)
    (u1 u2 : Nat → OBJECT_MATERIAL K)
    (hsnow : ∃ m ∈ s.m_objectMaterials, m.tag = "snow")
    (hhouse : ∃ m ∈ s.m_objectMaterials, m.tag = "house") :
    RenderScene s t u1 = RenderScene s t u2 := by
  have h1 : ∀ i : Nat, SetShaderMaterial s "snow" (u1 i) = SetShaderMaterial s "snow" (u2 i) :=
    fun i => setShaderMaterial_uninit_irrelevant s "snow" _ _ hsnow
  have h2 : ∀ i : Nat, SetShaderMaterial s "house" (u1 i) = SetShaderMaterial s "house" (u2 i) :=
    fun i => setShaderMaterial_uninit_irrelevant s "house" _ _ hhouse
  simp only [RenderScene, RenderScene.texturedBox, h1, h2]

/-- The texture sampled at the draws of `RenderScene` does not depend on the texture bound
before the call. -/
theorem textureSeen_renderScene (brick roof : Nat) (bound : Option Nat)
    (L : List (Option (UniformValue K) × Option Nat))
    (hL : L =
      List.replicate 2 (some (.int 0), bound) ++
      List.replicate 2 (if brick ≠ 0 then (some (.int 1), some brick)
        else (some (.int 0), bound)) ++
      List.replicate 7 (some (.int 0), if brick ≠ 0 then some brick else bound) ++
      List.replicate 2
        (if (if roof ≠ 0 then roof else brick) ≠ 0 then
          (some (.int 1), some (if roof ≠ 0 then roof else brick))
        else (some (.int 0), bound)) ++
      List.replicate 24 (some (.int 0),
        if (if roof ≠ 0 then roof else brick) ≠ 0 then
          some (if roof ≠ 0 then roof else brick)
        else bound)) :
    L.map (fun p => textureSeen p.1 p.2) =
      List.replicate 2 none ++
      List.replicate 2 (if brick ≠ 0 then some brick else none) ++
      List.replicate 7 none ++
      List.replicate 2 (if (if roof ≠ 0 then roof else brick) ≠ 0 then
        some (if roof ≠ 0 then roof else brick) else none) ++
      List.replicate 24 none := by
  subst hL
  by_cases h1 : brick = 0 <;> by_cases h2 : roof = 0 <;> simp [h1, h2, textureSeen]

/-- The state at draw `i`, with what the one-pass readers give for it. -/
theorem drawStates_state_at (calls pre : List (Call K)) (i : Nat)
    (hi : i < (drawStates pre calls).length) :
    ∃ (mesh : Mesh) (st : List (Call K)), (drawStates pre calls)[i]? = some (mesh, st) ∧
      (∀ name : String, (valuesAtDraws name (uniformValue pre name) calls)[i]? =
        some (mesh, uniformValue st name)) ∧
      (textureAtDraws (uniformValue pre "bUseTexture") (boundTexture pre) calls)[i]? =
        some (uniformValue st "bUseTexture", boundTexture st) := by
  refine ⟨((drawStates pre calls)[i]).1, ((drawStates pre calls)[i]).2,
    List.getElem?_eq_getElem hi, ?_, ?_⟩
  · intro name
    rw [← drawStates_uniformValue, List.getElem?_map, List.getElem?_eq_getElem hi]
    rfl
  · rw [← drawStates_texture, List.getElem?_map, List.getElem?_eq_getElem hi]
    rfl

theorem boundTexture_append (pre calls : List (Call K)) :
    boundTexture (pre ++ calls) =
      match boundTexture calls with
      | some id => some id
      | none => boundTexture pre := by
  unfold boundTexture
  rw [List.reverse_append, List.findSome?_append]
  cases List.findSome? Call.bound calls.reverse <;> rfl

/-- The scan of `FindMaterial` for a tag that some material carries: it copies the five value
fields of the first material carrying the tag, whatever the out-parameter held. -/
theorem findMaterial_first_carried (s : State K) (tag : String)
    (hcarried : ∃ m ∈ s.m_objectMaterials, m.tag = tag) :
    ∃ (i : Nat) (m : OBJECT_MATERIAL K), s.m_objectMaterials[i]? = some m ∧ m.tag = tag ∧
      (∀ (j : Nat) (m' : OBJECT_MATERIAL K), j < i → s.m_objectMaterials[j]? = some m' →
        m'.tag ≠ tag) ∧
      ∀ u : OBJECT_MATERIAL K, FindMaterial.loop s tag u 0 false =
        { u with
          ambientColor := m.ambientColor
          ambientStrength := m.ambientStrength
          diffuseColor := m.diffuseColor
          specularColor := m.specularColor
          shininess := m.shininess } := by
  classical
  have hex : ∃ i : Nat, ∃ h : i < s.m_objectMaterials.length,
      s.m_objectMaterials[i].tag = tag := by
    obtain ⟨m, hm, hmt⟩ := hcarried
    obtain ⟨i, hi, hget⟩ := List.getElem_of_mem hm
    exact ⟨i, hi, by rw [hget]; exact hmt⟩
  obtain ⟨hi, heq⟩ := Nat.find_spec hex
  have hmin : ∀ (j : Nat) (hj : j < s.m_objectMaterials.length), j < Nat.find hex →
      s.m_objectMaterials[j].tag ≠ tag := fun j hj hlt htag =>
    Nat.find_min hex hlt ⟨hj, htag⟩
  refine ⟨Nat.find hex, s.m_objectMaterials[Nat.find hex], List.getElem?_eq_getElem hi, heq,
    ?_, ?_⟩
  · intro j m' hj hget
    have hjlen : j < s.m_objectMaterials.length := by omega
    rw [List.getElem?_eq_getElem hjlen] at hget
    rw [← Option.some.inj hget]
    exact hmin j hjlen hj
  · intro u
    exact findMaterial_loop_first s tag u (Nat.find hex) hi heq _ 0 rfl
      (Nat.zero_le _) (fun j hj _ hlt => hmin j hj hlt)

/-- What one traversal of `RenderScene` leaves untouched before its first draws, and what it
leaves behind: the backdrop (draw 0, a plane) is drawn before any upload of a material
uniform or of `UVscale`, and the ground (draw 1, a plane) before any upload of `UVscale`;
after the traversal `UVscale` is (3, 2), the bound texture is the one of the roof slopes when
there is one, and the material uniforms are those the chimney cap uploaded for "house". -/
theorem renderScene_leftovers [Field K] (s : State K) (t : Trig K)
    (u : Nat → OBJECT_MATERIAL K) (hsh : s.m_pShaderManager = true) :
    ∃ R : List (Call K), RenderScene s t u = some R ∧
      (∀ cur : Option (UniformValue K),
        (valuesAtDraws "material.ambientColor" cur R)[0]? = some (.plane, cur) ∧
        (valuesAtDraws "material.ambientStrength" cur R)[0]? = some (.plane, cur) ∧
        (valuesAtDraws "material.diffuseColor" cur R)[0]? = some (.plane, cur) ∧
        (valuesAtDraws "material.specularColor" cur R)[0]? = some (.plane, cur) ∧
        (valuesAtDraws "material.shininess" cur R)[0]? = some (.plane, cur) ∧
        (valuesAtDraws "UVscale" cur R)[0]? = some (.plane, cur) ∧
        (valuesAtDraws "UVscale" cur R)[1]? = some (.plane, cur)) ∧
      uniformValue R "UVscale" = some (.vec2 ⟨3.0, 2.0⟩) ∧
      boundTexture R =
        (if (if s.m_texRoof ≠ 0 then s.m_texRoof else s.m_texBrick) ≠ 0 then
          some (if s.m_texRoof ≠ 0 then s.m_texRoof else s.m_texBrick)
        else none) ∧
      (s.m_objectMaterials ≠ [] →
        uniformValue R "material.ambientColor" =
          some (.vec3 (FindMaterial.loop s "house" (u 5) 0 false).ambientColor) ∧
        uniformValue R "material.ambientStrength" =
          some (.float (FindMaterial.loop s "house" (u 5) 0 false).ambientStrength) ∧
        uniformValue R "material.diffuseColor" =
          some (.vec3 (FindMaterial.loop s "house" (u 5) 0 false).diffuseColor) ∧
        uniformValue R "material.specularColor" =
          some (.vec3 (FindMaterial.loop s "house" (u 5) 0 false).specularColor) ∧
        uniformValue R "material.shininess" =
          some (.float (FindMaterial.loop s "house" (u 5) 0 false).shininess)) := by
  obtain ⟨sh, n, ids, mats, brick, roof⟩ := s
  simp only at hsh
  subst hsh
  cases mats with
  | nil =>
    have hmat : ∀ (b r : Nat) (tag : String) (un : OBJECT_MATERIAL K),
        SetShaderMaterial (⟨true, n, ids, [], b, r⟩ : State K) tag un = some [] :=
      fun _ _ _ _ => setShaderMaterial_empty _ _ _ rfl
    cases brick <;> cases roof <;>
      simp only [RenderScene, RenderScene.texturedBox, hmat] <;>
      simp only [seqCalls, SetTransformations, SetShaderColor, State.viaShader, UseTexture2D,
        SetUV, DrawBox, DrawTree, DrawFenceLine, DrawFenceLine.post, forCalls, if_true,
        List.cons_append, List.nil_append, List.append_assoc, Int.toNat_ofNat, ne_eq,
        Nat.add_one_ne_zero, not_false_eq_true, not_true_eq_false, if_false,
        Option.some.injEq, exists_eq_left'] <;>
      exact ⟨fun _ => ⟨rfl, rfl, rfl, rfl, rfl, rfl, rfl⟩, rfl, rfl, fun h => h.elim⟩
  | cons m mats =>
    have hmat := fun (b r : Nat) (tag : String) (un : OBJECT_MATERIAL K) =>
      setShaderMaterial_nonempty (⟨true, n, ids, m :: mats, b, r⟩ : State K) tag un rfl
        (List.cons_ne_nil m mats)
    cases brick <;> cases roof <;>
      simp only [RenderScene, RenderScene.texturedBox, hmat] <;>
      simp only [seqCalls, SetTransformations, SetShaderColor, State.viaShader, UseTexture2D,
        SetUV, DrawBox, DrawTree, DrawFenceLine, DrawFenceLine.post, forCalls, if_true,
        List.cons_append, List.nil_append, List.append_assoc, Int.toNat_ofNat, ne_eq,
        Nat.add_one_ne_zero, not_false_eq_true, not_true_eq_false, if_false,
        Option.some.injEq, exists_eq_left'] <;>
      exact ⟨fun _ => ⟨rfl, rfl, rfl, rfl, rfl, rfl, rfl⟩, rfl, rfl,
        fun _ => ⟨rfl, rfl, rfl, rfl, rfl⟩⟩

/-- A draw that no upload of `name` precedes sees the value `name` had before the calls. -/
theorem drawStates_value_at (name : String) (calls before : List (Call K)) (k : Nat)
    (mesh : Mesh)
    (h : ∀ cur : Option (UniformValue K), (valuesAtDraws name cur calls)[k]? = some (mesh, cur)) :
    ((drawStates before calls).map (fun d => uniformValue d.2 name))[k]? =
      some (uniformValue before name) := by
  rw [drawStates_values, List.getElem?_map, h]
  rfl

/-- The bound texture at the draws of `RenderScene`, from the list `textureAtDraws` gives. -/
theorem boundTexture_renderScene (brick roof : Nat) (bound : Option Nat)
    (L : List (Option (UniformValue K) × Option Nat))
    (hL : L =
      List.replicate 2 (some (.int 0), bound) ++
      List.replicate 2 (if brick ≠ 0 then (some (.int 1), some brick)
        else (some (.int 0), bound)) ++
      List.replicate 7 (some (.int 0), if brick ≠ 0 then some brick else bound) ++
      List.replicate 2
        (if (if roof ≠ 0 then roof else brick) ≠ 0 then
          (some (.int 1), some (if roof ≠ 0 then roof else brick))
        else (some (.int 0), bound)) ++
      List.replicate 24 (some (.int 0),
        if (if roof ≠ 0 then roof else brick) ≠ 0 then
          some (if roof ≠ 0 then roof else brick)
        else bound)) :
    L.map Prod.snd =
      List.replicate 2 bound ++
      List.replicate 9 (if brick ≠ 0 then some brick else bound) ++
      List.replicate 26 (if (if roof ≠ 0 then roof else brick) ≠ 0 then
        some (if roof ≠ 0 then roof else brick) else bound) := by
  subst hL
  by_cases h1 : brick = 0 <;> by_cases h2 : roof = 0 <;>
    simp only [h1, h2, ne_eq, not_true_eq_false, not_false_eq_true, if_true, if_false] <;> rfl

/-! ## Theorems: texturing state in `RenderScene` -/

/-- C15: with a non-NULL shader manager and whatever calls were made before entry (so also
with `bUseTexture` left true), every draw that `RenderScene` issues is preceded, after the
previous draw or after entry, by an upload of `bUseTexture`; at the 37 draws `bUseTexture` is
0 everywhere except at the four brick and roof draws (draws 2, 3, 11, 12), where it is 1 when
the texture handle used is non-zero; and `bUseTexture`
is 0 when `RenderScene` returns. -/
theorem renderScene_sets_bUseTexture [Field K] (s : State K) (t : Trig K)
    (u : Nat → OBJECT_MATERIAL K) (hsh : s.m_pShaderManager = true) :
    ∃ R : List (Call K), RenderScene s t u = some R ∧
      (∀ (a b : List (Call K)) (mesh : Mesh), R = a ++ .draw mesh :: b →
        ∃ (a1 a2 : List (Call K)) (v : UniformValue K),
          a = a1 ++ .setUniform "bUseTexture" v :: a2 ∧ ∀ c ∈ a2, ∀ m : Mesh, c ≠ .draw m) ∧
      (∀ pre : List (Call K),
        (drawStates pre R).map (fun d => uniformValue d.2 "bUseTexture") =
          List.replicate 2 (some (.int 0)) ++
            List.replicate 2 (some (.int (if s.m_texBrick ≠ 0 then 1 else 0))) ++
            List.replicate 7 (some (.int 0)) ++
            List.replicate 2
              (some (.int (if s.m_texRoof ≠ 0 ∨ s.m_texBrick ≠ 0 then 1 else 0))) ++
            List.replicate 24 (some (.int 0))) ∧
      (∀ pre : List (Call K), uniformValue (pre ++ R) "bUseTexture" = some (.int 0)) := by
  obtain ⟨R, hR, hset, htex, -, -, -, -, -, -, hlast⟩ := renderScene_draws s t u hsh
  refine ⟨R, hR, ?_, ?_, ?_⟩
  · intro a b mesh hab
    rcases setBeforeEachDraw_spec "bUseTexture" R false hset a b mesh hab with
      ⟨hf, -⟩ | h
    · cases hf
    · exact h
  · intro pre
    have h := congrArg (List.map Prod.fst) (drawStates_texture R pre)
    rw [List.map_map, htex] at h
    rw [show (fun d : Mesh × List (Call K) => uniformValue d.2 "bUseTexture") =
      Prod.fst ∘ (fun d => (uniformValue d.2 "bUseTexture", boundTexture d.2)) from rfl, h]
    by_cases h1 : s.m_texBrick = 0 <;> by_cases h2 : s.m_texRoof = 0 <;> simp [h1, h2]
  · intro pre
    exact uniformValue_append_of_some pre R "bUseTexture" _ hlast

/-- C14: with a non-NULL shader manager and whatever calls were made before, `RenderScene`
falls back when a texture handle is 0. The house body, the left bump-out and the two roof
slopes are draws 2, 3, 11 and 12 (boxes with the transforms the source gives them). If
`m_texBrick` is 0 the body and the bump-out are drawn with `bUseTexture` 0 and `objectColor`
(1,1,1,1); if `m_texRoof` is 0 and `m_texBrick` is not, both roof slopes are drawn with
`bUseTexture` 1 and the brick texture bound; and at every draw `bUseTexture` is 0, or it is 1
and the bound texture is a non-zero handle, `m_texBrick` or `m_texRoof`. -/
theorem renderScene_texture_fallback [Field K] (s : State K) (t : Trig K)
    (u : Nat → OBJECT_MATERIAL K) (pre : List (Call K)) (hsh : s.m_pShaderManager = true) :
    ∃ R : List (Call K), RenderScene s t u = some R ∧
      (∃ body bump roofL roofR : List (Call K),
        (drawStates pre R)[2]? = some (.box, body) ∧
        uniformValue body "model" = some (.mat4
          (SetTransformations.modelView t ⟨3.90, 3.80, 2.70⟩ 0 (-4.0) 0
            (RenderScene.H + ⟨0.0, 0.0, 0.10⟩))) ∧
        (drawStates pre R)[3]? = some (.box, bump) ∧
        uniformValue bump "model" = some (.mat4
          (SetTransformations.modelView t ⟨1.50, 2.40, 2.20⟩ 0 (-4.0) 0
            (RenderScene.H + ⟨-1.60, -0.10, 0.20⟩))) ∧
        (drawStates pre R)[11]? = some (.box, roofL) ∧
        uniformValue roofL "model" = some (.mat4
          (SetTransformations.modelView t ⟨1.95, 0.25, 3.05⟩ 0 (-4.0) 30.0
            (RenderScene.H + ⟨-0.78, 3.00, 0.06⟩))) ∧
        (drawStates pre R)[12]? = some (.box, roofR) ∧
        uniformValue roofR "model" = some (.mat4
          (SetTransformations.modelView t ⟨1.95, 0.25, 3.05⟩ 0 (-4.0) (-30.0)
            (RenderScene.H + ⟨0.78, 3.00, 0.06⟩))) ∧
        (s.m_texBrick = 0 → ∀ st ∈ [body, bump],
          uniformValue st "bUseTexture" = some (.int 0) ∧
          uniformValue st "objectColor" = some (.vec4 ⟨1, 1, 1, 1⟩)) ∧
        (s.m_texRoof = 0 → s.m_texBrick ≠ 0 → ∀ st ∈ [roofL, roofR],
          uniformValue st "bUseTexture" = some (.int 1) ∧
          boundTexture st = some s.m_texBrick)) ∧
      (∀ d ∈ drawStates pre R,
        uniformValue d.2 "bUseTexture" = some (.int 0) ∨
        (uniformValue d.2 "bUseTexture" = some (.int 1) ∧
          ∃ id : Nat, id ≠ 0 ∧ (id = s.m_texBrick ∨ id = s.m_texRoof) ∧
            boundTexture d.2 = some id)) := by
  obtain ⟨R, hR, -, htex, hval, -, -, -, -, -, -⟩ := renderScene_draws s t u hsh
  obtain ⟨hm2, hm3, hm11, hm12, hc2, hc3⟩ := hval (uniformValue pre "model")
  obtain ⟨-, -, -, -, hc2, hc3⟩ := hval (uniformValue pre "objectColor")
  have hmap := drawStates_texture R pre
  rw [htex] at hmap
  have hlen : (drawStates pre R).length = 37 := by
    have h := congrArg List.length hmap
    simpa using h
  obtain ⟨m2, body, hd2, hv2, ht2⟩ := drawStates_state_at R pre 2 (by omega)
  obtain ⟨m3, bump, hd3, hv3, ht3⟩ := drawStates_state_at R pre 3 (by omega)
  obtain ⟨m11, roofL, hd11, hv11, ht11⟩ := drawStates_state_at R pre 11 (by omega)
  obtain ⟨m12, roofR, hd12, hv12, ht12⟩ := drawStates_state_at R pre 12 (by omega)
  have e2 := hv2 "model"
  have e3 := hv3 "model"
  have e11 := hv11 "model"
  have e12 := hv12 "model"
  have c2 := hv2 "objectColor"
  have c3 := hv3 "objectColor"
  rw [hm2] at e2
  rw [hm3] at e3
  rw [hm11] at e11
  rw [hm12] at e12
  rw [hc2] at c2
  rw [hc3] at c3
  rw [htex] at ht2 ht3 ht11 ht12
  simp only [Option.some.injEq, Prod.mk.injEq] at e2 e3 e11 e12 c2 c3
  obtain ⟨rfl, e2⟩ := e2
  obtain ⟨rfl, e3⟩ := e3
  obtain ⟨rfl, e11⟩ := e11
  obtain ⟨rfl, e12⟩ := e12
  refine ⟨R, hR, ⟨body, bump, roofL, roofR, hd2, e2.symm, hd3, e3.symm, hd11, e11.symm, hd12,
    e12.symm, ?_, ?_⟩, ?_⟩
  · intro hb st hst
    simp only [hb, ne_eq, not_true_eq_false, if_false] at ht2 ht3
    simp only [List.mem_cons, List.mem_singleton, List.not_mem_nil, or_false] at hst
    rcases hst with rfl | rfl
    · have h : (some ((some (.int 0) : Option (UniformValue K)), boundTexture pre)) =
          some (uniformValue st "bUseTexture", boundTexture st) := ht2
      simp only [Option.some.injEq, Prod.mk.injEq] at h
      exact ⟨h.1.symm, c2.2.symm⟩
    · have h : (some ((some (.int 0) : Option (UniformValue K)), boundTexture pre)) =
          some (uniformValue st "bUseTexture", boundTexture st) := ht3
      simp only [Option.some.injEq, Prod.mk.injEq] at h
      exact ⟨h.1.symm, c3.2.symm⟩
  · intro hr hb st hst
    simp only [hr, hb, ne_eq, not_true_eq_false, not_false_eq_true, if_false, if_true]
      at ht11 ht12
    simp only [List.mem_cons, List.mem_singleton, List.not_mem_nil, or_false] at hst
    rcases hst with rfl | rfl
    · have h : (some ((some (.int 1) : Option (UniformValue K)), some s.m_texBrick)) =
          some (uniformValue st "bUseTexture", boundTexture st) := ht11
      simp only [Option.some.injEq, Prod.mk.injEq] at h
      exact ⟨h.1.symm, h.2.symm⟩
    · have h : (some ((some (.int 1) : Option (UniformValue K)), some s.m_texBrick)) =
          some (uniformValue st "bUseTexture", boundTexture st) := ht12
      simp only [Option.some.injEq, Prod.mk.injEq] at h
      exact ⟨h.1.symm, h.2.symm⟩
  · intro d hd
    have hin : (uniformValue d.2 "bUseTexture", boundTexture d.2) ∈
        (drawStates pre R).map
          (fun d => (uniformValue d.2 "bUseTexture", boundTexture d.2)) :=
      List.mem_map_of_mem _ hd
    rw [hmap] at hin
    by_cases h1 : s.m_texBrick = 0 <;> by_cases h2 : s.m_texRoof = 0 <;>
      simp [h1, h2, List.mem_replicate] at hin
    · exact Or.inl hin.1
    · rcases hin with h | h | h
      · exact Or.inl h.1
      · exact Or.inr ⟨h.1, _, h2, Or.inr rfl, h.2⟩
      · exact Or.inl h.1
    · rcases hin with h | h | h | h | h
      · exact Or.inl h.1
      · exact Or.inr ⟨h.1, _, h1, Or.inl rfl, h.2⟩
      · exact Or.inl h.1
      · exact Or.inr ⟨h.1, _, h1, Or.inl rfl, h.2⟩
      · exact Or.inl h.1
    · rcases hin with h | h | h | h | h
      · exact Or.inl h.1
      · exact Or.inr ⟨h.1, _, h1, Or.inl rfl, h.2⟩
      · exact Or.inl h.1
      · exact Or.inr ⟨h.1, _, h2, Or.inr rfl, h.2⟩
      · exact Or.inl h.1

/-! ## Theorems: two traversals of the scene -/

/-- C12 (as amended): with a non-NULL shader manager and a registry that defines "snow" and
"house", whatever calls were made before the first traversal and whatever the uninitialised
locals held, two successive `RenderScene` calls issue the same calls, hence 37 draws of the
same primitive kinds. `model`, `objectColor`, `bUseTexture` and the texture sampled are the
same at every draw of the two traversals; the five material uniforms are the same from the
second draw on, and `UVscale` from the third draw on. The backdrop (draw 0) sees each
material uniform as it was before the first call in the first traversal, and with the value
of the first material tagged "house" in the second. The backdrop and the ground (draws 0
and 1) see `UVscale` as it was before the first call in the first traversal and (3, 2) in
the second. The bound texture at the draws of each traversal is: the texture bound before
the traversal at draws 0 and 1; `m_texBrick`, when non-zero, at draws 2 to 10; the roof
texture `m_texRoof ? m_texRoof : m_texBrick`, when non-zero, from draw 11 on, which is also
the texture bound before the second traversal; so it is the same in both traversals from
draw 11 on. -/
theorem renderScene_twice_same_draws [Field K] (s : State K) (t : Trig K)
    (u1 u2 : Nat → OBJECT_MATERIAL K) (pre : List (Call K))
    (hsh : s.m_pShaderManager = true)
    (hsnow : ∃ m ∈ s.m_objectMaterials, m.tag = "snow")
    (hhouse : ∃ m ∈ s.m_objectMaterials, m.tag = "house") :
    ∃ R : List (Call K), RenderScene s t u1 = some R ∧ RenderScene s t u2 = some R ∧
      (drawStates pre R).length = 37 ∧ (drawStates (pre ++ R) R).length = 37 ∧
      (drawStates pre R).map Prod.fst = (drawStates (pre ++ R) R).map Prod.fst ∧
      (∀ name ∈ ["model", "objectColor", "bUseTexture"],
        (drawStates pre R).map (fun d => uniformValue d.2 name) =
          (drawStates (pre ++ R) R).map (fun d => uniformValue d.2 name)) ∧
      (drawStates pre R).map
          (fun d => textureSeen (uniformValue d.2 "bUseTexture") (boundTexture d.2)) =
        (drawStates (pre ++ R) R).map
          (fun d => textureSeen (uniformValue d.2 "bUseTexture") (boundTexture d.2)) ∧
      (∀ name ∈ ["material.ambientColor", "material.ambientStrength",
          "material.diffuseColor", "material.specularColor", "material.shininess"],
        ((drawStates pre R).drop 1).map (fun d => uniformValue d.2 name) =
          ((drawStates (pre ++ R) R).drop 1).map (fun d => uniformValue d.2 name)) ∧
      ((drawStates pre R).drop 2).map (fun d => uniformValue d.2 "UVscale") =
        ((drawStates (pre ++ R) R).drop 2).map (fun d => uniformValue d.2 "UVscale") ∧
      (∀ name ∈ ["material.ambientColor", "material.ambientStrength",
          "material.diffuseColor", "material.specularColor", "material.shininess"],
        ((drawStates pre R).map (fun d => uniformValue d.2 name))[0]? =
          some (uniformValue pre name)) ∧
      (∃ (i : Nat) (house : OBJECT_MATERIAL K),
        s.m_objectMaterials[i]? = some house ∧ house.tag = "house" ∧
        (∀ (j : Nat) (m' : OBJECT_MATERIAL K), j < i → s.m_objectMaterials[j]? = some m' →
          m'.tag ≠ "house") ∧
        ((drawStates (pre ++ R) R).map
            (fun d => uniformValue d.2 "material.ambientColor"))[0]? =
          some (some (.vec3 house.ambientColor)) ∧
        ((drawStates (pre ++ R) R).map
            (fun d => uniformValue d.2 "material.ambientStrength"))[0]? =
          some (some (.float house.ambientStrength)) ∧
        ((drawStates (pre ++ R) R).map
            (fun d => uniformValue d.2 "material.diffuseColor"))[0]? =
          some (some (.vec3 house.diffuseColor)) ∧
        ((drawStates (pre ++ R) R).map
            (fun d => uniformValue d.2 "material.specularColor"))[0]? =
          some (some (.vec3 house.specularColor)) ∧
        ((drawStates (pre ++ R) R).map
            (fun d => uniformValue d.2 "material.shininess"))[0]? =
          some (some (.float house.shininess))) ∧
      (∀ k ∈ [0, 1],
        ((drawStates pre R).map (fun d => uniformValue d.2 "UVscale"))[k]? =
          some (uniformValue pre "UVscale") ∧
        ((drawStates (pre ++ R) R).map (fun d => uniformValue d.2 "UVscale"))[k]? =
          some (some (.vec2 ⟨3.0, 2.0⟩))) ∧
      (drawStates pre R).map (fun d => boundTexture d.2) =
        List.replicate 2 (boundTexture pre) ++
          List.replicate 9 (if s.m_texBrick ≠ 0 then some s.m_texBrick else boundTexture pre) ++
          List.replicate 26
            (if (if s.m_texRoof ≠ 0 then s.m_texRoof else s.m_texBrick) ≠ 0 then
              some (if s.m_texRoof ≠ 0 then s.m_texRoof else s.m_texBrick)
            else boundTexture pre) ∧
      boundTexture (pre ++ R) =
        (if (if s.m_texRoof ≠ 0 then s.m_texRoof else s.m_texBrick) ≠ 0 then
          some (if s.m_texRoof ≠ 0 then s.m_texRoof else s.m_texBrick)
        else boundTexture pre) ∧
      (drawStates (pre ++ R) R).map (fun d => boundTexture d.2) =
        List.replicate 2 (boundTexture (pre ++ R)) ++
          List.replicate 9
            (if s.m_texBrick ≠ 0 then some s.m_texBrick else boundTexture (pre ++ R)) ++
          List.replicate 26
            (if (if s.m_texRoof ≠ 0 then s.m_texRoof else s.m_texBrick) ≠ 0 then
              some (if s.m_texRoof ≠ 0 then s.m_texRoof else s.m_texBrick)
            else boundTexture pre) ∧
      ((drawStates pre R).drop 11).map (fun d => boundTexture d.2) =
        ((drawStates (pre ++ R) R).drop 11).map (fun d => boundTexture d.2) := by
  obtain ⟨R, hR, -, htex, -, hmodel, hcolor, huse, huv, hmat, -⟩ :=
    renderScene_draws s t u1 hsh
  obtain ⟨R', hR', hfirst, huvlast, hboundlast, hmatlast⟩ := renderScene_leftovers s t u1 hsh
  have hRR : R = R' := Option.some.inj (hR.symm.trans hR')
  subst hRR
  have hne : s.m_objectMaterials ≠ [] := by
    obtain ⟨m, hm, -⟩ := hsnow
    exact List.ne_nil_of_mem hm
  obtain ⟨ha, hb, hc, hd, he⟩ := hmat hne
  obtain ⟨la, lb, lc, ld, le⟩ := hmatlast hne
  obtain ⟨i, house, hi, htag, hmin, hloop⟩ := findMaterial_first_carried s "house" hhouse
  rw [hloop] at la lb lc ld le
  have hlen : ∀ before : List (Call K), (drawStates before R).length = 37 := by
    intro before
    have h := congrArg List.length (drawStates_texture R before)
    rw [htex] at h
    simpa using h
  have hseen : ∀ before : List (Call K),
      (drawStates before R).map
          (fun d => textureSeen (uniformValue d.2 "bUseTexture") (boundTexture d.2)) =
        List.replicate 2 none ++
          List.replicate 2 (if s.m_texBrick ≠ 0 then some s.m_texBrick else none) ++
          List.replicate 7 none ++
          List.replicate 2 (if (if s.m_texRoof ≠ 0 then s.m_texRoof else s.m_texBrick) ≠ 0 then
            some (if s.m_texRoof ≠ 0 then s.m_texRoof else s.m_texBrick) else none) ++
          List.replicate 24 none := by
    intro before
    have h := textureSeen_renderScene s.m_texBrick s.m_texRoof (boundTexture before) _
      ((drawStates_texture R before).trans (htex _ _))
    rw [List.map_map] at h
    exact h
  have hbound : ∀ before : List (Call K),
      (drawStates before R).map (fun d => boundTexture d.2) =
        List.replicate 2 (boundTexture before) ++
          List.replicate 9
            (if s.m_texBrick ≠ 0 then some s.m_texBrick else boundTexture before) ++
          List.replicate 26
            (if (if s.m_texRoof ≠ 0 then s.m_texRoof else s.m_texBrick) ≠ 0 then
              some (if s.m_texRoof ≠ 0 then s.m_texRoof else s.m_texBrick)
            else boundTexture before) := by
    intro before
    have h := boundTexture_renderScene s.m_texBrick s.m_texRoof (boundTexture before) _
      ((drawStates_texture R before).trans (htex _ _))
    rw [List.map_map] at h
    exact h
  have hafter : boundTexture (pre ++ R) =
      (if (if s.m_texRoof ≠ 0 then s.m_texRoof else s.m_texBrick) ≠ 0 then
        some (if s.m_texRoof ≠ 0 then s.m_texRoof else s.m_texBrick)
      else boundTexture pre) := by
    rw [boundTexture_append, hboundlast]
    split_ifs <;> rfl
  have hroof : (if (if s.m_texRoof ≠ 0 then s.m_texRoof else s.m_texBrick) ≠ 0 then
        some (if s.m_texRoof ≠ 0 then s.m_texRoof else s.m_texBrick)
      else boundTexture (pre ++ R)) =
      (if (if s.m_texRoof ≠ 0 then s.m_texRoof else s.m_texBrick) ≠ 0 then
        some (if s.m_texRoof ≠ 0 then s.m_texRoof else s.m_texBrick)
      else boundTexture pre) := by
    rw [hafter]
    split_ifs <;> rfl
  have hsecond := hbound (pre ++ R)
  rw [hroof] at hsecond
  refine ⟨R, hR, (renderScene_uninit_irrelevant s t u1 u2 hsnow hhouse) ▸ hR, hlen _, hlen _,
    ?_, ?_, ?_, ?_, ?_, ?_, ?_, ?_, hbound pre, hafter, hsecond, ?_⟩
  · have h := valuesAtDraws_drop "model" R 0 (uniformValue pre "model")
      (uniformValue (pre ++ R) "model") hmodel
    simp only [List.drop_zero] at h
    rw [drawStates_meshes "model", drawStates_meshes "model", h]
  · intro name hname
    simp only [List.mem_cons, List.mem_singleton, List.not_mem_nil, or_false] at hname
    have h0 : setBeforeDraw name 0 R = true := by
      rcases hname with rfl | rfl | rfl <;> assumption
    simpa using drawStates_values_drop name 0 R pre (pre ++ R) h0
  · rw [hseen, hseen]
  · intro name hname
    simp only [List.mem_cons, List.mem_singleton, List.not_mem_nil, or_false] at hname
    have h1 : setBeforeDraw name 1 R = true := by
      rcases hname with rfl | rfl | rfl | rfl | rfl <;> assumption
    exact drawStates_values_drop name 1 R pre (pre ++ R) h1
  · exact drawStates_values_drop "UVscale" 2 R pre (pre ++ R) huv
  · intro name hname
    simp only [List.mem_cons, List.mem_singleton, List.not_mem_nil, or_false] at hname
    rcases hname with rfl | rfl | rfl | rfl | rfl
    · exact drawStates_value_at _ R pre 0 .plane (fun cur => (hfirst cur).1)
    · exact drawStates_value_at _ R pre 0 .plane (fun cur => (hfirst cur).2.1)
    · exact drawStates_value_at _ R pre 0 .plane (fun cur => (hfirst cur).2.2.1)
    · exact drawStates_value_at _ R pre 0 .plane (fun cur => (hfirst cur).2.2.2.1)
    · exact drawStates_value_at _ R pre 0 .plane (fun cur => (hfirst cur).2.2.2.2.1)
  · refine ⟨i, house, hi, htag, hmin, ?_, ?_, ?_, ?_, ?_⟩
    · rw [drawStates_value_at _ R (pre ++ R) 0 .plane (fun cur => (hfirst cur).1),
        uniformValue_append_of_some pre R _ _ la]
    · rw [drawStates_value_at _ R (pre ++ R) 0 .plane (fun cur => (hfirst cur).2.1),
        uniformValue_append_of_some pre R _ _ lb]
    · rw [drawStates_value_at _ R (pre ++ R) 0 .plane (fun cur => (hfirst cur).2.2.1),
        uniformValue_append_of_some pre R _ _ lc]
    · rw [drawStates_value_at _ R (pre ++ R) 0 .plane (fun cur => (hfirst cur).2.2.2.1),
        uniformValue_append_of_some pre R _ _ ld]
    · rw [drawStates_value_at _ R (pre ++ R) 0 .plane (fun cur => (hfirst cur).2.2.2.2.1),
        uniformValue_append_of_some pre R _ _ le]
  · intro k hk
    simp only [List.mem_cons, List.mem_singleton, List.not_mem_nil, or_false] at hk
    rcases hk with rfl | rfl
    · rw [drawStates_value_at _ R pre 0 .plane (fun cur => (hfirst cur).2.2.2.2.2.1),
        drawStates_value_at _ R (pre ++ R) 0 .plane (fun cur => (hfirst cur).2.2.2.2.2.1),
        uniformValue_append_of_some pre R _ _ huvlast]
      exact ⟨rfl, rfl⟩
    · rw [drawStates_value_at _ R pre 1 .plane (fun cur => (hfirst cur).2.2.2.2.2.2),
        drawStates_value_at _ R (pre ++ R) 1 .plane (fun cur => (hfirst cur).2.2.2.2.2.2),
        uniformValue_append_of_some pre R _ _ huvlast]
      exact ⟨rfl, rfl⟩
  · rw [List.map_drop, List.map_drop, hbound pre, hsecond]
    rfl

/-- The uploads of `SetShaderMaterial` in `sceneState`, for the two tags `RenderScene` uses. -/
theorem setShaderMaterial_sceneState (un : OBJECT_MATERIAL ℚ) :
    SetShaderMaterial sceneState "snow" un =
        some [.setUniform "material.ambientColor" (.vec3 ⟨0.70, 0.78, 0.92⟩),
          .setUniform "material.ambientStrength" (.float 0.18),
          .setUniform "material.diffuseColor" (.vec3 ⟨0.80, 0.88, 0.98⟩),
          .setUniform "material.specularColor" (.vec3 ⟨0.15, 0.15, 0.15⟩),
          .setUniform "material.shininess" (.float 8.0)] ∧
      SetShaderMaterial sceneState "house" un =
        some [.setUniform "material.ambientColor" (.vec3 ⟨0.62, 0.62, 0.70⟩),
          .setUniform "material.ambientStrength" (.float 0.15),
          .setUniform "material.diffuseColor" (.vec3 ⟨0.70, 0.70, 0.78⟩),
          .setUniform "material.specularColor" (.vec3 ⟨0.18, 0.18, 0.18⟩),
          .setUniform "material.shininess" (.float 12.0)] := by
  constructor <;>
    simp [SetShaderMaterial, FindMaterial, FindMaterial.loop, sceneState, DefineObjectMaterials,
      blankState, vec3.splat]

/-- C12, counterexample: in `sceneState` (brick handle 1, roof handle 2), after
`leftoverCalls` (shininess 99, `UVscale` (1, 1), texture 0 bound), the backdrop and the
ground (draws 0 and 1) are drawn in the first traversal with `UVscale` (1, 1) and texture 0
bound, the backdrop with shininess 99; in the second traversal they are drawn with `UVscale`
(3, 2) and texture 2 (the roof) bound, the backdrop with shininess 12 ("house", left by the
chimney cap). With nothing uploaded before, the backdrop sees no value in the first
traversal and the same leftovers in the second. -/
theorem renderScene_first_draws_see_leftover_state :
    ∃ R : List (Call ℚ), RenderScene sceneState rightAngles (fun _ => junkMaterial) = some R ∧
      ((drawStates leftoverCalls R).map
        (fun d => (d.1, uniformValue d.2 "material.shininess", uniformValue d.2 "UVscale",
          boundTexture d.2))).take 2 =
        [(.plane, some (.float 99.0), some (.vec2 ⟨1, 1⟩), some 0),
          (.plane, some (.float 8.0), some (.vec2 ⟨1, 1⟩), some 0)] ∧
      ((drawStates (leftoverCalls ++ R) R).map
        (fun d => (d.1, uniformValue d.2 "material.shininess", uniformValue d.2 "UVscale",
          boundTexture d.2))).take 2 =
        [(.plane, some (.float 12.0), some (.vec2 ⟨3.0, 2.0⟩), some 2),
          (.plane, some (.float 8.0), some (.vec2 ⟨3.0, 2.0⟩), some 2)] ∧
      ((drawStates [] R).map
        (fun d => (d.1, uniformValue d.2 "material.shininess", uniformValue d.2 "UVscale",
          boundTexture d.2))).take 1 = [(.plane, none, none, none)] ∧
      ((drawStates ([] ++ R) R).map
        (fun d => (d.1, uniformValue d.2 "material.shininess", uniformValue d.2 "UVscale",
          boundTexture d.2))).take 1 =
        [(.plane, some (.float 12.0), some (.vec2 ⟨3.0, 2.0⟩), some 2)] := by
  have hsh : sceneState.m_pShaderManager = true := rfl
  have hb : sceneState.m_texBrick = 1 := rfl
  have hr : sceneState.m_texRoof = 2 := rfl
  simp only [RenderScene, RenderScene.texturedBox, setShaderMaterial_sceneState, hsh, hb, hr]
  simp only [seqCalls, SetTransformations, SetShaderColor, State.viaShader, UseTexture2D,
    SetUV, DrawBox, DrawTree, DrawFenceLine, DrawFenceLine.post, forCalls, if_true,
    List.cons_append, List.nil_append, List.append_assoc, Int.toNat_ofNat, ne_eq, hsh,
    OfNat.ofNat_ne_zero, one_ne_zero, not_false_eq_true, not_true_eq_false, if_false,
    Option.some.injEq, exists_eq_left']
  exact ⟨rfl, rfl, rfl, rfl⟩

/-- The amended C12 in `sceneState`, after `leftoverCalls`, with two different contents of
the uninitialised locals. -/
theorem renderScene_twice_same_draws_witness :
    sceneState.m_pShaderManager = true ∧
      (∃ m ∈ sceneState.m_objectMaterials, m.tag = "snow") ∧
      (∃ m ∈ sceneState.m_objectMaterials, m.tag = "house") ∧
      ∃ R : List (Call ℚ),
        RenderScene sceneState rightAngles (fun _ => junkMaterial) = some R ∧
        RenderScene sceneState rightAngles
          (fun _ => ⟨0, ⟨0, 0, 0⟩, ⟨0, 0, 0⟩, ⟨0, 0, 0⟩, 0, ""⟩) = some R ∧
        (drawStates leftoverCalls R).length = 37 ∧
        (drawStates (leftoverCalls ++ R) R).length = 37 ∧
        (drawStates leftoverCalls R).map Prod.fst =
          (drawStates (leftoverCalls ++ R) R).map Prod.fst ∧
        (∀ name ∈ ["model", "objectColor", "bUseTexture"],
          (drawStates leftoverCalls R).map (fun d => uniformValue d.2 name) =
            (drawStates (leftoverCalls ++ R) R).map (fun d => uniformValue d.2 name)) ∧
        (drawStates leftoverCalls R).map
            (fun d => textureSeen (uniformValue d.2 "bUseTexture") (boundTexture d.2)) =
          (drawStates (leftoverCalls ++ R) R).map
            (fun d => textureSeen (uniformValue d.2 "bUseTexture") (boundTexture d.2)) ∧
        (∀ name ∈ ["material.ambientColor", "material.ambientStrength",
            "material.diffuseColor", "material.specularColor", "material.shininess"],
          ((drawStates leftoverCalls R).drop 1).map (fun d => uniformValue d.2 name) =
            ((drawStates (leftoverCalls ++ R) R).drop 1).map (fun d => uniformValue d.2 name)) ∧
        ((drawStates leftoverCalls R).drop 2).map (fun d => uniformValue d.2 "UVscale") =
          ((drawStates (leftoverCalls ++ R) R).drop 2).map (fun d => uniformValue d.2 "UVscale") ∧
        (∀ name ∈ ["material.ambientColor", "material.ambientStrength",
            "material.diffuseColor", "material.specularColor", "material.shininess"],
          ((drawStates leftoverCalls R).map (fun d => uniformValue d.2 name))[0]? =
            some (uniformValue leftoverCalls name)) ∧
        (∃ (i : Nat) (house : OBJECT_MATERIAL ℚ),
          sceneState.m_objectMaterials[i]? = some house ∧ house.tag = "house" ∧
          (∀ (j : Nat) (m' : OBJECT_MATERIAL ℚ), j < i →
            sceneState.m_objectMaterials[j]? = some m' →
            m'.tag ≠ "house") ∧
          ((drawStates (leftoverCalls ++ R) R).map
              (fun d => uniformValue d.2 "material.ambientColor"))[0]? =
            some (some (.vec3 house.ambientColor)) ∧
          ((drawStates (leftoverCalls ++ R) R).map
              (fun d => uniformValue d.2 "material.ambientStrength"))[0]? =
            some (some (.float house.ambientStrength)) ∧
          ((drawStates (leftoverCalls ++ R) R).map
              (fun d => uniformValue d.2 "material.diffuseColor"))[0]? =
            some (some (.vec3 house.diffuseColor)) ∧
          ((drawStates (leftoverCalls ++ R) R).map
              (fun d => uniformValue d.2 "material.specularColor"))[0]? =
            some (some (.vec3 house.specularColor)) ∧
          ((drawStates (leftoverCalls ++ R) R).map
              (fun d => uniformValue d.2 "material.shininess"))[0]? =
            some (some (.float house.shininess))) ∧
        (∀ k ∈ [0, 1],
          ((drawStates leftoverCalls R).map (fun d => uniformValue d.2 "UVscale"))[k]? =
            some (uniformValue leftoverCalls "UVscale") ∧
          ((drawStates (leftoverCalls ++ R) R).map (fun d => uniformValue d.2 "UVscale"))[k]? =
            some (some (.vec2 ⟨3.0, 2.0⟩))) ∧
        (drawStates leftoverCalls R).map (fun d => boundTexture d.2) =
          List.replicate 2 (boundTexture leftoverCalls) ++
            List.replicate 9
              (if sceneState.m_texBrick ≠ 0 then some sceneState.m_texBrick
              else boundTexture leftoverCalls) ++
            List.replicate 26
              (if (if sceneState.m_texRoof ≠ 0 then sceneState.m_texRoof else sceneState.m_texBrick) ≠ 0 then
                some (if sceneState.m_texRoof ≠ 0 then sceneState.m_texRoof else sceneState.m_texBrick)
              else boundTexture leftoverCalls) ∧
        boundTexture (leftoverCalls ++ R) =
          (if (if sceneState.m_texRoof ≠ 0 then sceneState.m_texRoof else sceneState.m_texBrick) ≠ 0 then
            some (if sceneState.m_texRoof ≠ 0 then sceneState.m_texRoof else sceneState.m_texBrick)
          else boundTexture leftoverCalls) ∧
        (drawStates (leftoverCalls ++ R) R).map (fun d => boundTexture d.2) =
          List.replicate 2 (boundTexture (leftoverCalls ++ R)) ++
            List.replicate 9
              (if sceneState.m_texBrick ≠ 0 then some sceneState.m_texBrick
              else boundTexture (leftoverCalls ++ R)) ++
            List.replicate 26
              (if (if sceneState.m_texRoof ≠ 0 then sceneState.m_texRoof else sceneState.m_texBrick) ≠ 0 then
                some (if sceneState.m_texRoof ≠ 0 then sceneState.m_texRoof else sceneState.m_texBrick)
              else boundTexture leftoverCalls) ∧
        ((drawStates leftoverCalls R).drop 11).map (fun d => boundTexture d.2) =
          ((drawStates (leftoverCalls ++ R) R).drop 11).map (fun d => boundTexture d.2) :=
  ⟨rfl, ⟨_, List.mem_cons_self _ _, rfl⟩,
    ⟨_, List.mem_cons_of_mem _ (List.mem_cons_self _ _), rfl⟩,
    renderScene_twice_same_draws sceneState rightAngles (fun _ => junkMaterial)
      (fun _ => ⟨0, ⟨0, 0, 0⟩, ⟨0, 0, 0⟩, ⟨0, 0, 0⟩, 0, ""⟩) leftoverCalls rfl
      ⟨_, List.mem_cons_self _ _, rfl⟩
      ⟨_, List.mem_cons_of_mem _ (List.mem_cons_self _ _), rfl⟩⟩

/-- C15 in `sceneState`: both textures loaded, so the four textured draws have
`bUseTexture` 1. -/
theorem renderScene_sets_bUseTexture_witness :
    sceneState.m_pShaderManager = true ∧
      ∃ R : List (Call ℚ), RenderScene sceneState rightAngles (fun _ => junkMaterial) = some R ∧
        (∀ (a b : List (Call ℚ)) (mesh : Mesh), R = a ++ .draw mesh :: b →
          ∃ (a1 a2 : List (Call ℚ)) (v : UniformValue ℚ),
            a = a1 ++ .setUniform "bUseTexture" v :: a2 ∧
              ∀ c ∈ a2, ∀ m : Mesh, c ≠ .draw m) ∧
        (∀ pre : List (Call ℚ),
          (drawStates pre R).map (fun d => uniformValue d.2 "bUseTexture") =
            List.replicate 2 (some (.int 0)) ++
              List.replicate 2 (some (.int (if sceneState.m_texBrick ≠ 0 then 1 else 0))) ++
              List.replicate 7 (some (.int 0)) ++
              List.replicate 2
                (some (.int
                  (if sceneState.m_texRoof ≠ 0 ∨ sceneState.m_texBrick ≠ 0 then 1 else 0))) ++
              List.replicate 24 (some (.int 0))) ∧
        (∀ pre : List (Call ℚ), uniformValue (pre ++ R) "bUseTexture" = some (.int 0)) :=
  ⟨rfl, renderScene_sets_bUseTexture sceneState rightAngles (fun _ => junkMaterial) rfl⟩

/-- C14 in `roofMissingState`, after the uploads of `staleLights`: the roof texture is
missing and the brick texture has handle 7. -/
theorem renderScene_texture_fallback_witness :
    roofMissingState.m_pShaderManager = true ∧
      ∃ R : List (Call ℚ),
        RenderScene roofMissingState rightAngles (fun _ => junkMaterial) = some R ∧
        (∃ body bump roofL roofR : List (Call ℚ),
          (drawStates staleLights R)[2]? = some (.box, body) ∧
          uniformValue body "model" = some (.mat4
            (SetTransformations.modelView rightAngles ⟨3.90, 3.80, 2.70⟩ 0 (-4.0) 0
              (RenderScene.H + ⟨0.0, 0.0, 0.10⟩))) ∧
          (drawStates staleLights R)[3]? = some (.box, bump) ∧
          uniformValue bump "model" = some (.mat4
            (SetTransformations.modelView rightAngles ⟨1.50, 2.40, 2.20⟩ 0 (-4.0) 0
              (RenderScene.H + ⟨-1.60, -0.10, 0.20⟩))) ∧
          (drawStates staleLights R)[11]? = some (.box, roofL) ∧
          uniformValue roofL "model" = some (.mat4
            (SetTransformations.modelView rightAngles ⟨1.95, 0.25, 3.05⟩ 0 (-4.0) 30.0
              (RenderScene.H + ⟨-0.78, 3.00, 0.06⟩))) ∧
          (drawStates staleLights R)[12]? = some (.box, roofR) ∧
          uniformValue roofR "model" = some (.mat4
            (SetTransformations.modelView rightAngles ⟨1.95, 0.25, 3.05⟩ 0 (-4.0) (-30.0)
              (RenderScene.H + ⟨0.78, 3.00, 0.06⟩))) ∧
          (roofMissingState.m_texBrick = 0 → ∀ st ∈ [body, bump],
            uniformValue st "bUseTexture" = some (.int 0) ∧
            uniformValue st "objectColor" = some (.vec4 ⟨1, 1, 1, 1⟩)) ∧
          (roofMissingState.m_texRoof = 0 → roofMissingState.m_texBrick ≠ 0 →
            ∀ st ∈ [roofL, roofR],
              uniformValue st "bUseTexture" = some (.int 1) ∧
              boundTexture st = some roofMissingState.m_texBrick)) ∧
        (∀ d ∈ drawStates staleLights R,
          uniformValue d.2 "bUseTexture" = some (.int 0) ∨
          (uniformValue d.2 "bUseTexture" = some (.int 1) ∧
            ∃ id : Nat, id ≠ 0 ∧
              (id = roofMissingState.m_texBrick ∨ id = roofMissingState.m_texRoof) ∧
              boundTexture d.2 = some id)) :=
  ⟨rfl, renderScene_texture_fallback roofMissingState rightAngles (fun _ => junkMaterial)
    staleLights rfl⟩

/-! ## Theorems: texture lookup for the shader -/

/-- C13, the divergence: for every registry whose count does not exceed the array, a
non-NULL shader manager and every tag that no registered entry carries, `SetShaderTexture`
takes no fallback. It makes exactly two uploads, `bUseTexture` 1 and `objectTexture` -1, so
that afterwards texturing is enabled with the not-found value -1 as sampler unit, whatever
was uploaded before. -/
theorem setShaderTexture_unregistered (s : State K) (tag : String)
    (hsh : s.m_pShaderManager = true)
    (hcap : s.m_loadedTextures ≤ s.m_textureIDs.length)
    (hmiss : ∀ (k : Nat) (e : TEXTURE_INFO), (k : Int) < s.m_loadedTextures →
      s.m_textureIDs[k]? = some e → e.tag ≠ tag) :
    SetShaderTexture s tag =
        some [.setUniform "bUseTexture" (.int 1),
          .setUniform "objectTexture" (.sampler2D (-1))] ∧
      ∀ pre : List (Call K),
        uniformValue (pre ++ (SetShaderTexture s tag).getD []) "bUseTexture" = some (.int 1) ∧
        uniformValue (pre ++ (SetShaderTexture s tag).getD []) "objectTexture" =
          some (.sampler2D (-1)) := by
  have hslot : FindTextureSlot s tag = some (-1) := by
    rcases findTexture_scan s tag hcap _ 0 rfl with
      ⟨j, e, -, hj, he, htag, -, -, -⟩ | ⟨-, h, -⟩
    · exact absurd htag (hmiss j e hj he)
    · exact h
  have hcalls : SetShaderTexture s tag =
      some [.setUniform "bUseTexture" (.int 1),
        .setUniform "objectTexture" (.sampler2D (-1))] := by
    simp only [SetShaderTexture, hsh, if_true, hslot]
  refine ⟨hcalls, fun pre => ?_⟩
  rw [hcalls]
  exact ⟨uniformValue_append_of_some pre _ _ _ rfl, uniformValue_append_of_some pre _ _ _ rfl⟩

/-- C13 in `sampleRegistry` ("brick" and "roof" registered) for the unregistered tag "snow". -/
theorem setShaderTexture_unregistered_witness :
    sampleRegistry.m_pShaderManager = true ∧
      sampleRegistry.m_loadedTextures ≤ sampleRegistry.m_textureIDs.length ∧
      (∀ (k : Nat) (e : TEXTURE_INFO), (k : Int) < sampleRegistry.m_loadedTextures →
        sampleRegistry.m_textureIDs[k]? = some e → e.tag ≠ "snow") ∧
      SetShaderTexture sampleRegistry "snow" =
        some [.setUniform "bUseTexture" (.int 1),
          .setUniform "objectTexture" (.sampler2D (-1))] ∧
      ∀ pre : List (Call ℚ),
        uniformValue (pre ++ (SetShaderTexture sampleRegistry "snow").getD []) "bUseTexture" =
          some (.int 1) ∧
        uniformValue (pre ++ (SetShaderTexture sampleRegistry "snow").getD []) "objectTexture" =
          some (.sampler2D (-1)) :=
  have hmiss : ∀ (k : Nat) (e : TEXTURE_INFO), (k : Int) < sampleRegistry.m_loadedTextures →
      sampleRegistry.m_textureIDs[k]? = some e → e.tag ≠ "snow" := by
    intro k e hk he
    have hk2 : k < 2 := by
      have : (k : Int) < 2 := hk
      omega
    interval_cases k
    · have h : e = ⟨"brick", 1⟩ := (Option.some.inj he).symm
      rw [h]; decide
    · have h : e = ⟨"roof", 4294967295⟩ := (Option.some.inj he).symm
      rw [h]; decide
  ⟨rfl, by decide, hmiss, setShaderTexture_unregistered sampleRegistry "snow" rfl (by decide) hmiss⟩

/-- C13, failing input: in a registry with no texture loaded, `SetShaderTexture("brick")`
on an empty sink leaves `bUseTexture` 1 and the sampler unit -1; no fallback is taken. -/
theorem setShaderTexture_leaves_sentinel_sampler :
    emptyRegistry.m_loadedTextures = 0 ∧
      SetShaderTexture emptyRegistry "brick" =
        some [.setUniform "bUseTexture" (.int 1),
          .setUniform "objectTexture" (.sampler2D (-1))] ∧
      uniformValue ((SetShaderTexture emptyRegistry "brick").getD []) "bUseTexture" =
        some (.int 1) ∧
      uniformValue ((SetShaderTexture emptyRegistry "brick").getD []) "objectTexture" =
        some (.sampler2D (-1)) := by
  have h : SetShaderTexture emptyRegistry "brick" =
      some [.setUniform "bUseTexture" (.int 1),
        .setUniform "objectTexture" (.sampler2D (-1))] := by
    simp [SetShaderTexture, FindTextureSlot, FindTextureSlot.loop, emptyRegistry]
  rw [h]
  exact ⟨rfl, rfl, rfl, rfl⟩

/-! ## Theorems: registry capacity -/

/-- One call of `CreateGLTexture` with the count at `n`: a load that reaches the registration
writes index `n` (when it is inside the array) and raises the count by one; any other load
leaves the state as it was. -/
theorem createGLTexture_step (s : State K) (l : Load) (n : Nat)
    (hn : s.m_loadedTextures = (n : Int))
    (hfree : l.registers = true → n < s.m_textureIDs.length) :
    ∃ (s1 : State K) (calls : List (Call K)),
      CreateGLTexture s l.image l.textureID l.tag = some (l.registers, s1, calls) ∧
      s1.m_loadedTextures = ((n + (if l.registers = true then 1 else 0) : Nat) : Int) ∧
      s1.m_textureIDs.length = s.m_textureIDs.length ∧
      (l.registers = true → s1.m_textureIDs = s.m_textureIDs.set n ⟨l.tag, l.textureID⟩) := by
  cases himg : l.image with
  | none =>
    have hr : l.registers = false := by simp [Load.registers, himg]
    exact ⟨s, [], by simp [CreateGLTexture, hr], by simp [hr, hn], rfl, by simp [hr]⟩
  | some img =>
    by_cases hch : img.colorChannels = 3 ∨ img.colorChannels = 4
    · have hr : l.registers = true := by simp [Load.registers, himg, hch]
      obtain ⟨s1, calls, hc, hcount, harr⟩ :=
        createGLTexture_registers s l n ⟨img, himg, hch⟩ hn (hfree hr)
      rw [himg] at hc
      refine ⟨s1, calls, by rw [hc, hr], ?_, ?_, fun _ => harr⟩
      · rw [hcount, hr]; simp
      · rw [harr, List.length_set]
    · have hr : l.registers = false := by simp [Load.registers, himg, hch]
      have h3 : ¬ img.colorChannels = 3 := fun h => hch (Or.inl h)
      have h4 : ¬ img.colorChannels = 4 := fun h => hch (Or.inr h)
      refine ⟨s, [.glGenTextures l.textureID, .glBindTexture l.textureID,
        .glTexParameteri "GL_TEXTURE_WRAP_S" "GL_REPEAT",
        .glTexParameteri "GL_TEXTURE_WRAP_T" "GL_REPEAT",
        .glTexParameteri "GL_TEXTURE_MIN_FILTER" "GL_LINEAR",
        .glTexParameteri "GL_TEXTURE_MAG_FILTER" "GL_LINEAR"], ?_, by simp [hr, hn], rfl,
        by simp [hr]⟩
      simp only [CreateGLTexture, h3, h4, if_false, hr]

/-- A sequence of loads whose registrations fit into the free entries runs call by call and
leaves the count raised by the number of registrations. -/
theorem loadAll_count (loads : List Load) :
    ∀ (s : State K) (n : Nat), s.m_loadedTextures = (n : Int) →
      n + loads.countP Load.registers ≤ s.m_textureIDs.length →
      ∃ (bs : List Bool) (s1 : State K), loadAll s loads = some (bs, s1) ∧
        s1.m_loadedTextures = ((n + loads.countP Load.registers : Nat) : Int) ∧
        s1.m_textureIDs.length = s.m_textureIDs.length := by
  induction loads with
  | nil =>
    intro s n hn _
    exact ⟨[], s, rfl, by simpa using hn, rfl⟩
  | cons l ls ih =>
    intro s n hn hcap
    rw [List.countP_cons] at hcap
    obtain ⟨s1, calls, hc, hcount, hlen, -⟩ := createGLTexture_step s l n hn
      (fun hr => by rw [hr] at hcap; simp only [if_true] at hcap; omega)
    obtain ⟨bs, s2, hall, hcount2, hlen2⟩ := ih s1 _ hcount (by rw [hlen]; omega)
    refine ⟨l.registers :: bs, s2, ?_, ?_, ?_⟩
    · simp only [loadAll, hc, hall]
    · rw [hcount2, List.countP_cons]; congr 1; omega
    · rw [hlen2, hlen]

/-- C16 (as amended): from a registry with count 0 and sixteen entries, for every sequence
of `CreateGLTexture` calls of which at most sixteen reach the registration (a decoded image
with 3 or 4 channels), every prefix of the sequence runs; after it `m_loadedTextures` is the
number of registrations made, at most 16; and when the next call registers, it writes the
entry at index `m_loadedTextures`, which is below 16. -/
theorem createGLTexture_count_within_capacity (s : State K) (loads : List Load)
    (hempty : s.m_loadedTextures = 0) (hsize : s.m_textureIDs.length = textureCapacity)
    (hcount : loads.countP Load.registers ≤ textureCapacity) :
    ∀ k : Nat, k ≤ loads.length →
      ∃ (bs : List Bool) (sk : State K), loadAll s (loads.take k) = some (bs, sk) ∧
        sk.m_loadedTextures = (((loads.take k).countP Load.registers : Nat) : Int) ∧
        sk.m_loadedTextures ≤ 16 ∧
        ∀ l : Load, loads[k]? = some l → l.registers = true →
          ∃ (i : Nat) (s1 : State K) (calls : List (Call K)),
            sk.m_loadedTextures = (i : Int) ∧ i < 16 ∧
            CreateGLTexture sk l.image l.textureID l.tag = some (true, s1, calls) ∧
            s1.m_textureIDs = sk.m_textureIDs.set i ⟨l.tag, l.textureID⟩ := by
  intro k _
  have hcap : textureCapacity = 16 := rfl
  have hle : (loads.take k).countP Load.registers ≤ loads.countP Load.registers :=
    (List.take_sublist k loads).countP_le _
  obtain ⟨bs, sk, hall, hcnt, hlen⟩ := loadAll_count (loads.take k) s 0
    (by simpa using hempty) (by rw [hsize]; omega)
  rw [Nat.zero_add] at hcnt
  refine ⟨bs, sk, hall, hcnt, by rw [hcnt]; exact_mod_cast (by omega : _ ≤ 16), ?_⟩
  intro l hl hr
  have hsucc : (loads.take (k + 1)).countP Load.registers =
      (loads.take k).countP Load.registers + 1 := by
    rw [List.take_succ, hl, List.countP_append]
    simp [hr]
  have hle1 : (loads.take (k + 1)).countP Load.registers ≤ loads.countP Load.registers :=
    (List.take_sublist (k + 1) loads).countP_le _
  have hlt : (loads.take k).countP Load.registers < 16 := by omega
  obtain ⟨s1, calls, hc, -, -, harr⟩ := createGLTexture_step sk l _ hcnt
    (fun _ => by rw [hlen, hsize]; omega)
  rw [hr] at hc
  exact ⟨_, s1, calls, hcnt, hlt, hc, harr hr⟩

/-- The amended C16 for the three loads of `sampleLoads` into `emptyRegistry`. -/
theorem createGLTexture_count_within_capacity_witness :
    emptyRegistry.m_loadedTextures = 0 ∧ emptyRegistry.m_textureIDs.length = textureCapacity ∧
      sampleLoads.countP Load.registers ≤ textureCapacity ∧
      ∀ k : Nat, k ≤ sampleLoads.length →
        ∃ (bs : List Bool) (sk : State ℚ),
          loadAll emptyRegistry (sampleLoads.take k) = some (bs, sk) ∧
          sk.m_loadedTextures = (((sampleLoads.take k).countP Load.registers : Nat) : Int) ∧
          sk.m_loadedTextures ≤ 16 ∧
          ∀ l : Load, sampleLoads[k]? = some l → l.registers = true →
            ∃ (i : Nat) (s1 : State ℚ) (calls : List (Call ℚ)),
              sk.m_loadedTextures = (i : Int) ∧ i < 16 ∧
              CreateGLTexture sk l.image l.textureID l.tag = some (true, s1, calls) ∧
              s1.m_textureIDs = sk.m_textureIDs.set i ⟨l.tag, l.textureID⟩ :=
  ⟨rfl, rfl, by decide,
    createGLTexture_count_within_capacity emptyRegistry sampleLoads rfl rfl (by decide)⟩

/-- C16, counterexample: seventeen loads of a decoded RGB image into the empty registry of
sixteen entries. The first sixteen calls return `true` and leave the count at 16; the
seventeenth reaches the registration with `m_loadedTextures` = 16 and writes index 16,
outside the array (`none`): no call checks the capacity. -/
theorem createGLTexture_seventeenth_load_out_of_bounds :
    seventeenLoads.length = 17 ∧ seventeenLoads.countP Load.registers = 17 ∧
      ∃ s16 : State ℚ,
        loadAll emptyRegistry (seventeenLoads.take 16) = some (List.replicate 16 true, s16) ∧
        s16.m_loadedTextures = 16 ∧ s16.m_textureIDs.length = 16 ∧
        seventeenLoads[16]? = some ⟨some ⟨64, 64, 3⟩, 17, "tex16"⟩ ∧
        CreateGLTexture s16 (some ⟨64, 64, 3⟩) 17 "tex16" = none ∧
        loadAll emptyRegistry seventeenLoads = none :=
  ⟨rfl, rfl, _, rfl, rfl, rfl, rfl, rfl, rfl⟩

/-! ## Theorems: trees -/

/-- C18: with a shader manager, for every base position and all dimensions `DrawTree` issues
exactly three draws, a cylinder (trunk), a cone (crown) and a cylinder (snow cap), each with
the three rotation angles 0, with the base's x and z, and translated to `base.y + trunkH/2`,
to `base.y + trunkH + crownH/2` and to `base.y + trunkH + crownH - 0.02`; each is drawn with
`bUseTexture` 0 and its own flat colour whatever was uploaded before; and the crown's centre
minus half its height is the trunk's centre plus half the trunk's height. -/
theorem drawTree_pieces [Field K] [CharZero K] (s : State K) (t : Trig K) (basePos : vec3 K)
    (trunkH trunkR crownH crownR : K) (model : Option (mat4 K)) (pre : List (Call K))
    (hsh : s.m_pShaderManager = true) :
    ∃ calls : List (Call K),
      DrawTree s t basePos trunkH trunkR crownH crownR = some calls ∧
      drawsWithModel model calls =
        [(.cylinder, some (SetTransformations.modelView t ⟨trunkR, trunkH, trunkR⟩ 0 0 0
            ⟨basePos.x, basePos.y + trunkH / 2, basePos.z⟩)),
          (.cone, some (SetTransformations.modelView t ⟨crownR, crownH, crownR⟩ 0 0 0
            ⟨basePos.x, basePos.y + trunkH + crownH / 2, basePos.z⟩)),
          (.cylinder, some (SetTransformations.modelView t
            ⟨crownR * 0.55, 0.08, crownR * 0.55⟩ 0 0 0
            ⟨basePos.x, basePos.y + trunkH + crownH - 0.02, basePos.z⟩))] ∧
      (drawsWithModel model calls).map (fun d => d.2.map mat4.translation) =
        [some ⟨basePos.x, basePos.y + trunkH / 2, basePos.z⟩,
          some ⟨basePos.x, basePos.y + trunkH + crownH / 2, basePos.z⟩,
          some ⟨basePos.x, basePos.y + trunkH + crownH - 0.02, basePos.z⟩] ∧
      (drawStates pre calls).map (fun d => (d.1, uniformValue d.2 "bUseTexture")) =
        [(.cylinder, some (.int 0)), (.cone, some (.int 0)), (.cylinder, some (.int 0))] ∧
      (drawStates pre calls).map (fun d => (d.1, uniformValue d.2 "objectColor")) =
        [(.cylinder, some (.vec4 ⟨0.35, 0.30, 0.28, 1.0⟩)),
          (.cone, some (.vec4 ⟨0.55, 0.70, 0.68, 1.0⟩)),
          (.cylinder, some (.vec4 ⟨0.90, 0.95, 1.0, 1.0⟩))] ∧
      (basePos.y + trunkH + crownH / 2) - crownH / 2 =
        (basePos.y + trunkH / 2) + trunkH / 2 := by
  have hp1 : basePos + (⟨0.0, trunkH * 0.5, 0.0⟩ : vec3 K) =
      ⟨basePos.x, basePos.y + trunkH / 2, basePos.z⟩ := by
    ext <;> simp only [vec3_add_def] <;> norm_num
    ring
  have hp2 : basePos + (⟨0.0, trunkH + crownH * 0.5, 0.0⟩ : vec3 K) =
      ⟨basePos.x, basePos.y + trunkH + crownH / 2, basePos.z⟩ := by
    ext <;> simp only [vec3_add_def] <;> norm_num
    ring
  have hp3 : basePos + (⟨0.0, trunkH + crownH - 0.02, 0.0⟩ : vec3 K) =
      ⟨basePos.x, basePos.y + trunkH + crownH - 0.02, basePos.z⟩ := by
    ext <;> simp only [vec3_add_def] <;> norm_num
    ring
  simp only [DrawTree, seqCalls, SetTransformations, SetShaderColor, State.viaShader, hsh,
    if_true, List.cons_append, List.nil_append, List.append_nil, Option.some.injEq,
    exists_eq_left', drawStates_uniformValue, hp1, hp2, hp3]
  refine ⟨rfl, ?_, rfl, rfl, by ring⟩
  simp only [drawsWithModel, if_true, List.map_cons, List.map_nil, Option.map_some',
    modelView_translation]

/-- C18 over the rationals, for the first tree of the scene at base (1, 2, 3), after the
uploads of `staleLights`. -/
theorem drawTree_pieces_witness :
    (blankState : State ℚ).m_pShaderManager = true ∧
      ∃ calls : List (Call ℚ),
        DrawTree (blankState : State ℚ) rightAngles ⟨1, 2, 3⟩ 1.0 0.18 1.4 0.9 = some calls ∧
        drawsWithModel none calls =
          [(.cylinder, some (SetTransformations.modelView rightAngles ⟨0.18, 1.0, 0.18⟩ 0 0 0
              ⟨1, 2 + 1.0 / 2, 3⟩)),
            (.cone, some (SetTransformations.modelView rightAngles ⟨0.9, 1.4, 0.9⟩ 0 0 0
              ⟨1, 2 + 1.0 + 1.4 / 2, 3⟩)),
            (.cylinder, some (SetTransformations.modelView rightAngles
              ⟨0.9 * 0.55, 0.08, 0.9 * 0.55⟩ 0 0 0
              ⟨1, 2 + 1.0 + 1.4 - 0.02, 3⟩))] ∧
        (drawsWithModel none calls).map (fun d => d.2.map mat4.translation) =
          [some ⟨1, 2 + 1.0 / 2, 3⟩, some ⟨1, 2 + 1.0 + 1.4 / 2, 3⟩,
            some ⟨1, 2 + 1.0 + 1.4 - 0.02, 3⟩] ∧
        (drawStates staleLights calls).map (fun d => (d.1, uniformValue d.2 "bUseTexture")) =
          [(.cylinder, some (.int 0)), (.cone, some (.int 0)), (.cylinder, some (.int 0))] ∧
        (drawStates staleLights calls).map (fun d => (d.1, uniformValue d.2 "objectColor")) =
          [(.cylinder, some (.vec4 ⟨0.35, 0.30, 0.28, 1.0⟩)),
            (.cone, some (.vec4 ⟨0.55, 0.70, 0.68, 1.0⟩)),
            (.cylinder, some (.vec4 ⟨0.90, 0.95, 1.0, 1.0⟩))] ∧
        ((2 : ℚ) + 1.0 + 1.4 / 2) - 1.4 / 2 = (2 + 1.0 / 2) + 1.0 / 2 :=
  ⟨rfl, drawTree_pieces (blankState : State ℚ) rightAngles ⟨1, 2, 3⟩ 1.0 0.18 1.4 0.9 none
    staleLights rfl⟩

/-! ## Theorems: fence rails -/

/-- C11 (as amended): with a shader manager and a cosine and sine that are exact at 0
degrees, for every start, spacing and post count `n >= 1` with direction (1,0,0),
`DrawFenceLine` draws `n + 2` boxes, of which the first two are the rails. Each rail has the
scale (`spacing * n`, 0.05, 0.12) on the diagonal of its model matrix, so its width is `n`
spacings and not the post run of `n - 1` spacings; it is centred in x on the midpoint between
the first post (at `start.x`) and the last (at `start.x + spacing * (n - 1)`), has the z of
`start`, and sits at `start.y - 0.30` (lower rail) or `start.y + 0.05` (upper rail). -/
theorem drawFenceLine_rails [Field K] [CharZero K] (s : State K) (t : Trig K)
    (start : vec3 K) (n : Nat) (spacing : K) (model : Option (mat4 K))
    (hsh : s.m_pShaderManager = true) (hc0 : t.cos (t.radians 0) = 1)
    (hs0 : t.sin (t.radians 0) = 0) (hn : 1 ≤ n) :
    ∃ calls : List (Call K),
      DrawFenceLine s t start ⟨1, 0, 0⟩ (n : Int) spacing = some calls ∧
      (drawsWithModel model calls).length = n + 2 ∧
      (drawsWithModel model calls).take 2 =
        [(.box, some ⟨⟨spacing * (n : K), 0, 0, 0⟩, ⟨0, 0.05, 0, 0⟩, ⟨0, 0, 0.12, 0⟩,
            ⟨(start.x + (start.x + spacing * ((n - 1 : Nat) : K))) / 2, start.y - 0.30,
              start.z, 1⟩⟩),
          (.box, some ⟨⟨spacing * (n : K), 0, 0, 0⟩, ⟨0, 0.05, 0, 0⟩, ⟨0, 0, 0.12, 0⟩,
            ⟨(start.x + (start.x + spacing * ((n - 1 : Nat) : K))) / 2, start.y + 0.05,
              start.z, 1⟩⟩)] := by
  obtain ⟨calls, hcalls, hdraws⟩ :=
    drawFenceLine_draws s t start ⟨1, 0, 0⟩ n spacing model hsh
  refine ⟨calls, hcalls, by rw [hdraws]; simp, ?_⟩
  have hcast : ((n - 1 : Nat) : K) = (n : K) - 1 := by
    rw [Nat.cast_sub hn, Nat.cast_one]
  rw [hdraws, modelView_zero_rotation t hc0 hs0, modelView_zero_rotation t hc0 hs0, hcast]
  simp only [List.cons_append, List.nil_append, List.take_succ_cons, List.take_zero,
    vec3_add_def, vec3_mul_scalar, Int.cast_natCast, Int.cast_sub, Int.cast_one]
  have hx : start.x + 1 * (spacing * ((n : K) - 1) * 0.5) =
      (start.x + (start.x + spacing * ((n : K) - 1))) / 2 := by
    norm_num
    ring
  have hz : start.z + 0 * (spacing * ((n : K) - 1) * 0.5) = start.z := by ring
  have hy1 : start.y + 0 * (spacing * ((n : K) - 1) * 0.5) + -0.30 = start.y - 0.30 := by ring
  have hy2 : start.y + 0 * (spacing * ((n : K) - 1) * 0.5) + 0.05 = start.y + 0.05 := by ring
  simp only [hx, hz, hy1, hy2, add_zero]

/-- The amended C11 over the rationals for the spec's fence: ten posts from the origin along
+X, 0.95 apart. -/
theorem drawFenceLine_rails_witness :
    (blankState : State ℚ).m_pShaderManager = true ∧
      rightAngles.cos (rightAngles.radians 0) = 1 ∧
      rightAngles.sin (rightAngles.radians 0) = 0 ∧ 1 ≤ 10 ∧
      ∃ calls : List (Call ℚ),
        DrawFenceLine (blankState : State ℚ) rightAngles ⟨0, 0, 0⟩ ⟨1, 0, 0⟩ ((10 : Nat) : Int)
          0.95 = some calls ∧
        (drawsWithModel none calls).length = 10 + 2 ∧
        (drawsWithModel none calls).take 2 =
          [(.box, some ⟨⟨0.95 * ((10 : Nat) : ℚ), 0, 0, 0⟩, ⟨0, 0.05, 0, 0⟩, ⟨0, 0, 0.12, 0⟩,
              ⟨(0 + (0 + 0.95 * ((10 - 1 : Nat) : ℚ))) / 2, 0 - 0.30, 0, 1⟩⟩),
            (.box, some ⟨⟨0.95 * ((10 : Nat) : ℚ), 0, 0, 0⟩, ⟨0, 0.05, 0, 0⟩, ⟨0, 0, 0.12, 0⟩,
              ⟨(0 + (0 + 0.95 * ((10 - 1 : Nat) : ℚ))) / 2, 0 + 0.05, 0, 1⟩⟩)] :=
  ⟨rfl, by decide, by decide, by decide,
    drawFenceLine_rails (blankState : State ℚ) rightAngles ⟨0, 0, 0⟩ 10 0.95 none rfl
      (by decide) (by decide) (by decide)⟩

/-- C11, counterexample: for the spec's fence (start (0,0,0), direction (1,0,0), 10 posts,
spacing 0.95) both rails are drawn with x scale 9.5, which is 10 x 0.95 and not the post run
9 x 0.95 = 8.55; they are centred at x = 4.275, the midpoint of the posts. -/
theorem drawFenceLine_rail_width_not_post_run :
    ∃ (calls : List (Call ℚ)) (lower upper : mat4 ℚ),
      DrawFenceLine (blankState : State ℚ) rightAngles ⟨0, 0, 0⟩ ⟨1, 0, 0⟩ 10 0.95 =
        some calls ∧
      (drawsWithModel none calls).take 2 = [(.box, some lower), (.box, some upper)] ∧
      lower.c0 = ⟨9.5, 0, 0, 0⟩ ∧ upper.c0 = ⟨9.5, 0, 0, 0⟩ ∧
      lower.c3 = ⟨4.275, -0.30, 0, 1⟩ ∧ upper.c3 = ⟨4.275, 0.05, 0, 1⟩ ∧
      (9.5 : ℚ) ≠ (10 - 1) * 0.95 := by
  obtain ⟨calls, hcalls, hdraws⟩ :=
    drawFenceLine_draws (blankState : State ℚ) rightAngles ⟨0, 0, 0⟩ ⟨1, 0, 0⟩ 10 0.95 none rfl
  refine ⟨calls, _, _, by exact_mod_cast hcalls, by rw [hdraws]; rfl, ?_, ?_, ?_, ?_,
    by norm_num⟩ <;>
    rw [modelView_zero_rotation rightAngles (by decide) (by decide)] <;>
    simp only [vec3_add_def, vec3_mul_scalar, vec4.mk.injEq] <;> norm_num

end SceneManager
